import Mathlib

/-!
Shallow embedding of the MeeusSunMoon astronomy engine
(src/dist/meeussunmoon-es.js) and verification of its specification.

Modelling conventions:
* JavaScript numbers are modelled as exact rationals where the code only
  performs field operations and floors, and as real numbers where
  transcendental functions (sin, cos, asin, acos, atan2) are involved.
* The `moment` calendar instants are modelled as a record of their UTC
  calendar fields (`Datetime`); `moment` months are zero-indexed, and the
  `month` field here is too, matching every `datetime.month()` call site.
* `moment` instant comparison (`isAfter` / `isBefore`) on UTC-anchored
  instants is field-lexicographic comparison (`dtLt`).
* The source constants 0.017453292519943295 and 57.29577951308232 are the
  IEEE double approximations of pi/180 and 180/pi; the embedding uses the
  exact values.
-/

namespace MSM

/-- Calendar fields of a `moment` instant, viewed in UTC.
`month` is zero-indexed (January = 0), exactly as `moment().month()`. -/
structure Datetime where
  year : ℤ
  month : ℤ
  date : ℤ
  hour : ℤ
  minute : ℤ
  second : ℤ
deriving DecidableEq, Repr

/-- Instant order on UTC datetimes: lexicographic on calendar fields.
This is `moment.isAfter` / `isBefore` restricted to UTC-anchored instants. -/
def dtLt (a b : Datetime) : Prop :=
  a.year < b.year ∨ (a.year = b.year ∧ (a.month < b.month ∨ (a.month = b.month ∧
    (a.date < b.date ∨ (a.date = b.date ∧ (a.hour < b.hour ∨ (a.hour = b.hour ∧
      (a.minute < b.minute ∨ (a.minute = b.minute ∧ a.second < b.second)))))))))

instance (a b : Datetime) : Decidable (dtLt a b) := by
  unfold dtLt; infer_instance

/-- The instant `moment('1582-10-15T12:00:00Z')` used as the Gregorian
cutover test value in `datetimeToJD` (October is month index 9). -/
def gregorianCutoff : Datetime := ⟨1582, 9, 15, 12, 0, 0⟩

/-- The local variable `Y` of `datetimeToJD` (src lines 97-105): the year,
decremented when the one-indexed month `M` is below 3. -/
def monthAdjustedYear (datetime : Datetime) : ℤ :=
  if datetime.month + 1 < 3 then datetime.year - 1 else datetime.year

/-- The local variable `M` of `datetimeToJD` (src lines 99-105): the
one-indexed month, shifted by 12 when below 3. -/
def monthAdjustedMonth (datetime : Datetime) : ℤ :=
  if datetime.month + 1 < 3 then datetime.month + 1 + 12 else datetime.month + 1

/-- The local variable `A = Math.floor(Y / 100)` of `datetimeToJD`
(src line 106). -/
def gregorianA (datetime : Datetime) : ℤ :=
  Int.floor ((monthAdjustedYear datetime : ℚ) / 100)

/-- The Gregorian correction term `B` of `datetimeToJD`
(src lines 106-112): `2 - A + floor(A/4)` if the instant is strictly
after the cutover (`datetime.isAfter(gregorianCutoff)`), else 0. -/
def gregorianB (datetime : Datetime) : ℤ :=
  if dtLt gregorianCutoff datetime then
    2 - gregorianA datetime + Int.floor ((gregorianA datetime : ℚ) / 4)
  else 0

/-- `datetimeToJD` (src lines 96-116): UTC datetime to Julian Date. -/
def datetimeToJD (datetime : Datetime) : ℚ :=
  let D : ℚ := (datetime.date : ℚ) +
    ((datetime.hour : ℚ) + ((datetime.minute : ℚ) + (datetime.second : ℚ) / 60) / 60) / 24
  ((Int.floor ((365.25 : ℚ) * ((monthAdjustedYear datetime : ℚ) + 4716)) : ℤ) : ℚ) +
    ((Int.floor ((30.6001 : ℚ) * ((monthAdjustedMonth datetime : ℚ) + 1)) : ℤ) : ℚ) +
    D + (gregorianB datetime : ℚ) - 1524.5

/-- `JDToDatetime` (src lines 123-159): Julian Date to UTC datetime.
Generic over the ordered field so that it can be evaluated exactly on `ℚ`
and composed with real-valued ephemeris results on `ℝ`. -/
def JDToDatetime {α : Type} [LinearOrderedField α] [FloorRing α] (JD0 : α) : Datetime :=
  let JD : α := JD0 + 0.5
  let Z : ℤ := Int.floor JD
  let F : α := JD - (Z : α)
  let A : ℤ :=
    if Z ≥ 2299161 then
      let alpha : ℤ := Int.floor (((Z : α) - 1867216.25) / 36524.25)
      Z + 1 + alpha - Int.floor ((alpha : α) / 4)
    else Z
  let B : ℤ := A + 1524
  let C : ℤ := Int.floor (((B : α) - 122.1) / 365.25)
  let D : ℤ := Int.floor ((365.25 : α) * (C : α))
  let E : ℤ := Int.floor (((B : α) - (D : α)) / 30.6001)
  let fracDay : α := (B : α) - (D : α) - ((Int.floor ((30.6001 : α) * (E : α)) : ℤ) : α) + F
  let day : ℤ := Int.floor fracDay
  let hours : ℤ := Int.floor ((fracDay - (day : α)) * 24)
  let minutes : ℤ := Int.floor (((fracDay - (day : α)) * 24 - (hours : α)) * 60)
  let seconds : ℤ :=
    Int.floor ((((fracDay - (day : α)) * 24 - (hours : α)) * 60 - (minutes : α)) * 60)
  let month : ℤ := if E > 13 then E - 1 - 12 else E - 1
  let year : ℤ := if month > 2 then C - 4715 - 1 else C - 4715
  ⟨year, month - 1, day, hours, minutes, seconds⟩

/-- `JDToT` (src lines 167-169). -/
def JDToT (JD : ℚ) : ℚ := (JD - 2451545) / 36525

/-- `datetimeToT` (src lines 177-179). -/
def datetimeToT (datetime : Datetime) : ℚ := JDToT (datetimeToJD datetime)

/-- The fractional year used by `DeltaT` (src lines 189-191):
`year + (monthIndex + 0.5)/12`. -/
def deltaTYear (datetime : Datetime) : ℚ :=
  (datetime.year : ℚ) + ((datetime.month : ℚ) + 0.5) / 12

/-- The switch of `DeltaT` (src lines 195-270) as a function of the
fractional year `y`; the source's local `u` and `t` substitutions are
inlined.  The source returns the JavaScript boolean `false` for years
below -1999; this non-number result is modelled as `none`. -/
def DeltaTOfY (y : ℚ) : Option ℚ :=
  if y < -1999 then none
  else if y < -500 then
    some (-20 + 32 * ((y - 1820) / 100) * ((y - 1820) / 100))
  else if y < 500 then
    some (10583.6 - 1014.41 * (y / 100) + 33.78311 * (y / 100) * (y / 100) -
      5.952053 * (y / 100) * (y / 100) * (y / 100) -
      0.1798452 * (y / 100) * (y / 100) * (y / 100) * (y / 100) +
      0.022174192 * (y / 100) * (y / 100) * (y / 100) * (y / 100) * (y / 100) +
      0.0090316521 * (y / 100) * (y / 100) * (y / 100) * (y / 100) * (y / 100) * (y / 100))
  else if y < 1600 then
    some (1574.2 - 556.01 * ((y - 1000) / 100) +
      71.23472 * ((y - 1000) / 100) * ((y - 1000) / 100) +
      0.319781 * ((y - 1000) / 100) * ((y - 1000) / 100) * ((y - 1000) / 100) -
      0.8503463 * ((y - 1000) / 100) * ((y - 1000) / 100) * ((y - 1000) / 100) *
        ((y - 1000) / 100) -
      0.005050998 * ((y - 1000) / 100) * ((y - 1000) / 100) * ((y - 1000) / 100) *
        ((y - 1000) / 100) * ((y - 1000) / 100) +
      0.0083572073 * ((y - 1000) / 100) * ((y - 1000) / 100) * ((y - 1000) / 100) *
        ((y - 1000) / 100) * ((y - 1000) / 100) * ((y - 1000) / 100))
  else if y < 1700 then
    some (120 - 0.9808 * (y - 1600) - 0.01532 * (y - 1600) * (y - 1600) +
      (y - 1600) * (y - 1600) * (y - 1600) / 7129)
  else if y < 1800 then
    some (8.83 + 0.1603 * (y - 1700) - 0.0059285 * (y - 1700) * (y - 1700) +
      0.00013336 * (y - 1700) * (y - 1700) * (y - 1700) -
      (y - 1700) * (y - 1700) * (y - 1700) * (y - 1700) / 1174000)
  else if y < 1860 then
    some (13.72 - 0.332447 * (y - 1800) + 0.0068612 * (y - 1800) * (y - 1800) +
      0.0041116 * (y - 1800) * (y - 1800) * (y - 1800) -
      0.00037436 * (y - 1800) * (y - 1800) * (y - 1800) * (y - 1800) +
      0.0000121272 * (y - 1800) * (y - 1800) * (y - 1800) * (y - 1800) * (y - 1800) -
      0.0000001699 * (y - 1800) * (y - 1800) * (y - 1800) * (y - 1800) * (y - 1800) *
        (y - 1800) +
      0.000000000875 * (y - 1800) * (y - 1800) * (y - 1800) * (y - 1800) * (y - 1800) *
        (y - 1800) * (y - 1800))
  else if y < 1900 then
    some (7.62 + 0.5737 * (y - 1860) - 0.251754 * (y - 1860) * (y - 1860) +
      0.01680668 * (y - 1860) * (y - 1860) * (y - 1860) -
      0.0004473624 * (y - 1860) * (y - 1860) * (y - 1860) * (y - 1860) +
      (y - 1860) * (y - 1860) * (y - 1860) * (y - 1860) * (y - 1860) / 233174)
  else if y < 1920 then
    some (-2.79 + 1.494119 * (y - 1900) - 0.0598939 * (y - 1900) * (y - 1900) +
      0.0061966 * (y - 1900) * (y - 1900) * (y - 1900) -
      0.000197 * (y - 1900) * (y - 1900) * (y - 1900) * (y - 1900))
  else if y < 1941 then
    some (21.20 + 0.84493 * (y - 1920) - 0.076100 * (y - 1920) * (y - 1920) +
      0.0020936 * (y - 1920) * (y - 1920) * (y - 1920))
  else if y < 1961 then
    some (29.07 + 0.407 * (y - 1950) - (y - 1950) * (y - 1950) / 233 +
      (y - 1950) * (y - 1950) * (y - 1950) / 2547)
  else if y < 1986 then
    some (45.45 + 1.067 * (y - 1975) - (y - 1975) * (y - 1975) / 260 -
      (y - 1975) * (y - 1975) * (y - 1975) / 718)
  else if y < 2005 then
    some (63.86 + 0.3345 * (y - 2000) - 0.060374 * (y - 2000) * (y - 2000) +
      0.0017275 * (y - 2000) * (y - 2000) * (y - 2000) +
      0.000651814 * (y - 2000) * (y - 2000) * (y - 2000) * (y - 2000) +
      0.00002373599 * (y - 2000) * (y - 2000) * (y - 2000) * (y - 2000) * (y - 2000))
  else if y < 2050 then
    some (62.92 + 0.32217 * (y - 2000) + 0.005589 * (y - 2000) * (y - 2000))
  else if y < 2150 then
    some (-20 + 32 * ((y - 1820) / 100) * ((y - 1820) / 100) - 0.5628 * (2150 - y))
  else
    some (-20 + 32 * ((y - 1820) / 100) * ((y - 1820) / 100))

/-- `DeltaT` (src lines 188-272): piecewise-polynomial model of TT - UT in
seconds at a datetime's fractional year. -/
def DeltaT (datetime : Datetime) : Option ℚ :=
  DeltaTOfY (deltaTYear datetime)

/-- JavaScript numeric coercion of the `DeltaT` result at its arithmetic
use sites: the boolean `false` coerces to 0. -/
def jsNum (o : Option ℚ) : ℚ := o.getD 0

/-- The fourteen defined polynomial branches of the spec's DeltaT model,
written from the spec's year-range table ([-1999,-500), [-500,500),
[500,1600), [1600,1700), [1700,1800), [1800,1860), [1860,1900),
[1900,1920), [1920,1941), [1941,1961), [1961,1986), [1986,2005),
[2005,2050), [2050,2150), and at or above 2150), for comparison with the
source's switch.  Values below -1999 are outside the model's domain; this
reference function returns 0 there. -/
def deltaTPoly (y : ℚ) : ℚ :=
  if -1999 ≤ y ∧ y < -500 then -20 + 32 * ((y - 1820) / 100) ^ 2
  else if -500 ≤ y ∧ y < 500 then
    10583.6 - 1014.41 * (y / 100) + 33.78311 * (y / 100) ^ 2 -
      5.952053 * (y / 100) ^ 3 - 0.1798452 * (y / 100) ^ 4 +
      0.022174192 * (y / 100) ^ 5 + 0.0090316521 * (y / 100) ^ 6
  else if 500 ≤ y ∧ y < 1600 then
    1574.2 - 556.01 * ((y - 1000) / 100) + 71.23472 * ((y - 1000) / 100) ^ 2 +
      0.319781 * ((y - 1000) / 100) ^ 3 - 0.8503463 * ((y - 1000) / 100) ^ 4 -
      0.005050998 * ((y - 1000) / 100) ^ 5 + 0.0083572073 * ((y - 1000) / 100) ^ 6
  else if 1600 ≤ y ∧ y < 1700 then
    120 - 0.9808 * (y - 1600) - 0.01532 * (y - 1600) ^ 2 + (y - 1600) ^ 3 / 7129
  else if 1700 ≤ y ∧ y < 1800 then
    8.83 + 0.1603 * (y - 1700) - 0.0059285 * (y - 1700) ^ 2 +
      0.00013336 * (y - 1700) ^ 3 - (y - 1700) ^ 4 / 1174000
  else if 1800 ≤ y ∧ y < 1860 then
    13.72 - 0.332447 * (y - 1800) + 0.0068612 * (y - 1800) ^ 2 +
      0.0041116 * (y - 1800) ^ 3 - 0.00037436 * (y - 1800) ^ 4 +
      0.0000121272 * (y - 1800) ^ 5 - 0.0000001699 * (y - 1800) ^ 6 +
      0.000000000875 * (y - 1800) ^ 7
  else if 1860 ≤ y ∧ y < 1900 then
    7.62 + 0.5737 * (y - 1860) - 0.251754 * (y - 1860) ^ 2 +
      0.01680668 * (y - 1860) ^ 3 - 0.0004473624 * (y - 1860) ^ 4 +
      (y - 1860) ^ 5 / 233174
  else if 1900 ≤ y ∧ y < 1920 then
    -2.79 + 1.494119 * (y - 1900) - 0.0598939 * (y - 1900) ^ 2 +
      0.0061966 * (y - 1900) ^ 3 - 0.000197 * (y - 1900) ^ 4
  else if 1920 ≤ y ∧ y < 1941 then
    21.20 + 0.84493 * (y - 1920) - 0.076100 * (y - 1920) ^ 2 +
      0.0020936 * (y - 1920) ^ 3
  else if 1941 ≤ y ∧ y < 1961 then
    29.07 + 0.407 * (y - 1950) - (y - 1950) ^ 2 / 233 + (y - 1950) ^ 3 / 2547
  else if 1961 ≤ y ∧ y < 1986 then
    45.45 + 1.067 * (y - 1975) - (y - 1975) ^ 2 / 260 - (y - 1975) ^ 3 / 718
  else if 1986 ≤ y ∧ y < 2005 then
    63.86 + 0.3345 * (y - 2000) - 0.060374 * (y - 2000) ^ 2 +
      0.0017275 * (y - 2000) ^ 3 + 0.000651814 * (y - 2000) ^ 4 +
      0.00002373599 * (y - 2000) ^ 5
  else if 2005 ≤ y ∧ y < 2050 then
    62.92 + 0.32217 * (y - 2000) + 0.005589 * (y - 2000) ^ 2
  else if 2050 ≤ y ∧ y < 2150 then
    -20 + 32 * ((y - 1820) / 100) ^ 2 - 0.5628 * (2150 - y)
  else if 2150 ≤ y then -20 + 32 * ((y - 1820) / 100) ^ 2
  else 0

/-- `normalizeM` (src lines 816-824), generic over the ordered field. -/
def normalizeM {α : Type} [LinearOrderedField α] (m : α) (utcOffset : ℤ) : α :=
  let localM : α := m + (utcOffset : α) / 1440
  if localM < 0 then m + 1
  else if localM > 1 then m - 1
  else m

-- Sanity checks of the time-scale embedding on concrete dates.
example : datetimeToJD ⟨2000, 0, 1, 12, 0, 0⟩ = 2451545 := by
  norm_num [datetimeToJD, gregorianB, gregorianA, monthAdjustedYear, monthAdjustedMonth, dtLt, gregorianCutoff]
example : JDToDatetime (2451545 : ℚ) = ⟨2000, 0, 1, 12, 0, 0⟩ := by
  norm_num [JDToDatetime]
example : JDToDatetime (datetimeToJD ⟨2013, 5, 19, 7, 31, 25⟩) = ⟨2013, 5, 19, 7, 31, 25⟩ := by
  norm_num [JDToDatetime, datetimeToJD, gregorianB, gregorianA, monthAdjustedYear, monthAdjustedMonth, dtLt, gregorianCutoff]
example : JDToDatetime (datetimeToJD ⟨1000, 1, 28, 23, 59, 59⟩) = ⟨1000, 1, 28, 23, 59, 59⟩ := by
  norm_num [JDToDatetime, datetimeToJD, gregorianB, gregorianA, monthAdjustedYear, monthAdjustedMonth, dtLt, gregorianCutoff]
example : JDToDatetime (datetimeToJD ⟨1582, 9, 4, 6, 30, 0⟩) = ⟨1582, 9, 4, 6, 30, 0⟩ := by
  norm_num [JDToDatetime, datetimeToJD, gregorianB, gregorianA, monthAdjustedYear, monthAdjustedMonth, dtLt, gregorianCutoff]
example : JDToDatetime (datetimeToJD ⟨1582, 9, 16, 0, 0, 1⟩) = ⟨1582, 9, 16, 0, 0, 1⟩ := by
  norm_num [JDToDatetime, datetimeToJD, gregorianB, gregorianA, monthAdjustedYear, monthAdjustedMonth, dtLt, gregorianCutoff]

/-- Claim C1 (code bug witness): the round trip
`JDToDatetime (datetimeToJD x)` does NOT reproduce `x` to within 1 second
for `x` = 1582-10-15T06:00:00Z, a supported date (the first Gregorian
day).  Because `datetimeToJD` keys the Gregorian correction on the
instant being strictly after 1582-10-15T12:00:00Z while `JDToDatetime`
decodes every `Z >= 2299161` with the Gregorian rule, the morning of the
first Gregorian day encodes with the Julian rule (B = 0) and decodes ten
days later, as 1582-10-25T06:00:00Z. -/
theorem roundtrip_fails_on_cutover_morning :
    JDToDatetime (datetimeToJD ⟨1582, 9, 15, 6, 0, 0⟩) = ⟨1582, 9, 25, 6, 0, 0⟩ ∧
      JDToDatetime (datetimeToJD ⟨1582, 9, 15, 6, 0, 0⟩) ≠ ⟨1582, 9, 15, 6, 0, 0⟩ := by
  have h : JDToDatetime (datetimeToJD ⟨1582, 9, 15, 6, 0, 0⟩) = ⟨1582, 9, 25, 6, 0, 0⟩ := by
    norm_num [JDToDatetime, datetimeToJD, gregorianB, gregorianA, monthAdjustedYear, monthAdjustedMonth, dtLt, gregorianCutoff]
  exact ⟨h, by rw [h]; decide⟩

/-- Claim C2 (counterexample): at exactly the cutover instant
1582-10-15T12:00:00Z the code applies NO Gregorian correction
(`gregorianB = 0`), although the claim says the correction applies at or
after the cutover; one second later the correction term is -10. -/
theorem gregorianB_zero_at_cutover_instant :
    gregorianB gregorianCutoff = 0 ∧ gregorianB ⟨1582, 9, 15, 12, 0, 1⟩ = -10 := by
  constructor
  · norm_num [gregorianB, gregorianA, monthAdjustedYear, dtLt, gregorianCutoff]
  · norm_num [gregorianB, gregorianA, monthAdjustedYear, dtLt, gregorianCutoff]

/-- Claim C2 (amended): `datetimeToJD` applies the Gregorian correction
term `B = 2 - A + floor(A/4)` (which is then always nonzero) if and only
if the instant is STRICTLY after the cutover instant 1582-10-15T12:00:00Z;
for every instant at or before the cutover the correction term is 0. -/
theorem gregorianB_iff_strictly_after_cutover (dt : Datetime) :
    (dtLt gregorianCutoff dt →
      gregorianB dt = 2 - gregorianA dt + ⌊((gregorianA dt : ℚ)) / 4⌋ ∧
      gregorianB dt ≠ 0) ∧
    (¬ dtLt gregorianCutoff dt → gregorianB dt = 0) := by
  constructor
  · intro h
    have hY : (1582 : ℤ) ≤ monthAdjustedYear dt := by
      have h' := h
      simp only [dtLt, gregorianCutoff] at h'
      unfold monthAdjustedYear
      rcases h' with h' | ⟨hy, h'⟩
      · split <;> omega
      · have hm : 9 ≤ dt.month := by
          rcases h' with h' | ⟨hmeq, _⟩ <;> omega
        split <;> omega
    have hA : (15 : ℤ) ≤ gregorianA dt := by
      unfold gregorianA
      rw [Int.le_floor]
      have : (1582 : ℚ) ≤ (monthAdjustedYear dt : ℚ) := by exact_mod_cast hY
      push_cast
      linarith
    have hfl : ((⌊((gregorianA dt : ℚ)) / 4⌋ : ℤ) : ℚ) ≤ (gregorianA dt : ℚ) / 4 :=
      Int.floor_le _
    have hBneg : 2 - gregorianA dt + ⌊((gregorianA dt : ℚ)) / 4⌋ < 0 := by
      have h15 : (15 : ℚ) ≤ (gregorianA dt : ℚ) := by exact_mod_cast hA
      have hq : ((2 - gregorianA dt + ⌊((gregorianA dt : ℚ)) / 4⌋ : ℤ) : ℚ) < 0 := by
        push_cast
        linarith
      exact_mod_cast hq
    have hB : gregorianB dt = 2 - gregorianA dt + ⌊((gregorianA dt : ℚ)) / 4⌋ := by
      unfold gregorianB
      rw [if_pos h]
    exact ⟨hB, by rw [hB]; omega⟩
  · intro h
    unfold gregorianB
    rw [if_neg h]

/-- Witness for the amended C2 at the concrete instant 1600-01-01T00:00:00Z. -/
theorem gregorianB_iff_strictly_after_cutover_witness :
    dtLt gregorianCutoff ⟨1600, 0, 1, 0, 0, 0⟩ ∧ gregorianB ⟨1600, 0, 1, 0, 0, 0⟩ ≠ 0 :=
  ⟨by decide, ((gregorianB_iff_strictly_after_cutover ⟨1600, 0, 1, 0, 0, 0⟩).1 (by decide)).2⟩

/-- Claim C3 (code bug witness): `datetimeToJD` is NOT strictly increasing
in calendar time: 1582-10-15T11:00:00Z is earlier than 1582-10-15T13:00:00Z
but maps to a LARGER Julian Date (2299170.958... vs 2299161.041...),
because the Gregorian correction switches on in mid-day at the cutover. -/
theorem datetimeToJD_not_monotone_at_cutover :
    dtLt ⟨1582, 9, 15, 11, 0, 0⟩ ⟨1582, 9, 15, 13, 0, 0⟩ ∧
      datetimeToJD ⟨1582, 9, 15, 13, 0, 0⟩ < datetimeToJD ⟨1582, 9, 15, 11, 0, 0⟩ := by
  constructor
  · decide
  · norm_num [datetimeToJD, gregorianB, gregorianA, monthAdjustedYear, monthAdjustedMonth, dtLt, gregorianCutoff]

/-- Every fractional year at or above -1999 has a defined (numeric)
DeltaT result. -/
lemma DeltaTOfY_isSome (y : ℚ) (h : -1999 ≤ y) : ∃ q : ℚ, DeltaTOfY y = some q := by
  unfold DeltaTOfY
  rw [if_neg (not_lt.mpr h)]
  rcases lt_or_le y (-500) with h2 | h2
  · rw [if_pos h2]; exact ⟨_, rfl⟩
  rw [if_neg (not_lt.mpr h2)]
  rcases lt_or_le y 500 with h3 | h3
  · rw [if_pos h3]; exact ⟨_, rfl⟩
  rw [if_neg (not_lt.mpr h3)]
  rcases lt_or_le y 1600 with h4 | h4
  · rw [if_pos h4]; exact ⟨_, rfl⟩
  rw [if_neg (not_lt.mpr h4)]
  rcases lt_or_le y 1700 with h5 | h5
  · rw [if_pos h5]; exact ⟨_, rfl⟩
  rw [if_neg (not_lt.mpr h5)]
  rcases lt_or_le y 1800 with h6 | h6
  · rw [if_pos h6]; exact ⟨_, rfl⟩
  rw [if_neg (not_lt.mpr h6)]
  rcases lt_or_le y 1860 with h7 | h7
  · rw [if_pos h7]; exact ⟨_, rfl⟩
  rw [if_neg (not_lt.mpr h7)]
  rcases lt_or_le y 1900 with h8 | h8
  · rw [if_pos h8]; exact ⟨_, rfl⟩
  rw [if_neg (not_lt.mpr h8)]
  rcases lt_or_le y 1920 with h9 | h9
  · rw [if_pos h9]; exact ⟨_, rfl⟩
  rw [if_neg (not_lt.mpr h9)]
  rcases lt_or_le y 1941 with h10 | h10
  · rw [if_pos h10]; exact ⟨_, rfl⟩
  rw [if_neg (not_lt.mpr h10)]
  rcases lt_or_le y 1961 with h11 | h11
  · rw [if_pos h11]; exact ⟨_, rfl⟩
  rw [if_neg (not_lt.mpr h11)]
  rcases lt_or_le y 1986 with h12 | h12
  · rw [if_pos h12]; exact ⟨_, rfl⟩
  rw [if_neg (not_lt.mpr h12)]
  rcases lt_or_le y 2005 with h13 | h13
  · rw [if_pos h13]; exact ⟨_, rfl⟩
  rw [if_neg (not_lt.mpr h13)]
  rcases lt_or_le y 2050 with h14 | h14
  · rw [if_pos h14]; exact ⟨_, rfl⟩
  rw [if_neg (not_lt.mpr h14)]
  rcases lt_or_le y 2150 with h15 | h15
  · rw [if_pos h15]; exact ⟨_, rfl⟩
  rw [if_neg (not_lt.mpr h15)]
  exact ⟨_, rfl⟩

/-- Claim C6: `DeltaT` signals an undefined result (the non-number `false`,
modelled as `none`) exactly for fractional years below -1999, and for
every fractional year at or above -1999 it returns the value of the
polynomial branch of the year range containing the year. -/
theorem DeltaT_undefined_iff_below_minus1999 (dt : Datetime) :
    (DeltaT dt = none ↔ deltaTYear dt < -1999) ∧
      (-1999 ≤ deltaTYear dt → DeltaT dt = some (deltaTPoly (deltaTYear dt))) := by
  have main : ∀ y : ℚ, (DeltaTOfY y = none ↔ y < -1999) ∧
      (-1999 ≤ y → DeltaTOfY y = some (deltaTPoly y)) := by
    intro y
    constructor
    · constructor
      · intro hnone
        by_contra hlt
        push_neg at hlt
        obtain ⟨q, hq⟩ := DeltaTOfY_isSome y hlt
        rw [hq] at hnone
        exact Option.some_ne_none _ hnone
      · intro h
        unfold DeltaTOfY
        rw [if_pos h]
    · intro hge
      unfold DeltaTOfY
      rw [if_neg (not_lt.mpr hge)]
      rcases lt_or_le y (-500) with h2 | h2
      · rw [if_pos h2]
        congr 1
        unfold deltaTPoly
        rw [if_pos ⟨hge, h2⟩]
        ring
      rw [if_neg (not_lt.mpr h2)]
      rcases lt_or_le y 500 with h3 | h3
      · rw [if_pos h3]
        congr 1
        unfold deltaTPoly
        rw [if_neg (by rintro ⟨-, hr⟩; linarith),
          if_pos ⟨h2, h3⟩]
        ring
      rw [if_neg (not_lt.mpr h3)]
      rcases lt_or_le y 1600 with h4 | h4
      · rw [if_pos h4]
        congr 1
        unfold deltaTPoly
        rw [if_neg (by rintro ⟨-, hr⟩; linarith), if_neg (by rintro ⟨-, hr⟩; linarith),
          if_pos ⟨h3, h4⟩]
        ring
      rw [if_neg (not_lt.mpr h4)]
      rcases lt_or_le y 1700 with h5 | h5
      · rw [if_pos h5]
        congr 1
        unfold deltaTPoly
        rw [if_neg (by rintro ⟨-, hr⟩; linarith), if_neg (by rintro ⟨-, hr⟩; linarith), if_neg (by rintro ⟨-, hr⟩; linarith),
          if_pos ⟨h4, h5⟩]
        ring
      rw [if_neg (not_lt.mpr h5)]
      rcases lt_or_le y 1800 with h6 | h6
      · rw [if_pos h6]
        congr 1
        unfold deltaTPoly
        rw [if_neg (by rintro ⟨-, hr⟩; linarith), if_neg (by rintro ⟨-, hr⟩; linarith), if_neg (by rintro ⟨-, hr⟩; linarith), if_neg (by rintro ⟨-, hr⟩; linarith),
          if_pos ⟨h5, h6⟩]
        ring
      rw [if_neg (not_lt.mpr h6)]
      rcases lt_or_le y 1860 with h7 | h7
      · rw [if_pos h7]
        congr 1
        unfold deltaTPoly
        rw [if_neg (by rintro ⟨-, hr⟩; linarith), if_neg (by rintro ⟨-, hr⟩; linarith), if_neg (by rintro ⟨-, hr⟩; linarith), if_neg (by rintro ⟨-, hr⟩; linarith), if_neg (by rintro ⟨-, hr⟩; linarith),
          if_pos ⟨h6, h7⟩]
        ring
      rw [if_neg (not_lt.mpr h7)]
      rcases lt_or_le y 1900 with h8 | h8
      · rw [if_pos h8]
        congr 1
        unfold deltaTPoly
        rw [if_neg (by rintro ⟨-, hr⟩; linarith), if_neg (by rintro ⟨-, hr⟩; linarith), if_neg (by rintro ⟨-, hr⟩; linarith), if_neg (by rintro ⟨-, hr⟩; linarith), if_neg (by rintro ⟨-, hr⟩; linarith), if_neg (by rintro ⟨-, hr⟩; linarith),
          if_pos ⟨h7, h8⟩]
        ring
      rw [if_neg (not_lt.mpr h8)]
      rcases lt_or_le y 1920 with h9 | h9
      · rw [if_pos h9]
        congr 1
        unfold deltaTPoly
        rw [if_neg (by rintro ⟨-, hr⟩; linarith), if_neg (by rintro ⟨-, hr⟩; linarith), if_neg (by rintro ⟨-, hr⟩; linarith), if_neg (by rintro ⟨-, hr⟩; linarith), if_neg (by rintro ⟨-, hr⟩; linarith), if_neg (by rintro ⟨-, hr⟩; linarith), if_neg (by rintro ⟨-, hr⟩; linarith),
          if_pos ⟨h8, h9⟩]
        ring
      rw [if_neg (not_lt.mpr h9)]
      rcases lt_or_le y 1941 with h10 | h10
      · rw [if_pos h10]
        congr 1
        unfold deltaTPoly
        rw [if_neg (by rintro ⟨-, hr⟩; linarith), if_neg (by rintro ⟨-, hr⟩; linarith), if_neg (by rintro ⟨-, hr⟩; linarith), if_neg (by rintro ⟨-, hr⟩; linarith), if_neg (by rintro ⟨-, hr⟩; linarith), if_neg (by rintro ⟨-, hr⟩; linarith), if_neg (by rintro ⟨-, hr⟩; linarith), if_neg (by rintro ⟨-, hr⟩; linarith),
          if_pos ⟨h9, h10⟩]
        ring
      rw [if_neg (not_lt.mpr h10)]
      rcases lt_or_le y 1961 with h11 | h11
      · rw [if_pos h11]
        congr 1
        unfold deltaTPoly
        rw [if_neg (by rintro ⟨-, hr⟩; linarith), if_neg (by rintro ⟨-, hr⟩; linarith), if_neg (by rintro ⟨-, hr⟩; linarith), if_neg (by rintro ⟨-, hr⟩; linarith), if_neg (by rintro ⟨-, hr⟩; linarith), if_neg (by rintro ⟨-, hr⟩; linarith), if_neg (by rintro ⟨-, hr⟩; linarith), if_neg (by rintro ⟨-, hr⟩; linarith), if_neg (by rintro ⟨-, hr⟩; linarith),
          if_pos ⟨h10, h11⟩]
        ring
      rw [if_neg (not_lt.mpr h11)]
      rcases lt_or_le y 1986 with h12 | h12
      · rw [if_pos h12]
        congr 1
        unfold deltaTPoly
        rw [if_neg (by rintro ⟨-, hr⟩; linarith), if_neg (by rintro ⟨-, hr⟩; linarith), if_neg (by rintro ⟨-, hr⟩; linarith), if_neg (by rintro ⟨-, hr⟩; linarith), if_neg (by rintro ⟨-, hr⟩; linarith), if_neg (by rintro ⟨-, hr⟩; linarith), if_neg (by rintro ⟨-, hr⟩; linarith), if_neg (by rintro ⟨-, hr⟩; linarith), if_neg (by rintro ⟨-, hr⟩; linarith), if_neg (by rintro ⟨-, hr⟩; linarith),
          if_pos ⟨h11, h12⟩]
        ring
      rw [if_neg (not_lt.mpr h12)]
      rcases lt_or_le y 2005 with h13 | h13
      · rw [if_pos h13]
        congr 1
        unfold deltaTPoly
        rw [if_neg (by rintro ⟨-, hr⟩; linarith), if_neg (by rintro ⟨-, hr⟩; linarith), if_neg (by rintro ⟨-, hr⟩; linarith), if_neg (by rintro ⟨-, hr⟩; linarith), if_neg (by rintro ⟨-, hr⟩; linarith), if_neg (by rintro ⟨-, hr⟩; linarith), if_neg (by rintro ⟨-, hr⟩; linarith), if_neg (by rintro ⟨-, hr⟩; linarith), if_neg (by rintro ⟨-, hr⟩; linarith), if_neg (by rintro ⟨-, hr⟩; linarith), if_neg (by rintro ⟨-, hr⟩; linarith),
          if_pos ⟨h12, h13⟩]
        ring
      rw [if_neg (not_lt.mpr h13)]
      rcases lt_or_le y 2050 with h14 | h14
      · rw [if_pos h14]
        congr 1
        unfold deltaTPoly
        rw [if_neg (by rintro ⟨-, hr⟩; linarith), if_neg (by rintro ⟨-, hr⟩; linarith), if_neg (by rintro ⟨-, hr⟩; linarith), if_neg (by rintro ⟨-, hr⟩; linarith), if_neg (by rintro ⟨-, hr⟩; linarith), if_neg (by rintro ⟨-, hr⟩; linarith), if_neg (by rintro ⟨-, hr⟩; linarith), if_neg (by rintro ⟨-, hr⟩; linarith), if_neg (by rintro ⟨-, hr⟩; linarith), if_neg (by rintro ⟨-, hr⟩; linarith), if_neg (by rintro ⟨-, hr⟩; linarith), if_neg (by rintro ⟨-, hr⟩; linarith),
          if_pos ⟨h13, h14⟩]
        ring
      rw [if_neg (not_lt.mpr h14)]
      rcases lt_or_le y 2150 with h15 | h15
      · rw [if_pos h15]
        congr 1
        unfold deltaTPoly
        rw [if_neg (by rintro ⟨-, hr⟩; linarith), if_neg (by rintro ⟨-, hr⟩; linarith), if_neg (by rintro ⟨-, hr⟩; linarith), if_neg (by rintro ⟨-, hr⟩; linarith), if_neg (by rintro ⟨-, hr⟩; linarith), if_neg (by rintro ⟨-, hr⟩; linarith), if_neg (by rintro ⟨-, hr⟩; linarith), if_neg (by rintro ⟨-, hr⟩; linarith), if_neg (by rintro ⟨-, hr⟩; linarith), if_neg (by rintro ⟨-, hr⟩; linarith), if_neg (by rintro ⟨-, hr⟩; linarith), if_neg (by rintro ⟨-, hr⟩; linarith), if_neg (by rintro ⟨-, hr⟩; linarith),
          if_pos ⟨h14, h15⟩]
        ring
      rw [if_neg (not_lt.mpr h15)]
      congr 1
      unfold deltaTPoly
      rw [if_neg (by rintro ⟨-, hr⟩; linarith), if_neg (by rintro ⟨-, hr⟩; linarith), if_neg (by rintro ⟨-, hr⟩; linarith), if_neg (by rintro ⟨-, hr⟩; linarith), if_neg (by rintro ⟨-, hr⟩; linarith), if_neg (by rintro ⟨-, hr⟩; linarith), if_neg (by rintro ⟨-, hr⟩; linarith), if_neg (by rintro ⟨-, hr⟩; linarith), if_neg (by rintro ⟨-, hr⟩; linarith), if_neg (by rintro ⟨-, hr⟩; linarith), if_neg (by rintro ⟨-, hr⟩; linarith), if_neg (by rintro ⟨-, hr⟩; linarith), if_neg (by rintro ⟨-, hr⟩; linarith), if_neg (by rintro ⟨-, hr⟩; linarith),
        if_pos h15]
      ring
  exact main (deltaTYear dt)

/-- Witness for C6 at the concrete date 1988-03-20T00:00:00Z. -/
theorem DeltaT_undefined_iff_below_minus1999_witness :
    (-1999 : ℚ) ≤ deltaTYear ⟨1988, 2, 20, 0, 0, 0⟩ ∧
      DeltaT ⟨1988, 2, 20, 0, 0, 0⟩ = some (deltaTPoly (deltaTYear ⟨1988, 2, 20, 0, 0, 0⟩)) :=
  ⟨by norm_num [deltaTYear],
    (DeltaT_undefined_iff_below_minus1999 ⟨1988, 2, 20, 0, 0, 0⟩).2 (by norm_num [deltaTYear])⟩

/-- Claim C8 (counterexample): for `m = 1`, `utcOffset = 0` the shifted
value `m + utcOffset/1440 = 1` lies OUTSIDE the half-open interval `[0,1)`
claimed, yet `normalizeM` returns `m` unchanged. -/
theorem normalizeM_unchanged_at_one :
    normalizeM (1 : ℚ) 0 = 1 ∧ ¬ ((1 : ℚ) + ((0 : ℤ) : ℚ) / 1440 < 1) := by
  constructor
  · norm_num [normalizeM]
  · norm_num

/-- Claim C8 (amended): `normalizeM m utcOffset` shifts `m` by -1 day
exactly when `m + utcOffset/1440 > 1`, by +1 day exactly when
`m + utcOffset/1440 < 0`, and returns `m` unchanged exactly when
`m + utcOffset/1440` lies in the CLOSED interval `[0,1]`. -/
theorem normalizeM_characterization {α : Type} [LinearOrderedField α] (m : α) (utcOffset : ℤ) :
    (m + (utcOffset : α) / 1440 < 0 → normalizeM m utcOffset = m + 1) ∧
    (1 < m + (utcOffset : α) / 1440 → normalizeM m utcOffset = m - 1) ∧
    (0 ≤ m + (utcOffset : α) / 1440 ∧ m + (utcOffset : α) / 1440 ≤ 1 →
      normalizeM m utcOffset = m) := by
  simp only [normalizeM]
  refine ⟨fun h => ?_, fun h => ?_, fun h => ?_⟩ <;> split_ifs with h1 h2 <;>
    first | rfl | linarith | linarith [h.1, h.2]

/-- Witness for the amended C8 at `m = 1/2`, `utcOffset = 0`. -/
theorem normalizeM_characterization_witness :
    ((0 : ℚ) ≤ (1 / 2 : ℚ) + ((0 : ℤ) : ℚ) / 1440 ∧ (1 / 2 : ℚ) + ((0 : ℤ) : ℚ) / 1440 ≤ 1) ∧
      normalizeM (1 / 2 : ℚ) 0 = 1 / 2 :=
  ⟨by norm_num, (normalizeM_characterization (1 / 2 : ℚ) 0).2.2 (by norm_num)⟩

/-!  Real-valued angle utilities (src lines 12-88).  The source multiplies
by the IEEE double approximations of pi/180 and 180/pi; the embedding
uses the exact constants. -/

/-- The source function `deg2rad` (src lines 12-14). -/
noncomputable def deg2rad (deg : ℝ) : ℝ := deg * (Real.pi / 180)

/-- The source function `rad2deg` (src lines 21-23). -/
noncomputable def rad2deg (rad : ℝ) : ℝ := rad * (180 / Real.pi)

/-- The source function `sind` (src lines 30-32). -/
noncomputable def sind (deg : ℝ) : ℝ := Real.sin (deg2rad deg)

/-- The source function `cosd` (src lines 39-41). -/
noncomputable def cosd (deg : ℝ) : ℝ := Real.cos (deg2rad deg)

/-- The source function `reduceAngle` (src lines 48-50). -/
noncomputable def reduceAngle (angle : ℝ) : ℝ :=
  angle - 360 * ((Int.floor (angle / 360) : ℤ) : ℝ)

/-- The source function `polynomial` (src lines 58-67): evaluates
`A + B x + C x^2 + ...` by the source's accumulation loop. -/
def polynomial {α : Type} [CommRing α] (x : α) (coeffs : List α) : α :=
  (coeffs.foldl (fun acc c => (acc.1 + acc.2 * c, acc.2 * x)) ((0 : α), (1 : α))).1

/-- The source function `interpolateFromThree` (src lines 78-88). -/
noncomputable def interpolateFromThree (y1 y2 y3 n : ℝ) (normalize : Bool) : ℝ :=
  let a0 := y2 - y1
  let b0 := y3 - y2
  let a := if normalize = true ∧ a0 < 0 then a0 + 360 else a0
  let b := if normalize = true ∧ b0 < 0 then b0 + 360 else b0
  let c := b - a
  y2 + (n / 2) * (a + b + n * c)

/-!  MoonPhaseSolver series (src lines 281-570). -/

/-- `approxK` (src lines 281-285): approximate lunation count since
2000-01-06 for a datetime. -/
def approxK (datetime : Datetime) : ℚ :=
  ((datetime.year : ℚ) + ((datetime.month : ℚ) + 1) / 12 +
    (datetime.date : ℚ) / 365.25 - 2000) * 12.3685

/-- `kToT` (src lines 292-294). -/
noncomputable def kToT (k : ℝ) : ℝ := k / 1236.85

/-- `meanPhase` (src lines 336-340). -/
noncomputable def meanPhase (T k : ℝ) : ℝ :=
  2451550.09766 + 29.530588861 * k + 0.00015437 * T * T -
    0.000000150 * T * T * T + 0.00000000073 * T * T * T * T

/-- `sunMeanAnomaly` of the moon-phase solver (src lines 350-354). -/
noncomputable def sunMeanAnomaly (T k : ℝ) : ℝ :=
  2.5534 + 29.10535670 * k - 0.0000014 * T * T - 0.00000011 * T * T * T

/-- `moonMeanAnomaly` of the moon-phase solver (src lines 364-368). -/
noncomputable def moonMeanAnomaly (T k : ℝ) : ℝ :=
  201.5643 + 385.81693528 * k + 0.0107582 * T * T + 0.00001238 * T * T * T -
    0.000000058 * T * T * T * T

/-- `moonArgumentOfLatitude` of the moon-phase solver (src lines 378-382). -/
noncomputable def moonArgumentOfLatitude (T k : ℝ) : ℝ :=
  160.7108 + 390.67050284 * k - 0.0016118 * T * T - 0.00000227 * T * T * T +
    0.000000011 * T * T * T * T

/-- `moonAscendingNodeLongitude` of the moon-phase solver
(src lines 394-398). -/
noncomputable def moonAscendingNodeLongitude (T k : ℝ) : ℝ :=
  124.7746 - 1.56375588 * k + 0.0020672 * T * T + 0.00000215 * T * T * T

/-- `eccentricityCorrection` (src lines 406-409). -/
noncomputable def eccentricityCorrection (T : ℝ) : ℝ :=
  1 - 0.002516 * T - 0.0000074 * T * T

/-- `planetaryArguments` (src lines 419-440): the array `A[0..14]`. -/
noncomputable def planetaryArguments (T k : ℝ) : List ℝ :=
  [0,
   299.77 + 0.107408 * k - 0.009173 * T * T,
   251.88 + 0.016321 * k,
   251.83 + 26.651886 * k,
   349.42 + 36.412478 * k,
   84.66 + 18.206239 * k,
   141.74 + 53.303771 * k,
   207.14 + 2.453732 * k,
   154.84 + 7.306860 * k,
   34.52 + 27.261239 * k,
   207.19 + 0.121824 * k,
   291.34 + 1.844379 * k,
   161.72 + 24.198154 * k,
   239.56 + 25.513099 * k,
   331.55 + 3.592518 * k]

/-- `commonCorrections` (src lines 449-465). -/
noncomputable def commonCorrections (A : List ℝ) : ℝ :=
  0.000325 * sind (A.getD 1 0) +
  0.000165 * sind (A.getD 2 0) +
  0.000164 * sind (A.getD 3 0) +
  0.000126 * sind (A.getD 4 0) +
  0.000110 * sind (A.getD 5 0) +
  0.000062 * sind (A.getD 6 0) +
  0.000060 * sind (A.getD 7 0) +
  0.000056 * sind (A.getD 8 0) +
  0.000047 * sind (A.getD 9 0) +
  0.000042 * sind (A.getD 10 0) +
  0.000040 * sind (A.getD 11 0) +
  0.000037 * sind (A.getD 12 0) +
  0.000035 * sind (A.getD 13 0) +
  0.000023 * sind (A.getD 14 0)

/-- `newMoonFullMoonCorrections` (src lines 480-517).  The source
initializes `DeltaJDE` with the 18 common terms and adds the phase-0 or
phase-2 block; any other phase leaves only the common terms. -/
noncomputable def newMoonFullMoonCorrections (E M MPrime F Omega : ℝ) (phase : ℕ) : ℝ :=
  let base :=
    -0.00111 * sind (MPrime - 2 * F) -
    0.00057 * sind (MPrime + 2 * F) +
    0.00056 * E * sind (2 * MPrime + M) -
    0.00042 * sind (3 * MPrime) +
    0.00042 * E * sind (M + 2 * F) +
    0.00038 * E * sind (M - 2 * F) -
    0.00024 * E * sind (2 * MPrime - M) -
    0.00017 * sind Omega -
    0.00007 * sind (MPrime + 2 * M) +
    0.00004 * sind (2 * MPrime - 2 * F) +
    0.00004 * sind (3 * M) +
    0.00003 * sind (MPrime + M - 2 * F) +
    0.00003 * sind (2 * MPrime + 2 * F) -
    0.00003 * sind (MPrime + M + 2 * F) +
    0.00003 * sind (MPrime - M + 2 * F) -
    0.00002 * sind (MPrime - M - 2 * F) -
    0.00002 * sind (3 * MPrime + M) +
    0.00002 * sind (4 * MPrime)
  if phase = 0 then
    base +
      (-0.40720 * sind MPrime +
        0.17241 * E * sind M +
        0.01608 * sind (2 * MPrime) +
        0.01039 * sind (2 * F) +
        0.00739 * E * sind (MPrime - M) -
        0.00514 * E * sind (MPrime + M) +
        0.00208 * E * E * sind (2 * M))
  else if phase = 2 then
    base +
      (-0.40614 * sind MPrime +
        0.17302 * E * sind M +
        0.01614 * sind (2 * MPrime) +
        0.01043 * sind (2 * F) +
        0.00734 * E * sind (MPrime - M) -
        0.00515 * E * sind (MPrime + M) +
        0.00209 * E * E * sind (2 * M))
  else base

/-- `quarterCorrections` (src lines 532-570). -/
noncomputable def quarterCorrections (E M MPrime F Omega : ℝ) (phase : ℕ) : ℝ :=
  let base :=
    -0.62801 * sind MPrime +
    0.17172 * E * sind M -
    0.01183 * E * sind (MPrime + M) +
    0.00862 * sind (2 * MPrime) +
    0.00804 * sind (2 * F) +
    0.00454 * E * sind (MPrime - M) +
    0.00204 * E * E * sind (2 * M) -
    0.00180 * sind (MPrime - 2 * F) -
    0.00070 * sind (MPrime + 2 * F) -
    0.00040 * sind (3 * MPrime) -
    0.00034 * E * sind (2 * MPrime - M) +
    0.00032 * E * sind (M + 2 * F) +
    0.00032 * E * sind (M - 2 * F) -
    0.00028 * E * E * sind (MPrime + 2 * M) +
    0.00027 * E * sind (2 * MPrime + M) -
    0.00017 * sind Omega -
    0.00005 * sind (MPrime - M - 2 * F) +
    0.00004 * sind (2 * MPrime + 2 * F) -
    0.00004 * sind (MPrime + M + 2 * F) +
    0.00004 * sind (MPrime - 2 * M) +
    0.00003 * sind (MPrime + M - 2 * F) +
    0.00003 * sind (3 * M) +
    0.00002 * sind (2 * MPrime - 2 * F) +
    0.00002 * sind (MPrime - M + 2 * F) -
    0.00002 * sind (3 * MPrime + M)
  let W :=
    0.00306 -
    0.00038 * E * cosd M +
    0.00026 * cosd MPrime -
    0.00002 * cosd (MPrime - M) +
    0.00002 * cosd (MPrime + M) +
    0.00002 * cosd (2 * F)
  if phase = 1 then base + W
  else if phase = 3 then base - W
  else base

/-- `truePhase` (src lines 305-324): Julian date in ephemeris time of the
moon phase near lunation `k`. -/
noncomputable def truePhase (k0 : ℝ) (phase : ℕ) : ℝ :=
  let k := k0 + (phase : ℝ) / 4
  let T := kToT k
  let E := eccentricityCorrection T
  let M := sunMeanAnomaly T k
  let MPrime := moonMeanAnomaly T k
  let F := moonArgumentOfLatitude T k
  let Omega := moonAscendingNodeLongitude T k
  let A := planetaryArguments T k
  let DeltaJDE : ℝ :=
    (if phase = 0 ∨ phase = 2 then
      newMoonFullMoonCorrections E M MPrime F Omega phase
    else if phase = 1 ∨ phase = 3 then
      quarterCorrections E M MPrime F Omega phase
    else 0) + commonCorrections A
  meanPhase T k + DeltaJDE

/-!  Solar position series (src lines 572-1173). -/

/-- `atan2` as used by the source (`Math.atan2(y, x)`), modelled by the
complex argument. -/
noncomputable def atan2 (y x : ℝ) : ℝ := Complex.arg ⟨x, y⟩

/-- Coefficient table `sunMeanAnomaly$1` (src line 575). -/
noncomputable def sunMeanAnomalyCoeffs : List ℝ :=
  [357.52772, 35999.050340, -0.0001603, -1 / 300000]

/-- Coefficient table `sunMeanLongitude` (src line 578). -/
noncomputable def sunMeanLongitudeCoeffs : List ℝ := [280.46646, 36000.76983, 0.0003032]

/-- Coefficient table `meanObliquityOfEcliptic` (src lines 581-584). -/
noncomputable def meanObliquityOfEclipticCoeffs : List ℝ :=
  [84381.448 / 3600, -4680.93 / 3600, -1.55 / 3600, 1999.25 / 3600,
   -51.38 / 3600, -249.67 / 3600, -39.05 / 3600, 7.12 / 3600, 27.87 / 3600,
   5.79 / 3600, 2.45 / 3600]

/-- Coefficient table `moonArgumentOfLatitude$1` (src lines 587-588). -/
noncomputable def moonArgumentOfLatitudeCoeffs : List ℝ :=
  [93.27191, 483202.017538, -0.0036825, 1 / 327270]

/-- Coefficient table `moonAscendingNodeLongitude$1` (src lines 591-592). -/
noncomputable def moonAscendingNodeLongitudeCoeffs : List ℝ :=
  [125.04452, -1934.136261, 0.0020708, 1 / 450000]

/-- Coefficient table `moonMeanAnomaly$1` (src line 595). -/
noncomputable def moonMeanAnomalyCoeffs : List ℝ :=
  [134.96298, 477198.867398, 0.0086972, 1 / 56250]

/-- Coefficient table `moonMeanElongation` (src line 598). -/
noncomputable def moonMeanElongationCoeffs : List ℝ :=
  [297.85036, 445267.111480, -0.0019142, 1 / 189474]

/-- One row of the 63-term nutation series (src lines 604-667): the five
integer argument multipliers for D, M, MPrime, F, Omega, then the sine
coefficients (0.0001 arcsec) for nutation in longitude and the cosine
coefficients for nutation in obliquity. -/
structure NutationRow where
  mulD : ℝ
  mulM : ℝ
  mulMPrime : ℝ
  mulF : ℝ
  mulOmega : ℝ
  psi0 : ℝ
  psiT : ℝ
  eps0 : ℝ
  epsT : ℝ

/-- The nutation table `nutations` (src lines 604-667), 63 rows. -/
noncomputable def nutations : List NutationRow :=
  [
   ⟨0, 0, 0, 0, 1, -171996, -174.2, 92025, 8.9⟩,
   ⟨-2, 0, 0, 2, 2, -13187, -1.6, 5736, -3.1⟩,
   ⟨0, 0, 0, 2, 2, -2274, -0.2, 977, -0.5⟩,
   ⟨0, 0, 0, 0, 2, 2062, 0.2, -895, 0.5⟩,
   ⟨0, 1, 0, 0, 0, 1426, -3.4, 54, -0.1⟩,
   ⟨0, 0, 1, 0, 0, 712, 0.1, -7, 0⟩,
   ⟨-2, 1, 0, 2, 2, -517, 1.2, 224, -0.6⟩,
   ⟨0, 0, 0, 2, 1, -386, -0.4, 200, 0⟩,
   ⟨0, 0, 1, 2, 2, -301, 0, 129, -0.1⟩,
   ⟨-2, -1, 0, 2, 2, 217, -0.5, -95, 0.3⟩,
   ⟨-2, 0, 1, 0, 0, -158, 0, 0, 0⟩,
   ⟨-2, 0, 0, 2, 1, 129, 0.1, -70, 0⟩,
   ⟨0, 0, -1, 2, 2, 123, 0, -53, 0⟩,
   ⟨2, 0, 0, 0, 0, 63, 0, 0, 0⟩,
   ⟨0, 0, 1, 0, 1, 63, 0.1, -33, 0⟩,
   ⟨2, 0, -1, 2, 2, -59, 0, 26, 0⟩,
   ⟨0, 0, -1, 0, 1, -58, -0.1, 32, 0⟩,
   ⟨0, 0, 1, 2, 1, -51, 0, 27, 0⟩,
   ⟨-2, 0, 2, 0, 0, 48, 0, 0, 0⟩,
   ⟨0, 0, -2, 2, 1, 46, 0, -24, 0⟩,
   ⟨2, 0, 0, 2, 2, -38, 0, 16, 0⟩,
   ⟨0, 0, 2, 2, 2, -31, 0, 13, 0⟩,
   ⟨0, 0, 2, 0, 0, 29, 0, 0, 0⟩,
   ⟨-2, 0, 1, 2, 2, 29, 0, -12, 0⟩,
   ⟨0, 0, 0, 2, 0, 26, 0, 0, 0⟩,
   ⟨-2, 0, 0, 2, 0, -22, 0, 0, 0⟩,
   ⟨0, 0, -1, 2, 1, 21, 0, -10, 0⟩,
   ⟨0, 2, 0, 0, 0, 17, -0.1, 0, 0⟩,
   ⟨2, 0, -1, 0, 1, 16, 0, -8, 0⟩,
   ⟨-2, 2, 0, 2, 2, -16, 0.1, 7, 0⟩,
   ⟨0, 1, 0, 0, 1, -15, 0, 9, 0⟩,
   ⟨-2, 0, 1, 0, 1, -13, 0, 7, 0⟩,
   ⟨0, -1, 0, 0, 1, -12, 0, 6, 0⟩,
   ⟨0, 0, 2, -2, 0, 11, 0, 0, 0⟩,
   ⟨2, 0, -1, 2, 1, -10, 0, 5, 0⟩,
   ⟨2, 0, 1, 2, 2, -8, 0, 3, 0⟩,
   ⟨0, 1, 0, 2, 2, 7, 0, -3, 0⟩,
   ⟨-2, 1, 1, 0, 0, -7, 0, 0, 0⟩,
   ⟨0, -1, 0, 2, 2, -7, 0, 3, 0⟩,
   ⟨2, 0, 0, 2, 1, -7, 0, 3, 0⟩,
   ⟨2, 0, 1, 0, 0, 6, 0, 0, 0⟩,
   ⟨-2, 0, 2, 2, 2, 6, 0, -3, 0⟩,
   ⟨-2, 0, 1, 2, 1, 6, 0, -3, 0⟩,
   ⟨2, 0, -2, 0, 1, -6, 0, 3, 0⟩,
   ⟨2, 0, 0, 0, 1, -6, 0, 3, 0⟩,
   ⟨0, -1, 1, 0, 0, 5, 0, 0, 0⟩,
   ⟨-2, -1, 0, 2, 1, -5, 0, 3, 0⟩,
   ⟨-2, 0, 0, 0, 1, -5, 0, 3, 0⟩,
   ⟨0, 0, 2, 2, 1, -5, 0, 3, 0⟩,
   ⟨-2, 0, 2, 0, 1, 4, 0, 0, 0⟩,
   ⟨-2, 1, 0, 2, 1, 4, 0, 0, 0⟩,
   ⟨0, 0, 1, -2, 0, 4, 0, 0, 0⟩,
   ⟨-1, 0, 1, 0, 0, -4, 0, 0, 0⟩,
   ⟨-2, 1, 0, 0, 0, -4, 0, 0, 0⟩,
   ⟨1, 0, 0, 0, 0, -4, 0, 0, 0⟩,
   ⟨0, 0, 1, 2, 0, 3, 0, 0, 0⟩,
   ⟨0, 0, -2, 2, 2, -3, 0, 0, 0⟩,
   ⟨-1, -1, 1, 0, 0, -3, 0, 0, 0⟩,
   ⟨0, 1, 1, 0, 0, -3, 0, 0, 0⟩,
   ⟨0, -1, 1, 2, 2, -3, 0, 0, 0⟩,
   ⟨2, -1, -1, 2, 2, -3, 0, 0, 0⟩,
   ⟨0, 0, 3, 2, 2, 3, 0, 0, 0⟩,
   ⟨2, -1, 0, 2, 2, -3, 0, 0, 0⟩]

/-- `moonArgumentOfLatitude$2` (src lines 1112-1115). -/
noncomputable def moonArgumentOfLatitudeT (T : ℝ) : ℝ :=
  reduceAngle (polynomial T moonArgumentOfLatitudeCoeffs)

/-- `moonAscendingNodeLongitude$2` (src lines 1124-1127). -/
noncomputable def moonAscendingNodeLongitudeT (T : ℝ) : ℝ :=
  reduceAngle (polynomial T moonAscendingNodeLongitudeCoeffs)

/-- `moonMeanAnomaly$2` (src lines 1135-1138). -/
noncomputable def moonMeanAnomalyT (T : ℝ) : ℝ :=
  reduceAngle (polynomial T moonMeanAnomalyCoeffs)

/-- `moonMeanElongation$1` (src lines 1146-1149). -/
noncomputable def moonMeanElongationT (T : ℝ) : ℝ :=
  reduceAngle (polynomial T moonMeanElongationCoeffs)

/-- `sunMeanAnomaly$2` (src lines 1157-1160). -/
noncomputable def sunMeanAnomalyT (T : ℝ) : ℝ :=
  reduceAngle (polynomial T sunMeanAnomalyCoeffs)

/-- `sunMeanLongitude$1` (src lines 1170-1173). -/
noncomputable def sunMeanLongitudeT (T : ℝ) : ℝ :=
  reduceAngle (polynomial T sunMeanLongitudeCoeffs)

/-- The integer linear combination argument of one nutation row
(src lines 1066-1071 and 1093-1098). -/
noncomputable def nutationArgument (r : NutationRow) (D M MPrime F Omega : ℝ) : ℝ :=
  r.mulD * D + r.mulM * M + r.mulMPrime * MPrime + r.mulF * F + r.mulOmega * Omega

/-- `nutationInLongitude` (src lines 1058-1077). -/
noncomputable def nutationInLongitude (T : ℝ) : ℝ :=
  (nutations.map (fun r =>
    (r.psi0 + r.psiT * T) *
      sind (nutationArgument r (moonMeanElongationT T) (sunMeanAnomalyT T)
        (moonMeanAnomalyT T) (moonArgumentOfLatitudeT T)
        (moonAscendingNodeLongitudeT T)))).sum / 36000000

/-- `nutationInObliquity` (src lines 1085-1104). -/
noncomputable def nutationInObliquity (T : ℝ) : ℝ :=
  (nutations.map (fun r =>
    (r.eps0 + r.epsT * T) *
      cosd (nutationArgument r (moonMeanElongationT T) (sunMeanAnomalyT T)
        (moonMeanAnomalyT T) (moonArgumentOfLatitudeT T)
        (moonAscendingNodeLongitudeT T)))).sum / 36000000

/-- `meanObliquityOfEcliptic$1` (src lines 1006-1010). -/
noncomputable def meanObliquityOfEclipticT (T : ℝ) : ℝ :=
  polynomial (T / 100) meanObliquityOfEclipticCoeffs

/-- `trueObliquityOfEcliptic` (src lines 993-998). -/
noncomputable def trueObliquityOfEcliptic (T : ℝ) : ℝ :=
  meanObliquityOfEclipticT T + nutationInObliquity T

/-- `meanSiderealTimeGreenwhich` (src lines 980-985). -/
noncomputable def meanSiderealTimeGreenwhich (T : ℝ) : ℝ :=
  280.46061837 + 360.98564736629 * (T * 36525) + 0.000387933 * T * T -
    T * T * T / 38710000

/-- `apparentSiderealTimeGreenwhich` (src lines 966-972). -/
noncomputable def apparentSiderealTimeGreenwhich (T : ℝ) : ℝ :=
  reduceAngle (meanSiderealTimeGreenwhich T + nutationInLongitude T * cosd (trueObliquityOfEcliptic T))

/-- `sunMeanAnomaly$2`-based equation of center (src lines 1044-1050). -/
noncomputable def sunEquationOfCenter (T : ℝ) : ℝ :=
  (1.914602 - 0.004817 * T - 0.000014 * T * T) * sind (sunMeanAnomalyT T) +
    (0.019993 - 0.000101 * T) * sind (2 * sunMeanAnomalyT T) +
    0.000290 * sind (3 * sunMeanAnomalyT T)

/-- `sunTrueLongitude` (src lines 1031-1036). -/
noncomputable def sunTrueLongitude (T : ℝ) : ℝ :=
  sunMeanLongitudeT T + sunEquationOfCenter T

/-- `sunApparentLongitude` (src lines 1018-1023). -/
noncomputable def sunApparentLongitude (T : ℝ) : ℝ :=
  sunTrueLongitude T - 0.00569 - 0.00478 * sind (moonAscendingNodeLongitudeT T)

/-- `sunApparentRightAscension` (src lines 934-942). -/
noncomputable def sunApparentRightAscension (T : ℝ) : ℝ :=
  let Omega := moonAscendingNodeLongitudeT T
  let epsilon := trueObliquityOfEcliptic T + 0.00256 * cosd Omega
  let lambda := sunApparentLongitude T
  reduceAngle (rad2deg (atan2 (cosd epsilon * sind lambda) (cosd lambda)))

/-- `sunApparentDeclination` (src lines 950-958). -/
noncomputable def sunApparentDeclination (T : ℝ) : ℝ :=
  let Omega := moonAscendingNodeLongitudeT T
  let epsilon := trueObliquityOfEcliptic T + 0.00256 * cosd Omega
  let lambda := sunApparentLongitude T
  rad2deg (Real.arcsin (sind epsilon * sind lambda))

/-!  Module state and the external calendar arithmetic. -/

/-- The module-level mutable flags of the source (src lines 1175-1177):
`roundToNearestMinute`, `returnTimeForPNMS` and `dateFormatKeys`.  The
embedding threads this state explicitly through every call that reads it. -/
structure MSMState where
  roundToNearestMinute : Bool
  returnTimeForPNMS : Bool
  dateFormatKeys : List (String × String)
deriving DecidableEq, Repr

/-- The initial module state (src lines 1175-1177). -/
def msmInitialState : MSMState :=
  ⟨false, false, [("**", "‡"), ("--", "†")]⟩

/-- The argument object accepted by `options` (src lines 1184-1194); a
missing key leaves the corresponding flag unchanged. -/
structure OptionsArg where
  roundToNearestMinute : Option Bool := none
  returnTimeForPNMS : Option Bool := none
  dateFormatKeys : Option (List (String × String)) := none

/-- `options` (src lines 1184-1194): mutates the module-level flags. -/
def options (o : OptionsArg) (s : MSMState) : MSMState :=
  ⟨o.roundToNearestMinute.getD s.roundToNearestMinute,
   o.returnTimeForPNMS.getD s.returnTimeForPNMS,
   o.dateFormatKeys.getD s.dateFormatKeys⟩

/-- Modelled from the spec: the external calendar collaborator's
day-number function (proleptic Gregorian date to days since
1970-01-01), needed to model `moment` instant comparison and second
arithmetic.  `m` is one-indexed. -/
def daysFromCivil (y m d : ℤ) : ℤ :=
  let y2 := if m ≤ 2 then y - 1 else y
  let era := y2 / 400
  let yoe := y2 - era * 400
  let mp := (m + 9) % 12
  let doy := (153 * mp + 2) / 5 + d - 1
  let doe := yoe * 365 + yoe / 4 - yoe / 100 + doy
  era * 146097 + doe - 719468

/-- Modelled from the spec: inverse of `daysFromCivil`
(days since 1970-01-01 to proleptic Gregorian year, one-indexed month,
day). -/
def civilFromDays (z0 : ℤ) : ℤ × ℤ × ℤ :=
  let z := z0 + 719468
  let era := z / 146097
  let doe := z - era * 146097
  let yoe := (doe - doe / 1460 + doe / 36524 - doe / 146096) / 365
  let y := yoe + era * 400
  let doy := doe - (365 * yoe + yoe / 4 - yoe / 100)
  let mp := (5 * doy + 2) / 153
  let d := doy - (153 * mp + 2) / 5 + 1
  let m := if mp < 10 then mp + 3 else mp - 9
  (if m ≤ 2 then y + 1 else y, m, d)

/-- Modelled from the spec: the UTC timeline position of an instant in
whole seconds since 1970-01-01T00:00:00Z. -/
def dtToSeconds (dt : Datetime) : ℤ :=
  daysFromCivil dt.year (dt.month + 1) dt.date * 86400 +
    dt.hour * 3600 + dt.minute * 60 + dt.second

/-- Modelled from the spec: the instant at a whole-second UTC timeline
position, as calendar fields. -/
def dtOfSeconds (sec : ℤ) : Datetime :=
  let z := sec / 86400
  let rem := sec - z * 86400
  let c := civilFromDays z
  ⟨c.1, c.2.1 - 1, c.2.2, rem / 3600, rem % 3600 / 60, rem % 60⟩

/-- Modelled from the spec: `moment.add(x, 'seconds')` for a whole
number of seconds (the only second counts the sun-event solvers add). -/
def dtAddSeconds (dt : Datetime) (x : ℤ) : Datetime := dtOfSeconds (dtToSeconds dt + x)

/-- Modelled from the spec: `moment.second(0)` field mutation. -/
def dtSetSecondZero (dt : Datetime) : Datetime :=
  ⟨dt.year, dt.month, dt.date, dt.hour, dt.minute, 0⟩

/-- Modelled from the spec: the UTC timeline position of an instant in
days since 1970-01-01T00:00:00Z. -/
def dtToDays (dt : Datetime) : ℚ :=
  ((daysFromCivil dt.year (dt.month + 1) dt.date : ℤ) : ℚ) +
    ((dt.hour : ℚ) * 3600 + (dt.minute : ℚ) * 60 + (dt.second : ℚ)) / 86400

-- Sanity checks of the modelled calendar arithmetic.
example : daysFromCivil 1970 1 1 = 0 := by decide
example : daysFromCivil 2000 1 1 = 10957 := by decide
example : civilFromDays 10957 = (2000, 1, 1) := by decide
example : civilFromDays (daysFromCivil 2000 2 29) = (2000, 2, 29) := by decide
example : civilFromDays (daysFromCivil 1999 12 31) = (1999, 12, 31) := by decide
example : dtAddSeconds ⟨1999, 11, 31, 23, 59, 30⟩ 45 = ⟨2000, 0, 1, 0, 0, 15⟩ := by decide

/-!  SunEventSolver (src lines 676-824 and 1223-1265). -/

/-- The value thrown by `approxLocalHourAngle` (src lines 791-805):
either a marker string or a specially tagged placeholder moment. -/
inductive PolarPayload where
  | marker (s : String)
  | placeholderMoment (tag : String) (dt : Datetime)
deriving DecidableEq, Repr

/-- Result of the public sun-event operations: a plain time, a tagged
placeholder time, a marker string, or the JavaScript `false` returned by
`sunRiseSet` for an unrecognized flag. -/
inductive SunResult where
  | time (dt : Datetime)
  | placeholder (tag : String) (dt : Datetime)
  | marker (s : String)
  | jsFalse
deriving DecidableEq, Repr

/-- Modelled from the spec: DST lookup belongs to the external timezone
collaborator; instants in this embedding are UTC-anchored and UTC has no
daylight-saving time, so `isDST` is uniformly false. -/
def dtIsDST (_dt : Datetime) : Bool := false

/-- `returnPNMS` (src lines 765-779). -/
def returnPNMS (returnDate : PolarPayload) (date : Datetime) (hour : ℤ)
    (s : MSMState) : SunResult :=
  if s.returnTimeForPNMS then
    let hour2 := if dtIsDST date then hour + 1 else hour
    match returnDate with
    | .placeholderMoment tag _ =>
        .placeholder tag ⟨date.year, date.month, date.date, hour2, 0, 0⟩
    | .marker m => .marker m
  else
    match returnDate with
    | .placeholderMoment tag dt0 => .placeholder tag dt0
    | .marker m => .marker m

/-- The argument of `acos` in `approxLocalHourAngle` (src lines 788-790). -/
noncomputable def hourAngleCosArg (phi delta : ℝ) : ℝ :=
  (sind (-50 / 60) - sind phi * sind delta) / (cosd phi * cosd delta)

/-- `approxLocalHourAngle` (src lines 787-808): the `throw` statements
become the `Except.error` constructor. -/
noncomputable def approxLocalHourAngle (phi delta : ℝ) (s : MSMState) :
    Except PolarPayload ℝ :=
  let cosH0 := hourAngleCosArg phi delta
  if cosH0 < -1 then
    .error (if s.returnTimeForPNMS then .placeholderMoment "**" ⟨2000, 0, 1, 12, 0, 0⟩
      else .marker "MS")
  else if cosH0 > 1 then
    .error (if s.returnTimeForPNMS then .placeholderMoment "--" ⟨2000, 0, 1, 12, 0, 0⟩
      else .marker "PN")
  else .ok (rad2deg (Real.arccos cosH0))

/-- `localHourAngle` (src lines 875-880). -/
noncomputable def localHourAngle (theta0 L alpha : ℝ) : ℝ :=
  let H := reduceAngle (theta0 + L - alpha)
  if H > 180 then H - 360 else H

/-- `altitude` (src lines 889-894). -/
noncomputable def altitude (phi delta H : ℝ) : ℝ :=
  rad2deg (Real.arcsin (sind phi * sind delta + cosd phi * cosd delta * cosd H))

/-- `interpolatedRa` (src lines 903-911). -/
noncomputable def interpolatedRa (T n : ℝ) : ℝ :=
  reduceAngle (interpolateFromThree (sunApparentRightAscension (T - 1 / 36525))
    (sunApparentRightAscension T) (sunApparentRightAscension (T + 1 / 36525)) n true)

/-- `interpolatedDec` (src lines 920-926); the undefined `normalize`
argument of the source call is the false branch. -/
noncomputable def interpolatedDec (T n : ℝ) : ℝ :=
  reduceAngle (interpolateFromThree (sunApparentDeclination (T - 1 / 36525))
    (sunApparentDeclination T) (sunApparentDeclination (T + 1 / 36525)) n false)

/-- `sunTransitCorrection` (src lines 836-843). -/
noncomputable def sunTransitCorrection (T Theta0 DeltaTv L m : ℝ) : ℝ :=
  let theta0 := Theta0 + 360.985647 * m
  let n := m + DeltaTv / 864000
  let alpha := interpolatedRa T n
  let H := localHourAngle theta0 L alpha;
  -H / 360

/-- `sunRiseSetCorrection` (src lines 856-866). -/
noncomputable def sunRiseSetCorrection (T Theta0 DeltaTv phi L m : ℝ) : ℝ :=
  let theta0 := Theta0 + 360.985647 * m
  let n := m + DeltaTv / 864000
  let alpha := interpolatedRa T n
  let delta := interpolatedDec T n
  let H := localHourAngle theta0 L alpha
  let h := altitude phi delta H
  (h + 50 / 60) / (360 * cosd delta * cosd phi * sind H)

/-- The UTC-midnight working moment of `sunTransit` / `sunRiseSet`
(src lines 678-679 and 712-713): the input's calendar date at
00:00:00 UTC. -/
def riseSetSuntime (datetime : Datetime) : Datetime :=
  ⟨datetime.year, datetime.month, datetime.date, 0, 0, 0⟩

/-- The TT-adjusted Julian-century argument used for the apparent right
ascension and declination (src lines 684-685 and 718-720). -/
noncomputable def riseSetTD (datetime : Datetime) : ℝ :=
  ((datetimeToT (riseSetSuntime datetime) : ℚ) : ℝ) -
    ((jsNum (DeltaT (riseSetSuntime datetime)) : ℚ) : ℝ) / (3600 * 24 * 36525)

/-- The `while` loop of `sunRiseSet` (src lines 733-740): at most `fuel`
further iterations, stopping once the previous correction was at most
0.0001. -/
noncomputable def sunRiseSetIterate (T Theta0 DeltaTv phi L : ℝ) :
    ℕ → ℝ → ℝ → ℝ
  | 0, m, _ => m
  | fuel + 1, m, DeltaM =>
    if |DeltaM| > 0.0001 then
      let DeltaM2 := sunRiseSetCorrection T Theta0 DeltaTv phi L m
      sunRiseSetIterate T Theta0 DeltaTv phi L fuel (m + DeltaM2) DeltaM2
    else m

/-- `sunTransit` (src lines 676-698).  The display-timezone re-anchoring
(`transit.tz(timezone)`) moves no instant and is dropped; the input's
UTC offset is passed explicitly (`datetime.utcOffset()`). -/
noncomputable def sunTransit (datetime : Datetime) (L : ℝ) (utcOffset : ℤ)
    (s : MSMState) : Datetime :=
  let transit := riseSetSuntime datetime
  let DeltaTv : ℝ := ((jsNum (DeltaT transit) : ℚ) : ℝ)
  let T : ℝ := ((datetimeToT transit : ℚ) : ℝ)
  let Theta0 := apparentSiderealTimeGreenwhich T
  let alpha := sunApparentRightAscension (riseSetTD datetime)
  let m0 := normalizeM ((alpha - L - Theta0) / 360) utcOffset
  let m := m0 + sunTransitCorrection T Theta0 DeltaTv L m0
  let transit2 := dtAddSeconds transit (Int.floor (m * 3600 * 24 + 0.5))
  if s.roundToNearestMinute then dtSetSecondZero (dtAddSeconds transit2 30) else transit2

/-- `sunRiseSet` (src lines 710-752). -/
noncomputable def sunRiseSet (datetime : Datetime) (phi L : ℝ) (flag : String)
    (utcOffset : ℤ) (s : MSMState) : Except PolarPayload SunResult :=
  let suntime := riseSetSuntime datetime
  let DeltaTv : ℝ := ((jsNum (DeltaT suntime) : ℚ) : ℝ)
  let T : ℝ := ((datetimeToT suntime : ℚ) : ℝ)
  let Theta0 := apparentSiderealTimeGreenwhich T
  let alpha := sunApparentRightAscension (riseSetTD datetime)
  let delta := sunApparentDeclination (riseSetTD datetime)
  match approxLocalHourAngle phi delta s with
  | .error e => .error e
  | .ok H0 =>
    let m0 := normalizeM ((alpha - L - Theta0) / 360) utcOffset
    if flag = "RISE" ∨ flag = "SET" then
      let m1 := if flag = "RISE" then m0 - H0 / 360 else m0 + H0 / 360
      let m := sunRiseSetIterate T Theta0 DeltaTv phi L 3 m1 1
      let suntime2 :=
        if m > 0 then dtAddSeconds suntime (Int.floor (m * 3600 * 24 + 0.5))
        else dtAddSeconds suntime (-(Int.floor (|m| * 3600 * 24 + 0.5)))
      let suntime3 :=
        if s.roundToNearestMinute then dtSetSecondZero (dtAddSeconds suntime2 30)
        else suntime2
      .ok (.time suntime3)
    else .ok .jsFalse

/-- `sunrise` (src lines 1223-1231). -/
noncomputable def sunrise (datetime : Datetime) (phi L : ℝ) (utcOffset : ℤ)
    (s : MSMState) : SunResult :=
  match sunRiseSet datetime phi L "RISE" utcOffset s with
  | .error err => returnPNMS err datetime 6 s
  | .ok r => r

/-- `sunset` (src lines 1244-1252). -/
noncomputable def sunset (datetime : Datetime) (phi L : ℝ) (utcOffset : ℤ)
    (s : MSMState) : SunResult :=
  match sunRiseSet datetime phi L "SET" utcOffset s with
  | .error err => returnPNMS err datetime 18 s
  | .ok r => r

/-- `solarNoon` (src lines 1262-1265). -/
noncomputable def solarNoon (datetime : Datetime) (L : ℝ) (utcOffset : ℤ)
    (s : MSMState) : Datetime :=
  sunTransit datetime L utcOffset s

/-!  Heap view for the frame-effect claim: `moment` objects are mutable;
the solvers read the input object's fields, allocate a fresh moment for
the result, and mutate only that fresh object (and, on the polar paths,
the freshly thrown placeholder moment). -/

/-- A heap of moment objects addressed by reference. -/
def MomentHeap : Type := ℕ → Datetime

/-- Heap view of `sunTransit`: reads the input cell, writes only the
fresh cell. -/
noncomputable def sunTransitHeap (h : MomentHeap) (inputRef freshRef : ℕ) (L : ℝ)
    (utcOffset : ℤ) (s : MSMState) : MomentHeap × ℕ :=
  (Function.update h freshRef (sunTransit (h inputRef) L utcOffset s), freshRef)

/-- Heap view of `sunrise`: reads the input cell; a returned moment
(plain or placeholder) lives in the fresh cell. -/
noncomputable def sunriseHeap (h : MomentHeap) (inputRef freshRef : ℕ) (phi L : ℝ)
    (utcOffset : ℤ) (s : MSMState) : MomentHeap × SunResult :=
  let r := sunrise (h inputRef) phi L utcOffset s
  (match r with
   | .time dt2 => Function.update h freshRef dt2
   | .placeholder _ dt2 => Function.update h freshRef dt2
   | _ => h, r)

/-- Heap view of `sunset`. -/
noncomputable def sunsetHeap (h : MomentHeap) (inputRef freshRef : ℕ) (phi L : ℝ)
    (utcOffset : ℤ) (s : MSMState) : MomentHeap × SunResult :=
  let r := sunset (h inputRef) phi L utcOffset s
  (match r with
   | .time dt2 => Function.update h freshRef dt2
   | .placeholder _ dt2 => Function.update h freshRef dt2
   | _ => h, r)

/-!  MoonPhaseSolver driver (src lines 1276-1311). -/

/-- Modelled from the spec: `moment.second(0)` applied on the timeline
(milliseconds are preserved by the field mutation). -/
noncomputable def setSecondZeroDays (t : ℝ) : ℝ :=
  t - (((Int.floor (t * 86400) % 60 : ℤ)) : ℝ) / 86400

/-- The instant produced by candidate lunation `i` of
`yearMoonPhases year phase` (loop body, src lines 1286-1309), as a UTC
timeline position in days since 1970-01-01; the display-timezone
re-anchoring moves no instant and is dropped. -/
noncomputable def moonCandidateTime (year : ℤ) (phase : ℕ) (s : MSMState) (i : ℕ) : ℝ :=
  let yearBegin : Datetime := ⟨year, 0, 1, 0, 0, 0⟩
  let k : ℝ := ((Int.floor (approxK yearBegin) - 1 : ℤ) : ℝ) + (i : ℝ)
  let JDE := truePhase k phase
  let moonDatetime := JDToDatetime JDE
  let DeltaTv : ℝ := ((jsNum (DeltaT moonDatetime) : ℚ) : ℝ)
  let t1 : ℝ :=
    if DeltaTv > 0 then ((dtToDays moonDatetime : ℚ) : ℝ) - |DeltaTv| / 86400
    else ((dtToDays moonDatetime : ℚ) : ℝ) + |DeltaTv| / 86400
  if s.roundToNearestMinute then setSecondZeroDays (t1 + 30 / 86400) else t1

/-- The fifteen candidate instants of `yearMoonPhases`, in lunation
order. -/
noncomputable def moonCandidateTimes (year : ℤ) (phase : ℕ) (s : MSMState) : List ℝ :=
  (List.range 15).map (moonCandidateTime year phase s)

/-- `yearMoonPhases` (src lines 1276-1311): retains the candidates
strictly between the start of `year` and the start of `year + 1`. -/
noncomputable def yearMoonPhases (year : ℤ) (phase : ℕ) (s : MSMState) : List ℝ :=
  (moonCandidateTimes year phase s).filter
    (fun t => decide (((dtToDays ⟨year, 0, 1, 0, 0, 0⟩ : ℚ) : ℝ) < t ∧
      t < ((dtToDays ⟨year + 1, 0, 1, 0, 0, 0⟩ : ℚ) : ℝ)))

/-- Claim C7 (amended): an unrecognized sun-event flag makes `sunRiseSet`
return the JavaScript sentinel `false` immediately (never a computed
time), except that a polar-day classification raised before the flag
dispatch still propagates; but an unrecognized moon-phase kind is NOT
signalled: `truePhase` silently returns an ordinary computed value, the
mean-phase time corrected only by the common planetary terms. -/
theorem invalid_kind_behaviour :
    (∀ (dt : Datetime) (phi L : ℝ) (utcOffset : ℤ) (s : MSMState) (flag : String),
      flag ≠ "RISE" → flag ≠ "SET" →
        sunRiseSet dt phi L flag utcOffset s = .ok .jsFalse ∨
          ∃ e, sunRiseSet dt phi L flag utcOffset s = .error e) ∧
    (∀ (k : ℝ) (phase : ℕ), phase ≠ 0 → phase ≠ 1 → phase ≠ 2 → phase ≠ 3 →
      truePhase k phase =
        meanPhase (kToT (k + (phase : ℝ) / 4)) (k + (phase : ℝ) / 4) +
          commonCorrections (planetaryArguments (kToT (k + (phase : ℝ) / 4))
            (k + (phase : ℝ) / 4))) := by
  constructor
  · intro dt phi L utcOffset s flag h1 h2
    have hcond : ¬ (flag = "RISE" ∨ flag = "SET") := by
      rintro (h | h)
      · exact h1 h
      · exact h2 h
    simp only [sunRiseSet]
    cases happrox : approxLocalHourAngle phi (sunApparentDeclination (riseSetTD dt)) s with
    | error e => exact Or.inr ⟨e, rfl⟩
    | ok H0 => exact Or.inl (if_neg hcond)
  · intro k phase h0 h1 h2 h3
    simp only [truePhase]
    have hc1 : ¬ (phase = 0 ∨ phase = 2) := by
      rintro (h | h)
      · exact h0 h
      · exact h2 h
    have hc2 : ¬ (phase = 1 ∨ phase = 3) := by
      rintro (h | h)
      · exact h1 h
      · exact h3 h
    rw [if_neg hc1, if_neg hc2, zero_add]

/-- Witness for the amended C7 at flag "NOON" and phase kind 7. -/
theorem invalid_kind_behaviour_witness :
    (sunRiseSet ⟨2000, 0, 1, 0, 0, 0⟩ 0 0 "NOON" 0 msmInitialState = .ok .jsFalse ∨
      ∃ e, sunRiseSet ⟨2000, 0, 1, 0, 0, 0⟩ 0 0 "NOON" 0 msmInitialState = .error e) ∧
    truePhase 0 7 =
      meanPhase (kToT (0 + (7 : ℝ) / 4)) (0 + (7 : ℝ) / 4) +
        commonCorrections (planetaryArguments (kToT (0 + (7 : ℝ) / 4)) (0 + (7 : ℝ) / 4)) :=
  ⟨invalid_kind_behaviour.1 ⟨2000, 0, 1, 0, 0, 0⟩ 0 0 0 msmInitialState "NOON"
      (by decide) (by decide),
    invalid_kind_behaviour.2 0 7 (by decide) (by decide) (by decide) (by decide)⟩

/-- Claim C7 (counterexample): the moon-phase solver does not signal an
error for the unrecognized phase kind 7: `truePhase 0 7` is an ordinary
computed Julian date, the mean phase corrected only by the common
planetary terms, with the phase-specific correction blocks silently
skipped. -/
theorem truePhase_silently_defaults_on_invalid_phase :
    truePhase 0 7 =
      meanPhase (kToT (0 + (7 : ℝ) / 4)) (0 + (7 : ℝ) / 4) +
        commonCorrections (planetaryArguments (kToT (0 + (7 : ℝ) / 4)) (0 + (7 : ℝ) / 4)) := by
  simp only [truePhase]
  norm_num

/-- Claim C10: the public sun operations never mutate their input
instant: in the heap view each solver writes only the freshly allocated
result cell, so after any call every calendar field of the input cell is
exactly as before, and `sunTransit`'s returned moment is the fresh cell,
distinct from the input. -/
theorem sun_ops_do_not_mutate_input (h : MomentHeap) (inputRef freshRef : ℕ)
    (phi L : ℝ) (utcOffset : ℤ) (s : MSMState) (hne : freshRef ≠ inputRef) :
    (sunTransitHeap h inputRef freshRef L utcOffset s).1 inputRef = h inputRef ∧
    (sunTransitHeap h inputRef freshRef L utcOffset s).2 ≠ inputRef ∧
    (sunriseHeap h inputRef freshRef phi L utcOffset s).1 inputRef = h inputRef ∧
    (sunsetHeap h inputRef freshRef phi L utcOffset s).1 inputRef = h inputRef := by
  refine ⟨?_, ?_, ?_, ?_⟩
  · exact Function.update_noteq (Ne.symm hne) _ _
  · exact hne
  · simp only [sunriseHeap]
    rcases sunrise (h inputRef) phi L utcOffset s with dt2 | ⟨tag, dt2⟩ | m | _ <;>
      first
        | exact Function.update_noteq (Ne.symm hne) _ _
        | rfl
  · simp only [sunsetHeap]
    rcases sunset (h inputRef) phi L utcOffset s with dt2 | ⟨tag, dt2⟩ | m | _ <;>
      first
        | exact Function.update_noteq (Ne.symm hne) _ _
        | rfl

/-- Witness for C10 at a concrete two-cell heap. -/
theorem sun_ops_do_not_mutate_input_witness :
    (1 : ℕ) ≠ 0 ∧
      (sunTransitHeap (fun _ => ⟨2000, 0, 1, 0, 0, 0⟩) 0 1 0 0 msmInitialState).1 0 =
        (fun _ => (⟨2000, 0, 1, 0, 0, 0⟩ : Datetime)) 0 :=
  ⟨by decide,
    (sun_ops_do_not_mutate_input (fun _ => ⟨2000, 0, 1, 0, 0, 0⟩) 0 1 0 0 0 msmInitialState
      (by decide)).1⟩

/-!  Interval-arithmetic toolkit for the concrete polar-night and
moon-candidate bounds. -/

lemma polynomial_foldl_aux {α : Type} [CommRing α] (x : α) (cs : List α) (s p : α) :
    (cs.foldl (fun acc c => (acc.1 + acc.2 * c, acc.2 * x)) (s, p)).1 =
      s + p * polynomial x cs := by
  induction cs generalizing s p with
  | nil => simp [polynomial]
  | cons c cs ih =>
    simp only [polynomial, List.foldl_cons]
    rw [ih, ih]
    ring

lemma polynomial_nil {α : Type} [CommRing α] (x : α) : polynomial x [] = 0 := by
  simp [polynomial]

lemma polynomial_cons {α : Type} [CommRing α] (x c : α) (cs : List α) :
    polynomial x (c :: cs) = c + x * polynomial x cs := by
  have h1 : polynomial x (c :: cs) =
      (cs.foldl (fun acc c => (acc.1 + acc.2 * c, acc.2 * x)) (0 + 1 * c, 1 * x)).1 := rfl
  rw [h1, polynomial_foldl_aux]
  ring

lemma abs_polynomial_le (x : ℝ) (cs : List ℝ) (hx : |x| ≤ 1) :
    |polynomial x cs| ≤ (cs.map (fun c => |c|)).sum := by
  induction cs with
  | nil => simp [polynomial_nil]
  | cons c cs ih =>
    rw [polynomial_cons]
    simp only [List.map_cons, List.sum_cons]
    refine (abs_add _ _).trans (add_le_add le_rfl ?_)
    rw [abs_mul]
    calc |x| * |polynomial x cs| ≤ 1 * (cs.map (fun c => |c|)).sum :=
          mul_le_mul hx ih (abs_nonneg _) zero_le_one
      _ = _ := one_mul _

lemma polynomial_eval3 (x a b c : ℝ) :
    polynomial x [a, b, c] = a + x * b + x * x * c := by
  simp [polynomial, List.foldl_cons, List.foldl_nil]

lemma polynomial_eval4 (x a b c d : ℝ) :
    polynomial x [a, b, c, d] = a + x * b + x * x * c + x * x * x * d := by
  simp [polynomial, List.foldl_cons, List.foldl_nil]

lemma abs_trig_series_le (rows : List NutationRow) (a b g : NutationRow → ℝ)
    (trig : ℝ → ℝ) (htrig : ∀ z, |trig z| ≤ 1) (T tb : ℝ) (hT : |T| ≤ tb)
    (htb : 0 ≤ tb) :
    |(rows.map (fun r => (a r + b r * T) * trig (g r))).sum| ≤
      (rows.map (fun r => |a r| + |b r| * tb)).sum := by
  induction rows with
  | nil => simp
  | cons r rs ih =>
    simp only [List.map_cons, List.sum_cons]
    refine (abs_add _ _).trans (add_le_add ?_ ih)
    rw [abs_mul]
    have h1 : |a r + b r * T| ≤ |a r| + |b r| * tb := by
      refine (abs_add _ _).trans (add_le_add le_rfl ?_)
      rw [abs_mul]
      exact mul_le_mul_of_nonneg_left hT (abs_nonneg _)
    have h0 : (0 : ℝ) ≤ |a r| + |b r| * tb :=
      add_nonneg (abs_nonneg _) (mul_nonneg (abs_nonneg _) htb)
    calc |a r + b r * T| * |trig (g r)| ≤ (|a r| + |b r| * tb) * 1 :=
          mul_le_mul h1 (htrig _) (abs_nonneg _) h0
      _ = _ := mul_one _

lemma abs_sind_le_one (x : ℝ) : |sind x| ≤ 1 :=
  abs_le.mpr ⟨Real.neg_one_le_sin _, Real.sin_le_one _⟩

lemma abs_cosd_le_one (x : ℝ) : |cosd x| ≤ 1 :=
  abs_le.mpr ⟨Real.neg_one_le_cos _, Real.cos_le_one _⟩

/-- The 63-term nutation-in-obliquity series is below 0.0028 degrees for
the Julian centuries relevant here. -/
lemma nutationInObliquity_bound (T : ℝ) (hT : |T| ≤ 0.00032) :
    |nutationInObliquity T| ≤ 0.0028 := by
  unfold nutationInObliquity
  have h := abs_trig_series_le nutations (fun r => r.eps0) (fun r => r.epsT)
    (fun r => nutationArgument r (moonMeanElongationT T) (sunMeanAnomalyT T)
      (moonMeanAnomalyT T) (moonArgumentOfLatitudeT T) (moonAscendingNodeLongitudeT T))
    (fun z => cosd z) (fun z => abs_cosd_le_one z) T 0.00032 hT (by norm_num)
  have hsum : (nutations.map (fun r => |r.eps0| + |r.epsT| * 0.00032)).sum ≤ 100734 := by
    simp only [nutations, List.map_cons, List.map_nil, List.sum_cons, List.sum_nil]
    norm_num [abs_neg, abs_of_nonneg]
  rw [abs_div]
  rw [abs_of_nonneg (by norm_num : (0 : ℝ) ≤ 36000000)]
  rw [div_le_iff₀ (by norm_num : (0 : ℝ) < 36000000)]
  calc |(nutations.map _).sum| ≤ _ := h
    _ ≤ 100734 := hsum
    _ ≤ 0.0028 * 36000000 := by norm_num

lemma reduceAngle_eq_self (x : ℝ) (h0 : 0 ≤ x) (h1 : x < 360) : reduceAngle x = x := by
  unfold reduceAngle
  have hz : ⌊x / 360⌋ = 0 := by
    rw [Int.floor_eq_zero_iff, Set.mem_Ico]
    constructor
    · positivity
    · rw [div_lt_one (by norm_num : (0 : ℝ) < 360)]
      exact h1
  rw [hz]
  simp

lemma sind_rad2deg (y : ℝ) : sind (rad2deg y) = Real.sin y := by
  unfold sind rad2deg deg2rad
  congr 1
  field_simp

lemma cosd_rad2deg (y : ℝ) : cosd (rad2deg y) = Real.cos y := by
  unfold cosd rad2deg deg2rad
  congr 1
  field_simp

lemma sin_le_of_nonneg (x b : ℝ) (hx : 0 ≤ x) (hb : x ≤ b) : Real.sin x ≤ b := by
  rcases eq_or_lt_of_le hx with h | h
  · rw [← h, Real.sin_zero]
    linarith
  · exact le_trans (le_of_lt (Real.sin_lt h)) hb

lemma le_sin_of_window (x a : ℝ) (ha0 : 0 < a) (ha1 : a ≤ 1) (hax : a ≤ x)
    (hx : x ≤ 1.5) : a - a ^ 3 / 4 ≤ Real.sin x := by
  have hpi := Real.pi_gt_d6
  have hmono : Real.sin a ≤ Real.sin x := by
    apply Real.strictMonoOn_sin.monotoneOn ?_ ?_ hax
    · exact Set.mem_Icc.mpr ⟨by linarith, by linarith⟩
    · exact Set.mem_Icc.mpr ⟨by linarith, by linarith⟩
  have hcube := Real.sin_gt_sub_cube ha0 ha1
  linarith

lemma deg2rad_window (v lo hi : ℝ) (hlo : lo ≤ v) (hhi : v ≤ hi) (h0 : 0 ≤ lo) :
    lo * 3.141592 / 180 ≤ deg2rad v ∧ deg2rad v ≤ hi * 3.141593 / 180 := by
  have hpi1 := Real.pi_gt_d6
  have hpi2 := Real.pi_lt_d6
  have hrw : deg2rad v = v * Real.pi / 180 := by unfold deg2rad; ring
  rw [hrw]
  constructor
  · have h := mul_le_mul hlo hpi1.le (by norm_num) (by linarith)
    linarith
  · have h := mul_le_mul hhi hpi2.le (by positivity) (by linarith)
    linarith

/-- Bounds for `sind v` when `v` degrees is slightly below a full number
of turns (`2 pi n` minus a small positive `y`). -/
lemma sind_neg_of_near_turns (v : ℝ) (n : ℕ) (ylo yhi : ℝ)
    (h1 : 2 * Real.pi * (n : ℝ) - deg2rad v ≤ yhi)
    (h2 : ylo ≤ 2 * Real.pi * (n : ℝ) - deg2rad v)
    (hylo : 0 < ylo) (hylo1 : ylo ≤ 1) (hyhi : yhi ≤ 1.5) :
    -yhi ≤ sind v ∧ sind v ≤ -(ylo - ylo ^ 3 / 4) := by
  have hper : Real.sin (deg2rad v) =
      -Real.sin (2 * Real.pi * (n : ℝ) - deg2rad v) := by
    have hp := Real.sin_add_nat_mul_two_pi (-(2 * Real.pi * (n : ℝ) - deg2rad v)) n
    rw [Real.sin_neg] at hp
    rw [← hp]
    congr 1
    push_cast
    ring
  have hupper := sin_le_of_nonneg (2 * Real.pi * (n : ℝ) - deg2rad v) yhi
    (by linarith) h1
  have hlower := le_sin_of_window (2 * Real.pi * (n : ℝ) - deg2rad v) ylo hylo hylo1
    h2 (by linarith)
  unfold sind
  rw [hper]
  exact ⟨by linarith, by linarith⟩

/-- Bounds for `sind v` when `v` degrees is somewhat below half a turn
(`pi` minus a moderate positive `y`). -/
lemma sind_pos_near_pi (v ylo yhi : ℝ)
    (h1 : Real.pi - deg2rad v ≤ yhi) (h2 : ylo ≤ Real.pi - deg2rad v)
    (hylo : 0 < ylo) (hylo1 : ylo ≤ 1) (hyhi : yhi ≤ 1.5) :
    ylo - ylo ^ 3 / 4 ≤ sind v ∧ sind v ≤ yhi := by
  have hper : Real.sin (deg2rad v) = Real.sin (Real.pi - deg2rad v) :=
    (Real.sin_pi_sub _).symm
  have hupper := sin_le_of_nonneg (Real.pi - deg2rad v) yhi (by linarith) h1
  have hlower := le_sin_of_window (Real.pi - deg2rad v) ylo hylo hylo1 h2 (by linarith)
  unfold sind
  rw [hper]
  exact ⟨hlower, hupper⟩

/-- Bounds for `sind v` for a small positive angle. -/
lemma sind_small_pos (v ylo yhi : ℝ)
    (h2 : ylo ≤ deg2rad v) (h1 : deg2rad v ≤ yhi)
    (hylo : 0 < ylo) (hylo1 : ylo ≤ 1) (hyhi : yhi ≤ 1.5) :
    ylo - ylo ^ 3 / 4 ≤ sind v ∧ sind v ≤ yhi := by
  unfold sind
  exact ⟨le_sin_of_window _ ylo hylo hylo1 h2 (by linarith),
    sin_le_of_nonneg _ yhi (by linarith) h1⟩

/-- Upper bound for `sind v` when `v` degrees is near 270 degrees. -/
lemma sind_near_270 (v b : ℝ) (hb : |deg2rad v - 3 * Real.pi / 2| ≤ b) :
    sind v ≤ -(1 - b ^ 2 / 2) := by
  have hper : Real.sin (deg2rad v) =
      -Real.cos (deg2rad v - 3 * Real.pi / 2) := by
    have hp := Real.sin_add_pi (deg2rad v - 3 * Real.pi / 2 + Real.pi / 2)
    rw [Real.sin_add_pi_div_two] at hp
    rw [← hp]
    congr 1
    ring
  have habs := abs_le.mp hb
  have hsq : (deg2rad v - 3 * Real.pi / 2) ^ 2 ≤ b ^ 2 := sq_le_sq' habs.1 habs.2
  have hcos := Real.one_sub_sq_div_two_le_cos (x := deg2rad v - 3 * Real.pi / 2)
  unfold sind
  rw [hper]
  nlinarith

/-!  Concrete polar-night instance: 1999-12-21 at latitude 89.99 degrees
north.  All series are evaluated by interval arithmetic from the exact
rational Julian-century argument. -/

/-- The winter-solstice datetime of the concrete polar-night instances. -/
def dtWinter : Datetime := ⟨1999, 11, 21, 0, 0, 0⟩

lemma riseSetTD_winter_bounds :
    -0.00031493 < riseSetTD dtWinter ∧ riseSetTD dtWinter < -0.00031487 := by
  have hT : datetimeToT (riseSetSuntime dtWinter) = -23 / 73050 := by
    norm_num [datetimeToT, riseSetSuntime, dtWinter, datetimeToJD, JDToT, gregorianB,
      gregorianA, monthAdjustedYear, monthAdjustedMonth, dtLt, gregorianCutoff]
  have hD : jsNum (DeltaT (riseSetSuntime dtWinter)) =
      50838135397840380001 / 796262400000000000 := by
    norm_num [jsNum, DeltaT, DeltaTOfY, deltaTYear, riseSetSuntime, dtWinter]
  unfold riseSetTD
  rw [hT, hD]
  constructor <;> norm_num

lemma winter_L0_bounds :
    269.128 < sunMeanLongitudeT (riseSetTD dtWinter) ∧
      sunMeanLongitudeT (riseSetTD dtWinter) < 269.131 := by
  obtain ⟨h1, h2⟩ := riseSetTD_winter_bounds
  set x := riseSetTD dtWinter with hx
  have hsq0 : 0 ≤ x * x := mul_self_nonneg x
  have hsq : x * x < 0.0000000992 := by
    nlinarith [mul_pos (show (0 : ℝ) < 0.00031493 + x by linarith)
      (show (0 : ℝ) < 0.00031493 - x by linarith)]
  have hp : polynomial x sunMeanLongitudeCoeffs =
      280.46646 + x * 36000.76983 + x * x * 0.0003032 := by
    simp only [sunMeanLongitudeCoeffs]
    exact polynomial_eval3 x _ _ _
  unfold sunMeanLongitudeT
  rw [reduceAngle_eq_self _ (by rw [hp]; linarith) (by rw [hp]; linarith), hp]
  constructor <;> linarith

lemma winter_M_bounds :
    346.19 < sunMeanAnomalyT (riseSetTD dtWinter) ∧
      sunMeanAnomalyT (riseSetTD dtWinter) < 346.193 := by
  obtain ⟨h1, h2⟩ := riseSetTD_winter_bounds
  set x := riseSetTD dtWinter with hx
  have hsq0 : 0 ≤ x * x := mul_self_nonneg x
  have hsq : x * x < 0.0000000992 := by
    nlinarith [mul_pos (show (0 : ℝ) < 0.00031493 + x by linarith)
      (show (0 : ℝ) < 0.00031493 - x by linarith)]
  have hc1 : x * x * x < 0 :=
    mul_neg_of_pos_of_neg (mul_pos_of_neg_of_neg (by linarith) (by linarith)) (by linarith)
  have hstep : x * x * (-0.00031493) ≤ x * x * x :=
    mul_le_mul_of_nonneg_left h1.le hsq0
  have hc2 : -0.0000000001 < x * x * x := by nlinarith
  have hp : polynomial x sunMeanAnomalyCoeffs =
      357.52772 + x * 35999.050340 + x * x * (-0.0001603) + x * x * x * (-1 / 300000) := by
    simp only [sunMeanAnomalyCoeffs]
    exact polynomial_eval4 x _ _ _ _
  unfold sunMeanAnomalyT
  rw [reduceAngle_eq_self _ (by rw [hp]; nlinarith) (by rw [hp]; nlinarith), hp]
  constructor <;> nlinarith

lemma winter_Omega_bounds :
    125.653 < moonAscendingNodeLongitudeT (riseSetTD dtWinter) ∧
      moonAscendingNodeLongitudeT (riseSetTD dtWinter) < 125.654 := by
  obtain ⟨h1, h2⟩ := riseSetTD_winter_bounds
  set x := riseSetTD dtWinter with hx
  have hsq0 : 0 ≤ x * x := mul_self_nonneg x
  have hsq : x * x < 0.0000000992 := by
    nlinarith [mul_pos (show (0 : ℝ) < 0.00031493 + x by linarith)
      (show (0 : ℝ) < 0.00031493 - x by linarith)]
  have hc1 : x * x * x < 0 :=
    mul_neg_of_pos_of_neg (mul_pos_of_neg_of_neg (by linarith) (by linarith)) (by linarith)
  have hstep : x * x * (-0.00031493) ≤ x * x * x :=
    mul_le_mul_of_nonneg_left h1.le hsq0
  have hc2 : -0.0000000001 < x * x * x := by nlinarith
  have hp : polynomial x moonAscendingNodeLongitudeCoeffs =
      125.04452 + x * (-1934.136261) + x * x * 0.0020708 + x * x * x * (1 / 450000) := by
    simp only [moonAscendingNodeLongitudeCoeffs]
    exact polynomial_eval4 x _ _ _ _
  unfold moonAscendingNodeLongitudeT
  rw [reduceAngle_eq_self _ (by rw [hp]; nlinarith) (by rw [hp]; nlinarith), hp]
  constructor <;> nlinarith

/-- Interval product bound for a nonnegative left factor and a nonpositive
right factor. -/
lemma mul_mem_of_pos_neg (a b alo ahi blo bhi : ℝ)
    (ha1 : alo ≤ a) (ha2 : a ≤ ahi) (hb1 : blo ≤ b) (hb2 : b ≤ bhi)
    (ha0 : 0 ≤ a) (hbhi : bhi ≤ 0) (hblo : blo ≤ 0) :
    ahi * blo ≤ a * b ∧ a * b ≤ alo * bhi := by
  constructor
  · calc ahi * blo ≤ a * blo := mul_le_mul_of_nonpos_right ha2 hblo
      _ ≤ a * b := mul_le_mul_of_nonneg_left hb1 ha0
  · calc a * b ≤ a * bhi := mul_le_mul_of_nonneg_left hb2 ha0
      _ ≤ alo * bhi := mul_le_mul_of_nonpos_right ha1 hbhi

lemma winter_sinM_bounds :
    -0.2411 ≤ sind (sunMeanAnomalyT (riseSetTD dtWinter)) ∧
      sind (sunMeanAnomalyT (riseSetTD dtWinter)) ≤ -0.2374 := by
  obtain ⟨hM1, hM2⟩ := winter_M_bounds
  obtain ⟨hr1, hr2⟩ := deg2rad_window (sunMeanAnomalyT (riseSetTD dtWinter))
    346.19 346.193 hM1.le hM2.le (by norm_num)
  have hpi1 := Real.pi_gt_d6
  have hpi2 := Real.pi_lt_d6
  have h := sind_neg_of_near_turns (sunMeanAnomalyT (riseSetTD dtWinter)) 1 0.2409 0.2411
    (by push_cast; nlinarith) (by push_cast; nlinarith)
    (by norm_num) (by norm_num) (by norm_num)
  constructor
  · linarith [h.1]
  · have := h.2
    nlinarith

lemma winter_sin2M_bounds :
    -0.4822 ≤ sind (2 * sunMeanAnomalyT (riseSetTD dtWinter)) ∧
      sind (2 * sunMeanAnomalyT (riseSetTD dtWinter)) ≤ -0.4538 := by
  obtain ⟨hM1, hM2⟩ := winter_M_bounds
  obtain ⟨hr1, hr2⟩ := deg2rad_window (2 * sunMeanAnomalyT (riseSetTD dtWinter))
    692.38 692.386 (by linarith) (by linarith) (by norm_num)
  have hpi1 := Real.pi_gt_d6
  have hpi2 := Real.pi_lt_d6
  have h := sind_neg_of_near_turns (2 * sunMeanAnomalyT (riseSetTD dtWinter)) 2 0.4818 0.4822
    (by push_cast; nlinarith) (by push_cast; nlinarith)
    (by norm_num) (by norm_num) (by norm_num)
  constructor
  · linarith [h.1]
  · have := h.2
    nlinarith

lemma winter_sin3M_bounds :
    -0.7231 ≤ sind (3 * sunMeanAnomalyT (riseSetTD dtWinter)) ∧
      sind (3 * sunMeanAnomalyT (riseSetTD dtWinter)) ≤ -0.6283 := by
  obtain ⟨hM1, hM2⟩ := winter_M_bounds
  obtain ⟨hr1, hr2⟩ := deg2rad_window (3 * sunMeanAnomalyT (riseSetTD dtWinter))
    1038.57 1038.579 (by linarith) (by linarith) (by norm_num)
  have hpi1 := Real.pi_gt_d6
  have hpi2 := Real.pi_lt_d6
  have h := sind_neg_of_near_turns (3 * sunMeanAnomalyT (riseSetTD dtWinter)) 3 0.7227 0.7231
    (by push_cast; nlinarith) (by push_cast; nlinarith)
    (by norm_num) (by norm_num) (by norm_num)
  constructor
  · linarith [h.1]
  · have := h.2
    nlinarith

lemma winter_sinOmega_bounds :
    0.735 ≤ sind (moonAscendingNodeLongitudeT (riseSetTD dtWinter)) ∧
      sind (moonAscendingNodeLongitudeT (riseSetTD dtWinter)) ≤ 0.949 := by
  obtain ⟨hO1, hO2⟩ := winter_Omega_bounds
  obtain ⟨hr1, hr2⟩ := deg2rad_window (moonAscendingNodeLongitudeT (riseSetTD dtWinter))
    125.653 125.654 hO1.le hO2.le (by norm_num)
  have hpi1 := Real.pi_gt_d6
  have hpi2 := Real.pi_lt_d6
  have h := sind_pos_near_pi (moonAscendingNodeLongitudeT (riseSetTD dtWinter)) 0.948 0.949
    (by nlinarith) (by nlinarith) (by norm_num) (by norm_num) (by norm_num)
  constructor
  · have := h.1
    nlinarith
  · exact h.2

set_option maxHeartbeats 1600000 in
lemma winter_lambda_bounds :
    268.646 < sunApparentLongitude (riseSetTD dtWinter) ∧
      sunApparentLongitude (riseSetTD dtWinter) < 268.659 := by
  obtain ⟨hL1, hL2⟩ := winter_L0_bounds
  obtain ⟨hsM1, hsM2⟩ := winter_sinM_bounds
  obtain ⟨hs2M1, hs2M2⟩ := winter_sin2M_bounds
  obtain ⟨hs3M1, hs3M2⟩ := winter_sin3M_bounds
  obtain ⟨hsO1, hsO2⟩ := winter_sinOmega_bounds
  obtain ⟨hx1, hx2⟩ := riseSetTD_winter_bounds
  unfold sunApparentLongitude sunTrueLongitude sunEquationOfCenter
  generalize riseSetTD dtWinter = x
    at hL1 hL2 hsM1 hsM2 hs2M1 hs2M2 hs3M1 hs3M2 hsO1 hsO2 hx1 hx2 ⊢
  have hsq0 : 0 ≤ x * x := mul_self_nonneg x
  have hsq : x * x < 0.0000000992 := by
    nlinarith [mul_pos (show (0 : ℝ) < 0.00031493 + x by linarith)
      (show (0 : ℝ) < 0.00031493 - x by linarith)]
  have hc1 : 1.914601 ≤ 1.914602 - 0.004817 * x - 0.000014 * x * x ∧
      1.914602 - 0.004817 * x - 0.000014 * x * x ≤ 1.914605 := by
    constructor <;> nlinarith
  have hc2 : 0.019993 ≤ 0.019993 - 0.000101 * x ∧ 0.019993 - 0.000101 * x ≤ 0.019995 := by
    constructor <;> nlinarith
  have hp1 := mul_mem_of_pos_neg (1.914602 - 0.004817 * x - 0.000014 * x * x)
    (sind (sunMeanAnomalyT x)) 1.914601 1.914605 (-0.2411) (-0.2374)
    hc1.1 hc1.2 hsM1 hsM2 (by nlinarith) (by norm_num) (by norm_num)
  have hp2 := mul_mem_of_pos_neg (0.019993 - 0.000101 * x)
    (sind (2 * sunMeanAnomalyT x)) 0.019993 0.019995 (-0.4822) (-0.4538)
    hc2.1 hc2.2 hs2M1 hs2M2 (by nlinarith) (by norm_num) (by norm_num)
  constructor <;>
    nlinarith [hp1.1, hp1.2, hp2.1, hp2.2, hs3M1, hs3M2, hsO1, hsO2, hL1, hL2]

lemma winter_sinLambda_bounds :
    -1 ≤ sind (sunApparentLongitude (riseSetTD dtWinter)) ∧
      sind (sunApparentLongitude (riseSetTD dtWinter)) ≤ -0.99971 := by
  obtain ⟨hl1, hl2⟩ := winter_lambda_bounds
  obtain ⟨hr1, hr2⟩ := deg2rad_window (sunApparentLongitude (riseSetTD dtWinter))
    268.646 268.659 hl1.le hl2.le (by norm_num)
  have hpi1 := Real.pi_gt_d6
  have hpi2 := Real.pi_lt_d6
  have hb : |deg2rad (sunApparentLongitude (riseSetTD dtWinter)) - 3 * Real.pi / 2| ≤
      0.0237 := by
    rw [abs_le]
    constructor <;> nlinarith
  have h := sind_near_270 (sunApparentLongitude (riseSetTD dtWinter)) 0.0237 hb
  constructor
  · exact Real.neg_one_le_sin _
  · nlinarith

lemma winter_eps_bounds :
    23.4339 < trueObliquityOfEcliptic (riseSetTD dtWinter) +
        0.00256 * cosd (moonAscendingNodeLongitudeT (riseSetTD dtWinter)) ∧
      trueObliquityOfEcliptic (riseSetTD dtWinter) +
        0.00256 * cosd (moonAscendingNodeLongitudeT (riseSetTD dtWinter)) < 23.4447 := by
  obtain ⟨hx1, hx2⟩ := riseSetTD_winter_bounds
  set x := riseSetTD dtWinter with hxdef
  have hU : |x / 100| ≤ 0.0000032 := by
    rw [abs_le]
    constructor <;> linarith
  have hmean : |meanObliquityOfEclipticT x - 84381.448 / 3600| ≤ 0.0000064 := by
    unfold meanObliquityOfEclipticT
    have hcons : polynomial (x / 100) meanObliquityOfEclipticCoeffs =
        84381.448 / 3600 + (x / 100) * polynomial (x / 100)
          [-4680.93 / 3600, -1.55 / 3600, 1999.25 / 3600, -51.38 / 3600, -249.67 / 3600,
           -39.05 / 3600, 7.12 / 3600, 27.87 / 3600, 5.79 / 3600, 2.45 / 3600] := by
      simp only [meanObliquityOfEclipticCoeffs]
      exact polynomial_cons _ _ _
    rw [hcons]
    have htail := abs_polynomial_le (x / 100)
      [-4680.93 / 3600, -1.55 / 3600, 1999.25 / 3600, -51.38 / 3600, -249.67 / 3600,
       -39.05 / 3600, 7.12 / 3600, 27.87 / 3600, 5.79 / 3600, 2.45 / 3600]
      (le_trans hU (by norm_num))
    have hsum : ((([-4680.93 / 3600, -1.55 / 3600, 1999.25 / 3600, -51.38 / 3600,
        -249.67 / 3600, -39.05 / 3600, 7.12 / 3600, 27.87 / 3600, 5.79 / 3600,
        2.45 / 3600] : List ℝ).map (fun c => |c|)).sum) ≤ 2 := by
      simp only [List.map_cons, List.map_nil, List.sum_cons, List.sum_nil]
      norm_num [abs_div, abs_neg, abs_of_nonneg]
    have habs : |(x / 100) * polynomial (x / 100)
        [-4680.93 / 3600, -1.55 / 3600, 1999.25 / 3600, -51.38 / 3600, -249.67 / 3600,
         -39.05 / 3600, 7.12 / 3600, 27.87 / 3600, 5.79 / 3600, 2.45 / 3600]| ≤
        0.0000032 * 2 := by
      rw [abs_mul]
      exact mul_le_mul hU (le_trans htail hsum) (abs_nonneg _) (by norm_num)
    rw [add_sub_cancel_left]
    linarith [abs_le.mp habs]
  have hnut : |nutationInObliquity x| ≤ 0.0028 := by
    apply nutationInObliquity_bound
    rw [abs_le]
    constructor <;> linarith
  have hcos : |cosd (moonAscendingNodeLongitudeT x)| ≤ 1 := abs_cosd_le_one _
  obtain ⟨hm1, hm2⟩ := abs_le.mp hmean
  obtain ⟨hn1, hn2⟩ := abs_le.mp hnut
  obtain ⟨hc1, hc2⟩ := abs_le.mp hcos
  unfold trueObliquityOfEcliptic
  constructor <;> nlinarith

lemma winter_sinEps_bounds :
    0.3918 ≤ sind (trueObliquityOfEcliptic (riseSetTD dtWinter) +
        0.00256 * cosd (moonAscendingNodeLongitudeT (riseSetTD dtWinter))) ∧
      sind (trueObliquityOfEcliptic (riseSetTD dtWinter) +
        0.00256 * cosd (moonAscendingNodeLongitudeT (riseSetTD dtWinter))) ≤ 0.40919 := by
  obtain ⟨he1, he2⟩ := winter_eps_bounds
  obtain ⟨hr1, hr2⟩ := deg2rad_window (trueObliquityOfEcliptic (riseSetTD dtWinter) +
    0.00256 * cosd (moonAscendingNodeLongitudeT (riseSetTD dtWinter)))
    23.4339 23.4447 he1.le he2.le (by norm_num)
  have h := sind_small_pos (trueObliquityOfEcliptic (riseSetTD dtWinter) +
    0.00256 * cosd (moonAscendingNodeLongitudeT (riseSetTD dtWinter))) 0.40899 0.40919
    (by nlinarith) (by nlinarith) (by norm_num) (by norm_num) (by norm_num)
  constructor
  · have := h.1
    nlinarith
  · exact h.2

lemma winter_x_bounds :
    -0.41 ≤ sind (trueObliquityOfEcliptic (riseSetTD dtWinter) +
        0.00256 * cosd (moonAscendingNodeLongitudeT (riseSetTD dtWinter))) *
        sind (sunApparentLongitude (riseSetTD dtWinter)) ∧
      sind (trueObliquityOfEcliptic (riseSetTD dtWinter) +
        0.00256 * cosd (moonAscendingNodeLongitudeT (riseSetTD dtWinter))) *
        sind (sunApparentLongitude (riseSetTD dtWinter)) ≤ -0.39168 := by
  obtain ⟨he1, he2⟩ := winter_sinEps_bounds
  obtain ⟨hl1, hl2⟩ := winter_sinLambda_bounds
  have h := mul_mem_of_pos_neg _ _ 0.3918 0.40919 (-1) (-0.99971)
    he1 he2 hl1 hl2 (by linarith) (by norm_num) (by norm_num)
  constructor
  · linarith [h.1]
  · linarith [h.2]

set_option maxHeartbeats 1600000 in
/-- On 1999-12-21 at latitude 89.99 the argument of the arccos in
`approxLocalHourAngle` exceeds 1 (polar night). -/
lemma polarNight19991221 :
    1 < hourAngleCosArg 89.99 (sunApparentDeclination (riseSetTD dtWinter)) := by
  obtain ⟨hs1, hs2⟩ := winter_x_bounds
  have hdecl : sunApparentDeclination (riseSetTD dtWinter) =
      rad2deg (Real.arcsin (sind (trueObliquityOfEcliptic (riseSetTD dtWinter) +
        0.00256 * cosd (moonAscendingNodeLongitudeT (riseSetTD dtWinter))) *
        sind (sunApparentLongitude (riseSetTD dtWinter)))) := by
    simp only [sunApparentDeclination]
  rw [hdecl]
  generalize sind (trueObliquityOfEcliptic (riseSetTD dtWinter) +
      0.00256 * cosd (moonAscendingNodeLongitudeT (riseSetTD dtWinter))) *
      sind (sunApparentLongitude (riseSetTD dtWinter)) = s at hs1 hs2 ⊢
  unfold hourAngleCosArg
  rw [sind_rad2deg, cosd_rad2deg, Real.sin_arcsin (by linarith) (by linarith),
    Real.cos_arcsin]
  have hpi1 := Real.pi_gt_d6
  have hpi2 := Real.pi_lt_d6
  have hsqrt1 : Real.sqrt (1 - s ^ 2) ≤ 1 := Real.sqrt_le_one.mpr (by nlinarith)
  have hsqrt0 : 0 < Real.sqrt (1 - s ^ 2) := Real.sqrt_pos.mpr (by nlinarith)
  have h8999 : deg2rad 89.99 = Real.pi / 2 - Real.pi / 18000 := by
    unfold deg2rad
    ring
  have hy1 : (0 : ℝ) < Real.pi / 18000 := by linarith
  have hy2 : Real.pi / 18000 ≤ 0.0001746 := by linarith
  have hsin8999 : 0.999 ≤ sind 89.99 ∧ sind 89.99 ≤ 1 := by
    unfold sind
    rw [h8999, Real.sin_pi_div_two_sub]
    constructor
    · have h := @Real.one_sub_sq_div_two_le_cos (Real.pi / 18000)
      nlinarith
    · exact Real.cos_le_one _
  have hcos8999 : 0 < cosd 89.99 ∧ cosd 89.99 ≤ 0.0001746 := by
    unfold cosd
    rw [h8999, Real.cos_pi_div_two_sub]
    exact ⟨Real.sin_pos_of_pos_of_lt_pi hy1 (by linarith),
      sin_le_of_nonneg _ _ hy1.le hy2⟩
  have hneg : deg2rad (-50 / 60 : ℝ) = -(deg2rad (50 / 60)) := by
    unfold deg2rad
    ring
  have h5060w := deg2rad_window ((50 : ℝ) / 60) (50 / 60) (50 / 60) le_rfl le_rfl
    (by norm_num)
  have hsm : -0.0145445 ≤ sind (-50 / 60) := by
    unfold sind
    rw [hneg, Real.sin_neg]
    have h := sin_le_of_nonneg (deg2rad ((50 : ℝ) / 60)) 0.0145445
      (by linarith [h5060w.1]) (by linarith [h5060w.2])
    linarith
  have hden : 0 < cosd 89.99 * Real.sqrt (1 - s ^ 2) := mul_pos hcos8999.1 hsqrt0
  rw [one_lt_div hden]
  have hp := mul_mem_of_pos_neg (sind 89.99) s 0.999 1 (-0.41) (-0.39168)
    hsin8999.1 hsin8999.2 hs1 hs2 (by linarith [hsin8999.1]) (by norm_num) (by norm_num)
  have hdle : cosd 89.99 * Real.sqrt (1 - s ^ 2) ≤ 0.0001746 := by
    calc cosd 89.99 * Real.sqrt (1 - s ^ 2) ≤ cosd 89.99 * 1 :=
        mul_le_mul_of_nonneg_left hsqrt1 hcos8999.1.le
      _ ≤ 0.0001746 := by linarith [hcos8999.2]
  have hub := hp.2
  linarith

/-!  Evaluation of the polar branches of the sun-event operations. -/

lemma approxLocalHourAngle_ms (phi delta : ℝ) (s : MSMState)
    (h : hourAngleCosArg phi delta < -1) :
    approxLocalHourAngle phi delta s =
      Except.error (if s.returnTimeForPNMS then
          PolarPayload.placeholderMoment "**" ⟨2000, 0, 1, 12, 0, 0⟩
        else PolarPayload.marker "MS") := by
  simp only [approxLocalHourAngle]
  rw [if_pos h]

lemma approxLocalHourAngle_pn (phi delta : ℝ) (s : MSMState)
    (h : 1 < hourAngleCosArg phi delta) :
    approxLocalHourAngle phi delta s =
      Except.error (if s.returnTimeForPNMS then
          PolarPayload.placeholderMoment "--" ⟨2000, 0, 1, 12, 0, 0⟩
        else PolarPayload.marker "PN") := by
  simp only [approxLocalHourAngle]
  rw [if_neg (by push_neg; linarith), if_pos h]

lemma sunRiseSet_error (datetime : Datetime) (phi L : ℝ) (flag : String)
    (utcOffset : ℤ) (s : MSMState) (e : PolarPayload)
    (h : approxLocalHourAngle phi (sunApparentDeclination (riseSetTD datetime)) s =
      Except.error e) :
    sunRiseSet datetime phi L flag utcOffset s = Except.error e := by
  simp only [sunRiseSet]
  rw [h]

lemma sunrise_eval_of_error (datetime : Datetime) (phi L : ℝ) (utcOffset : ℤ)
    (s : MSMState) (e : PolarPayload)
    (h : approxLocalHourAngle phi (sunApparentDeclination (riseSetTD datetime)) s =
      Except.error e) :
    sunrise datetime phi L utcOffset s = returnPNMS e datetime 6 s := by
  unfold sunrise
  rw [sunRiseSet_error datetime phi L "RISE" utcOffset s e h]

lemma sunset_eval_of_error (datetime : Datetime) (phi L : ℝ) (utcOffset : ℤ)
    (s : MSMState) (e : PolarPayload)
    (h : approxLocalHourAngle phi (sunApparentDeclination (riseSetTD datetime)) s =
      Except.error e) :
    sunset datetime phi L utcOffset s = returnPNMS e datetime 18 s := by
  unfold sunset
  rw [sunRiseSet_error datetime phi L "SET" utcOffset s e h]

lemma returnPNMS_marker (m : String) (date : Datetime) (hour : ℤ) (s : MSMState) :
    returnPNMS (.marker m) date hour s = .marker m := by
  unfold returnPNMS
  split <;> rfl

lemma returnPNMS_placeholder (tag : String) (dt0 : Datetime) (date : Datetime)
    (hour : ℤ) (s : MSMState) :
    returnPNMS (.placeholderMoment tag dt0) date hour s =
      if s.returnTimeForPNMS then
        .placeholder tag ⟨date.year, date.month, date.date, hour, 0, 0⟩
      else .placeholder tag dt0 := by
  unfold returnPNMS dtIsDST
  cases hb : s.returnTimeForPNMS <;> simp [hb]

lemma returnPNMS_polar (tag m : String) (date : Datetime) (hour : ℤ) (s : MSMState) :
    returnPNMS (if s.returnTimeForPNMS then
        PolarPayload.placeholderMoment tag ⟨2000, 0, 1, 12, 0, 0⟩
      else PolarPayload.marker m) date hour s =
      if s.returnTimeForPNMS then
        SunResult.placeholder tag ⟨date.year, date.month, date.date, hour, 0, 0⟩
      else SunResult.marker m := by
  cases hb : s.returnTimeForPNMS
  · simp [returnPNMS_marker]
  · simp [returnPNMS_placeholder, hb]

lemma sunrise_pn_eval (datetime : Datetime) (phi L : ℝ) (utcOffset : ℤ) (s : MSMState)
    (h : 1 < hourAngleCosArg phi (sunApparentDeclination (riseSetTD datetime))) :
    sunrise datetime phi L utcOffset s =
      if s.returnTimeForPNMS then
        SunResult.placeholder "--" ⟨datetime.year, datetime.month, datetime.date, 6, 0, 0⟩
      else SunResult.marker "PN" := by
  rw [sunrise_eval_of_error datetime phi L utcOffset s _
    (approxLocalHourAngle_pn phi _ s h), returnPNMS_polar]

/-- C5: whenever the hour-angle cosine argument built from the day's solar
declination is below -1 (midnight sun) or above 1 (polar night), the public
`sunrise` and `sunset` operations return the corresponding classification
marker ("MS" / "PN"), or the configured tagged placeholder time, to the
caller; no error escapes. -/
theorem sunrise_sunset_polar_classification (datetime : Datetime) (phi L : ℝ)
    (utcOffset : ℤ) (s : MSMState) :
    (hourAngleCosArg phi (sunApparentDeclination (riseSetTD datetime)) < -1 →
      sunrise datetime phi L utcOffset s =
        (if s.returnTimeForPNMS then
          SunResult.placeholder "**" ⟨datetime.year, datetime.month, datetime.date, 6, 0, 0⟩
        else SunResult.marker "MS") ∧
      sunset datetime phi L utcOffset s =
        (if s.returnTimeForPNMS then
          SunResult.placeholder "**" ⟨datetime.year, datetime.month, datetime.date, 18, 0, 0⟩
        else SunResult.marker "MS")) ∧
    (1 < hourAngleCosArg phi (sunApparentDeclination (riseSetTD datetime)) →
      sunrise datetime phi L utcOffset s =
        (if s.returnTimeForPNMS then
          SunResult.placeholder "--" ⟨datetime.year, datetime.month, datetime.date, 6, 0, 0⟩
        else SunResult.marker "PN") ∧
      sunset datetime phi L utcOffset s =
        (if s.returnTimeForPNMS then
          SunResult.placeholder "--" ⟨datetime.year, datetime.month, datetime.date, 18, 0, 0⟩
        else SunResult.marker "PN")) := by
  constructor
  · intro h
    have he := approxLocalHourAngle_ms phi (sunApparentDeclination (riseSetTD datetime)) s h
    exact ⟨by rw [sunrise_eval_of_error datetime phi L utcOffset s _ he, returnPNMS_polar],
      by rw [sunset_eval_of_error datetime phi L utcOffset s _ he, returnPNMS_polar]⟩
  · intro h
    have he := approxLocalHourAngle_pn phi (sunApparentDeclination (riseSetTD datetime)) s h
    exact ⟨by rw [sunrise_eval_of_error datetime phi L utcOffset s _ he, returnPNMS_polar],
      by rw [sunset_eval_of_error datetime phi L utcOffset s _ he, returnPNMS_polar]⟩

theorem sunrise_sunset_polar_classification_witness :
    1 < hourAngleCosArg 89.99 (sunApparentDeclination (riseSetTD dtWinter)) ∧
      sunrise dtWinter 89.99 0 0 msmInitialState = SunResult.marker "PN" ∧
      sunset dtWinter 89.99 0 0 msmInitialState = SunResult.marker "PN" := by
  refine ⟨polarNight19991221, ?_, ?_⟩
  · rw [((sunrise_sunset_polar_classification dtWinter 89.99 0 0 msmInitialState).2
      polarNight19991221).1]
    rfl
  · rw [((sunrise_sunset_polar_classification dtWinter 89.99 0 0 msmInitialState).2
      polarNight19991221).2]
    rfl

/-- C9 counterexample: `options` changes the module state, and the public
`sunrise` called with identical explicit arguments returns different results
under the module state left by another caller's `options` call, so results
are not isolated from other invocations' settings. -/
theorem sunrise_config_isolation_fails :
    options ⟨none, some true, none⟩ msmInitialState ≠ msmInitialState ∧
      sunrise dtWinter 89.99 0 0 (options ⟨none, some true, none⟩ msmInitialState) ≠
        sunrise dtWinter 89.99 0 0 msmInitialState := by
  refine ⟨by decide, ?_⟩
  rw [sunrise_pn_eval dtWinter 89.99 0 0 _ polarNight19991221,
    sunrise_pn_eval dtWinter 89.99 0 0 msmInitialState polarNight19991221]
  simp [options, msmInitialState]

/-- C9 (amended): the engine keeps its configuration in module-level mutable
flags written by `options`; a solver invocation reads the flags as last
written, so its result is a function of its explicit arguments together with
the module state at call time (here shown on a polar-night input, whose
outcome is decided by the `returnTimeForPNMS` flag left by the last
`options` call). -/
theorem sunrise_observes_module_options (oA : OptionsArg) (s : MSMState) :
    sunrise dtWinter 89.99 0 0 (options oA s) =
      if oA.returnTimeForPNMS.getD s.returnTimeForPNMS then
        SunResult.placeholder "--" ⟨1999, 11, 21, 6, 0, 0⟩
      else SunResult.marker "PN" := by
  rw [sunrise_pn_eval dtWinter 89.99 0 0 (options oA s) polarNight19991221]
  rfl

lemma abs_mul_le_of_bounds (a b ca cb : ℝ) (ha : |a| ≤ ca) (hb : |b| ≤ cb) :
    |a * b| ≤ ca * cb := by
  rw [abs_mul]
  exact mul_le_mul ha hb (abs_nonneg _) ((abs_nonneg a).trans ha)

lemma abs_commonCorrections_le (A : List ℝ) : |commonCorrections A| ≤ 0.0013 := by
  unfold commonCorrections
  obtain ⟨c1a, c1b⟩ := abs_le.mp (abs_sind_le_one (A.getD 1 0))
  obtain ⟨c2a, c2b⟩ := abs_le.mp (abs_sind_le_one (A.getD 2 0))
  obtain ⟨c3a, c3b⟩ := abs_le.mp (abs_sind_le_one (A.getD 3 0))
  obtain ⟨c4a, c4b⟩ := abs_le.mp (abs_sind_le_one (A.getD 4 0))
  obtain ⟨c5a, c5b⟩ := abs_le.mp (abs_sind_le_one (A.getD 5 0))
  obtain ⟨c6a, c6b⟩ := abs_le.mp (abs_sind_le_one (A.getD 6 0))
  obtain ⟨c7a, c7b⟩ := abs_le.mp (abs_sind_le_one (A.getD 7 0))
  obtain ⟨c8a, c8b⟩ := abs_le.mp (abs_sind_le_one (A.getD 8 0))
  obtain ⟨c9a, c9b⟩ := abs_le.mp (abs_sind_le_one (A.getD 9 0))
  obtain ⟨c10a, c10b⟩ := abs_le.mp (abs_sind_le_one (A.getD 10 0))
  obtain ⟨c11a, c11b⟩ := abs_le.mp (abs_sind_le_one (A.getD 11 0))
  obtain ⟨c12a, c12b⟩ := abs_le.mp (abs_sind_le_one (A.getD 12 0))
  obtain ⟨c13a, c13b⟩ := abs_le.mp (abs_sind_le_one (A.getD 13 0))
  obtain ⟨c14a, c14b⟩ := abs_le.mp (abs_sind_le_one (A.getD 14 0))
  rw [abs_le]
  constructor <;> linarith

set_option maxHeartbeats 1600000 in
lemma abs_newMoonFullMoonCorrections_zero_le (E M MPrime F Omega : ℝ)
    (hE : |E| ≤ 1.01) :
    |newMoonFullMoonCorrections E M MPrime F Omega 0| ≤ 0.627 := by
  simp only [newMoonFullMoonCorrections]
  rw [if_pos trivial]
  obtain ⟨p0a, p0b⟩ := abs_le.mp (abs_sind_le_one (MPrime - 2 * F))
  obtain ⟨p1a, p1b⟩ := abs_le.mp (abs_sind_le_one (MPrime + 2 * F))
  obtain ⟨p2a, p2b⟩ := abs_le.mp (abs_sind_le_one (3 * MPrime))
  obtain ⟨p3a, p3b⟩ := abs_le.mp (abs_sind_le_one (Omega))
  obtain ⟨p4a, p4b⟩ := abs_le.mp (abs_sind_le_one (MPrime + 2 * M))
  obtain ⟨p5a, p5b⟩ := abs_le.mp (abs_sind_le_one (2 * MPrime - 2 * F))
  obtain ⟨p6a, p6b⟩ := abs_le.mp (abs_sind_le_one (3 * M))
  obtain ⟨p7a, p7b⟩ := abs_le.mp (abs_sind_le_one (MPrime + M - 2 * F))
  obtain ⟨p8a, p8b⟩ := abs_le.mp (abs_sind_le_one (2 * MPrime + 2 * F))
  obtain ⟨p9a, p9b⟩ := abs_le.mp (abs_sind_le_one (MPrime + M + 2 * F))
  obtain ⟨p10a, p10b⟩ := abs_le.mp (abs_sind_le_one (MPrime - M + 2 * F))
  obtain ⟨p11a, p11b⟩ := abs_le.mp (abs_sind_le_one (MPrime - M - 2 * F))
  obtain ⟨p12a, p12b⟩ := abs_le.mp (abs_sind_le_one (3 * MPrime + M))
  obtain ⟨p13a, p13b⟩ := abs_le.mp (abs_sind_le_one (4 * MPrime))
  obtain ⟨p14a, p14b⟩ := abs_le.mp (abs_sind_le_one (MPrime))
  obtain ⟨p15a, p15b⟩ := abs_le.mp (abs_sind_le_one (2 * MPrime))
  obtain ⟨p16a, p16b⟩ := abs_le.mp (abs_sind_le_one (2 * F))
  obtain ⟨q0a, q0b⟩ := abs_le.mp (abs_mul_le_of_bounds E (sind (2 * MPrime + M)) 1.01 1 hE (abs_sind_le_one _))
  obtain ⟨q1a, q1b⟩ := abs_le.mp (abs_mul_le_of_bounds E (sind (M + 2 * F)) 1.01 1 hE (abs_sind_le_one _))
  obtain ⟨q2a, q2b⟩ := abs_le.mp (abs_mul_le_of_bounds E (sind (M - 2 * F)) 1.01 1 hE (abs_sind_le_one _))
  obtain ⟨q3a, q3b⟩ := abs_le.mp (abs_mul_le_of_bounds E (sind (2 * MPrime - M)) 1.01 1 hE (abs_sind_le_one _))
  obtain ⟨q4a, q4b⟩ := abs_le.mp (abs_mul_le_of_bounds E (sind (M)) 1.01 1 hE (abs_sind_le_one _))
  obtain ⟨q5a, q5b⟩ := abs_le.mp (abs_mul_le_of_bounds E (sind (MPrime - M)) 1.01 1 hE (abs_sind_le_one _))
  obtain ⟨q6a, q6b⟩ := abs_le.mp (abs_mul_le_of_bounds E (sind (MPrime + M)) 1.01 1 hE (abs_sind_le_one _))
  obtain ⟨r0a, r0b⟩ := abs_le.mp (abs_mul_le_of_bounds (E * E) (sind (2 * M)) (1.01 * 1.01) 1
    (abs_mul_le_of_bounds E E 1.01 1.01 hE hE) (abs_sind_le_one _))
  rw [abs_le]
  constructor <;> linarith

lemma truePhase_zero_eq (k0 : ℝ) :
    truePhase k0 0 =
      meanPhase (kToT k0) k0 +
        (newMoonFullMoonCorrections (eccentricityCorrection (kToT k0))
          (sunMeanAnomaly (kToT k0) k0) (moonMeanAnomaly (kToT k0) k0)
          (moonArgumentOfLatitude (kToT k0) k0)
          (moonAscendingNodeLongitude (kToT k0) k0) 0 +
         commonCorrections (planetaryArguments (kToT k0) k0)) := by
  simp only [truePhase, Nat.cast_zero, zero_div, add_zero]
  rw [if_pos (Or.inl trivial)]

lemma truePhase_newMoon_bounds (k0 mplo mphi : ℝ)
    (h1 : mplo ≤ meanPhase (kToT k0) k0) (h2 : meanPhase (kToT k0) k0 ≤ mphi)
    (hE : |eccentricityCorrection (kToT k0)| ≤ 1.01) :
    mplo - 0.63 ≤ truePhase k0 0 ∧ truePhase k0 0 ≤ mphi + 0.63 := by
  rw [truePhase_zero_eq]
  obtain ⟨hb1a, hb1b⟩ := abs_le.mp (abs_newMoonFullMoonCorrections_zero_le
    (eccentricityCorrection (kToT k0)) (sunMeanAnomaly (kToT k0) k0)
    (moonMeanAnomaly (kToT k0) k0) (moonArgumentOfLatitude (kToT k0) k0)
    (moonAscendingNodeLongitude (kToT k0) k0) hE)
  obtain ⟨hb2a, hb2b⟩ := abs_le.mp (abs_commonCorrections_le
    (planetaryArguments (kToT k0) k0))
  constructor <;> linarith

lemma floor_approxK_2000 : Int.floor (approxK ⟨2000, 0, 1, 0, 0, 0⟩) = 1 := by
  rw [Int.floor_eq_iff]
  unfold approxK
  norm_num

lemma cand0_JDE_bounds :
    (2451549.46 : ℝ) ≤ truePhase 0 0 ∧ truePhase 0 0 ≤ 2451550.73 := by
  have h1 : (2451550.097 : ℝ) ≤ meanPhase (kToT 0) 0 ∧
      meanPhase (kToT 0) 0 ≤ 2451550.098 := by
    unfold meanPhase kToT
    norm_num
  have hE : |eccentricityCorrection (kToT 0)| ≤ 1.01 := by
    unfold eccentricityCorrection kToT
    rw [abs_le]
    norm_num
  have h := truePhase_newMoon_bounds 0 _ _ h1.1 h1.2 hE
  exact ⟨by linarith [h.1], by linarith [h.2]⟩

lemma cand1_JDE_bounds :
    (2451578.99 : ℝ) ≤ truePhase 1 0 ∧ truePhase 1 0 ≤ 2451580.26 := by
  have h1 : (2451579.628 : ℝ) ≤ meanPhase (kToT 1) 1 ∧
      meanPhase (kToT 1) 1 ≤ 2451579.629 := by
    unfold meanPhase kToT
    norm_num
  have hE : |eccentricityCorrection (kToT 1)| ≤ 1.01 := by
    unfold eccentricityCorrection kToT
    rw [abs_le]
    norm_num
  have h := truePhase_newMoon_bounds 1 _ _ h1.1 h1.2 hE
  exact ⟨by linarith [h.1], by linarith [h.2]⟩

lemma cand2_JDE_bounds :
    (2451608.52 : ℝ) ≤ truePhase 2 0 ∧ truePhase 2 0 ≤ 2451609.79 := by
  have h1 : (2451609.158 : ℝ) ≤ meanPhase (kToT 2) 2 ∧
      meanPhase (kToT 2) 2 ≤ 2451609.159 := by
    unfold meanPhase kToT
    norm_num
  have hE : |eccentricityCorrection (kToT 2)| ≤ 1.01 := by
    unfold eccentricityCorrection kToT
    rw [abs_le]
    norm_num
  have h := truePhase_newMoon_bounds 2 _ _ h1.1 h1.2 hE
  exact ⟨by linarith [h.1], by linarith [h.2]⟩


set_option maxHeartbeats 1600000 in
/-- Decode of `JDToDatetime` at a real `JD0` whose whole-Julian-day and
derived floors are pinned by rational bounds (Gregorian branch). -/
lemma JDToDatetime_decode (JD0 : ℝ) (z alpha q4 C D E mE : ℤ)
    (hz1 : (z : ℝ) ≤ JD0 + 0.5) (hz2 : JD0 + 0.5 < (z : ℝ) + 1)
    (hzge : z ≥ 2299161)
    (ha1 : (alpha : ℝ) ≤ ((z : ℝ) - 1867216.25) / 36524.25)
    (ha2 : ((z : ℝ) - 1867216.25) / 36524.25 < (alpha : ℝ) + 1)
    (hq1 : (q4 : ℝ) ≤ (alpha : ℝ) / 4)
    (hq2 : (alpha : ℝ) / 4 < (q4 : ℝ) + 1)
    (hC1 : (C : ℝ) ≤ ((z : ℝ) + 1 + (alpha : ℝ) - (q4 : ℝ) + 1524 - 122.1) / 365.25)
    (hC2 : ((z : ℝ) + 1 + (alpha : ℝ) - (q4 : ℝ) + 1524 - 122.1) / 365.25 < (C : ℝ) + 1)
    (hD1 : (D : ℝ) ≤ 365.25 * (C : ℝ))
    (hD2 : 365.25 * (C : ℝ) < (D : ℝ) + 1)
    (hE1 : (E : ℝ) ≤ ((z : ℝ) + 1 + (alpha : ℝ) - (q4 : ℝ) + 1524 - (D : ℝ)) / 30.6001)
    (hE2 : ((z : ℝ) + 1 + (alpha : ℝ) - (q4 : ℝ) + 1524 - (D : ℝ)) / 30.6001 < (E : ℝ) + 1)
    (hm1 : (mE : ℝ) ≤ 30.6001 * (E : ℝ))
    (hm2 : 30.6001 * (E : ℝ) < (mE : ℝ) + 1) :
    ∃ hh mi se : ℤ,
      JDToDatetime JD0 =
        ⟨if (if E > 13 then E - 1 - 12 else E - 1) > 2 then C - 4715 - 1 else C - 4715,
         (if E > 13 then E - 1 - 12 else E - 1) - 1,
         z + 1 + alpha - q4 + 1524 - D - mE, hh, mi, se⟩ ∧
      0 ≤ hh ∧ hh < 24 ∧ 0 ≤ mi ∧ mi < 60 ∧ 0 ≤ se ∧ se < 60 := by
  have hZ : Int.floor (JD0 + 0.5) = z := Int.floor_eq_iff.mpr ⟨hz1, hz2⟩
  have halpha : Int.floor (((z : ℝ) - 1867216.25) / 36524.25) = alpha :=
    Int.floor_eq_iff.mpr ⟨ha1, ha2⟩
  have hq : Int.floor ((alpha : ℝ) / 4) = q4 := Int.floor_eq_iff.mpr ⟨hq1, hq2⟩
  have hCf : Int.floor ((((z + 1 + alpha - q4 + 1524 : ℤ) : ℝ) - 122.1) / 365.25) = C := by
    rw [Int.floor_eq_iff]
    push_cast
    exact ⟨by linarith, by linarith⟩
  have hDf : Int.floor ((365.25 : ℝ) * (C : ℝ)) = D := Int.floor_eq_iff.mpr ⟨hD1, hD2⟩
  have hEf : Int.floor ((((z + 1 + alpha - q4 + 1524 : ℤ) : ℝ) - ((D : ℤ) : ℝ)) / 30.6001) =
      E := by
    rw [Int.floor_eq_iff]
    push_cast
    exact ⟨by linarith, by linarith⟩
  have hmf : Int.floor ((30.6001 : ℝ) * (E : ℝ)) = mE := Int.floor_eq_iff.mpr ⟨hm1, hm2⟩
  have hday : Int.floor (((z + 1 + alpha - q4 + 1524 : ℤ) : ℝ) - ((D : ℤ) : ℝ) -
      ((mE : ℤ) : ℝ) + (JD0 + 0.5 - (z : ℝ))) = z + 1 + alpha - q4 + 1524 - D - mE := by
    rw [Int.floor_eq_iff]
    push_cast
    exact ⟨by linarith, by linarith⟩
  simp only [JDToDatetime]
  rw [hZ, if_pos hzge, halpha, hq, hCf, hDf, hEf, hmf, hday]
  have hfrac : ((z + 1 + alpha - q4 + 1524 : ℤ) : ℝ) - ((D : ℤ) : ℝ) - ((mE : ℤ) : ℝ) +
      (JD0 + 0.5 - (z : ℝ)) - ((z + 1 + alpha - q4 + 1524 - D - mE : ℤ) : ℝ) =
      JD0 + 0.5 - (z : ℝ) := by
    push_cast
    ring
  rw [hfrac]
  refine ⟨_, _, _, rfl, ?_, ?_, ?_, ?_, ?_, ?_⟩
  · exact Int.floor_nonneg.mpr (by linarith)
  · exact Int.floor_lt.mpr (by push_cast; linarith)
  · have u1 := Int.floor_le ((JD0 + 0.5 - (z : ℝ)) * 24)
    exact Int.floor_nonneg.mpr (by linarith)
  · have u2 := Int.lt_floor_add_one ((JD0 + 0.5 - (z : ℝ)) * 24)
    exact Int.floor_lt.mpr (by push_cast; linarith)
  · have u1 := Int.floor_le (((JD0 + 0.5 - (z : ℝ)) * 24 -
      ((Int.floor ((JD0 + 0.5 - (z : ℝ)) * 24) : ℤ) : ℝ)) * 60)
    exact Int.floor_nonneg.mpr (by linarith)
  · have u2 := Int.lt_floor_add_one (((JD0 + 0.5 - (z : ℝ)) * 24 -
      ((Int.floor ((JD0 + 0.5 - (z : ℝ)) * 24) : ℤ) : ℝ)) * 60)
    exact Int.floor_lt.mpr (by push_cast; linarith)

set_option maxHeartbeats 800000 in
lemma jsNum_DeltaT_2000 (mo d h mi s : ℤ) (h1 : 0 ≤ mo) (h2 : mo ≤ 2) :
    0 < jsNum (DeltaT ⟨2000, mo, d, h, mi, s⟩) ∧
      jsNum (DeltaT ⟨2000, mo, d, h, mi, s⟩) < 64 := by
  have hq1 : (0 : ℚ) ≤ (mo : ℚ) := by exact_mod_cast h1
  have hq2 : (mo : ℚ) ≤ 2 := by exact_mod_cast h2
  have hy : DeltaT ⟨2000, mo, d, h, mi, s⟩ =
      DeltaTOfY (((2000 : ℤ) : ℚ) + ((mo : ℚ) + 0.5) / 12) := rfl
  have h2000 : ((2000 : ℤ) : ℚ) = 2000 := by norm_num
  rw [hy, h2000]
  unfold DeltaTOfY
  rw [if_neg (not_lt.mpr (by linarith)),
    if_neg (not_lt.mpr (by linarith)),
    if_neg (not_lt.mpr (by linarith)),
    if_neg (not_lt.mpr (by linarith)),
    if_neg (not_lt.mpr (by linarith)),
    if_neg (not_lt.mpr (by linarith)),
    if_neg (not_lt.mpr (by linarith)),
    if_neg (not_lt.mpr (by linarith)),
    if_neg (not_lt.mpr (by linarith)),
    if_neg (not_lt.mpr (by linarith)),
    if_neg (not_lt.mpr (by linarith)),
    if_neg (not_lt.mpr (by linarith)),
    if_pos (by linarith)]
  simp only [jsNum, Option.getD_some]
  have harg : 2000 + ((mo : ℚ) + 0.5) / 12 - 2000 = ((mo : ℚ) + 0.5) / 12 := by ring
  rw [harg]
  have key : ∀ u : ℚ, 0 ≤ u → u ≤ 5 / 24 →
      0 < 63.86 + 0.3345 * u - 0.060374 * u * u + 0.0017275 * u * u * u +
          0.000651814 * u * u * u * u + 0.00002373599 * u * u * u * u * u ∧
        63.86 + 0.3345 * u - 0.060374 * u * u + 0.0017275 * u * u * u +
          0.000651814 * u * u * u * u + 0.00002373599 * u * u * u * u * u < 64 := by
    intro u hu1 hu2
    have p2 : 0 ≤ u * u := mul_nonneg hu1 hu1
    have p3 : 0 ≤ u * u * u := mul_nonneg p2 hu1
    have p4 : 0 ≤ u * u * u * u := mul_nonneg p3 hu1
    have p5 : 0 ≤ u * u * u * u * u := mul_nonneg p4 hu1
    have b2 : u * u ≤ 5 / 24 * (5 / 24) := by nlinarith
    have b3 : u * u * u ≤ 5 / 24 * (5 / 24) * (5 / 24) := by nlinarith
    have b4 : u * u * u * u ≤ 5 / 24 * (5 / 24) * (5 / 24) * (5 / 24) := by nlinarith
    have b5 : u * u * u * u * u ≤ 5 / 24 * (5 / 24) * (5 / 24) * (5 / 24) * (5 / 24) := by
      nlinarith
    constructor <;> nlinarith
  exact key (((mo : ℚ) + 0.5) / 12) (by positivity) (by linarith)

lemma dtToDays_bounds (Y Mo Dd hh mi se : ℤ) (h1 : 0 ≤ hh) (h2 : hh < 24)
    (h3 : 0 ≤ mi) (h4 : mi < 60) (h5 : 0 ≤ se) (h6 : se < 60) :
    ((daysFromCivil Y (Mo + 1) Dd : ℤ) : ℚ) ≤ dtToDays ⟨Y, Mo, Dd, hh, mi, se⟩ ∧
      dtToDays ⟨Y, Mo, Dd, hh, mi, se⟩ < ((daysFromCivil Y (Mo + 1) Dd : ℤ) : ℚ) + 1 := by
  have he : dtToDays ⟨Y, Mo, Dd, hh, mi, se⟩ =
      ((daysFromCivil Y (Mo + 1) Dd : ℤ) : ℚ) +
        ((hh : ℚ) * 3600 + (mi : ℚ) * 60 + (se : ℚ)) / 86400 := rfl
  have c1 : (0 : ℚ) ≤ (hh : ℚ) := by exact_mod_cast h1
  have c2 : (hh : ℚ) ≤ 23 := by exact_mod_cast Int.lt_add_one_iff.mp h2
  have c3 : (0 : ℚ) ≤ (mi : ℚ) := by exact_mod_cast h3
  have c4 : (mi : ℚ) ≤ 59 := by exact_mod_cast Int.lt_add_one_iff.mp h4
  have c5 : (0 : ℚ) ≤ (se : ℚ) := by exact_mod_cast h5
  have c6 : (se : ℚ) ≤ 59 := by exact_mod_cast Int.lt_add_one_iff.mp h6
  rw [he]
  constructor <;> linarith

lemma moonT1_bounds (Mo Dd hh mi se : ℤ) (X : ℝ)
    (hb1 : 0 ≤ hh) (hb2 : hh < 24) (hb3 : 0 ≤ mi) (hb4 : mi < 60)
    (hb5 : 0 ≤ se) (hb6 : se < 60) (hmo1 : 0 ≤ Mo) (hmo2 : Mo ≤ 2)
    (hdfc1 : 10958 ≤ daysFromCivil 2000 (Mo + 1) Dd)
    (hdfc2 : daysFromCivil 2000 (Mo + 1) Dd ≤ 11300)
    (hX : X = if ((jsNum (DeltaT ⟨2000, Mo, Dd, hh, mi, se⟩) : ℚ) : ℝ) > 0 then
        ((dtToDays ⟨2000, Mo, Dd, hh, mi, se⟩ : ℚ) : ℝ) -
          |((jsNum (DeltaT ⟨2000, Mo, Dd, hh, mi, se⟩) : ℚ) : ℝ)| / 86400
      else
        ((dtToDays ⟨2000, Mo, Dd, hh, mi, se⟩ : ℚ) : ℝ) +
          |((jsNum (DeltaT ⟨2000, Mo, Dd, hh, mi, se⟩) : ℚ) : ℝ)| / 86400) :
    (10957 : ℝ) < X ∧ X < 11323 := by
  obtain ⟨hd1, hd2⟩ := jsNum_DeltaT_2000 Mo Dd hh mi se hmo1 hmo2
  obtain ⟨hq1, hq2⟩ := dtToDays_bounds 2000 Mo Dd hh mi se hb1 hb2 hb3 hb4 hb5 hb6
  have hx1 : (0 : ℝ) < ((jsNum (DeltaT ⟨2000, Mo, Dd, hh, mi, se⟩) : ℚ) : ℝ) := by
    exact_mod_cast hd1
  have hx2 : ((jsNum (DeltaT ⟨2000, Mo, Dd, hh, mi, se⟩) : ℚ) : ℝ) < 64 := by
    exact_mod_cast hd2
  have hc1 : ((daysFromCivil 2000 (Mo + 1) Dd : ℤ) : ℝ) ≤
      ((dtToDays ⟨2000, Mo, Dd, hh, mi, se⟩ : ℚ) : ℝ) := by exact_mod_cast hq1
  have hc2 : ((dtToDays ⟨2000, Mo, Dd, hh, mi, se⟩ : ℚ) : ℝ) <
      ((daysFromCivil 2000 (Mo + 1) Dd : ℤ) : ℝ) + 1 := by exact_mod_cast hq2
  have hf1 : (10958 : ℝ) ≤ ((daysFromCivil 2000 (Mo + 1) Dd : ℤ) : ℝ) := by
    exact_mod_cast hdfc1
  have hf2 : ((daysFromCivil 2000 (Mo + 1) Dd : ℤ) : ℝ) ≤ 11300 := by exact_mod_cast hdfc2
  rw [hX, if_pos hx1, abs_of_pos hx1]
  constructor <;> linarith

lemma decode_z2451549 (JD0 : ℝ) (h1 : (2451548.5 : ℝ) ≤ JD0) (h2 : JD0 < (2451549.5 : ℝ)) :
    ∃ hh mi se : ℤ, JDToDatetime JD0 = ⟨2000, 0, 5, hh, mi, se⟩ ∧
      0 ≤ hh ∧ hh < 24 ∧ 0 ≤ mi ∧ mi < 60 ∧ 0 ≤ se ∧ se < 60 := by
  obtain ⟨hh, mi, se, heq, hb1, hb2, hb3, hb4, hb5, hb6⟩ :=
    JDToDatetime_decode JD0 2451549 15 3 6715 2452653 14 428
      (by push_cast; linarith) (by push_cast; linarith) (by norm_num)
      (by push_cast; norm_num) (by push_cast; norm_num)
      (by push_cast; norm_num) (by push_cast; norm_num)
      (by push_cast; norm_num) (by push_cast; norm_num)
      (by push_cast; norm_num) (by push_cast; norm_num)
      (by push_cast; norm_num) (by push_cast; norm_num)
      (by push_cast; norm_num) (by push_cast; norm_num)
  refine ⟨hh, mi, se, ?_, hb1, hb2, hb3, hb4, hb5, hb6⟩
  rw [heq]
  norm_num

lemma decode_z2451550 (JD0 : ℝ) (h1 : (2451549.5 : ℝ) ≤ JD0) (h2 : JD0 < (2451550.5 : ℝ)) :
    ∃ hh mi se : ℤ, JDToDatetime JD0 = ⟨2000, 0, 6, hh, mi, se⟩ ∧
      0 ≤ hh ∧ hh < 24 ∧ 0 ≤ mi ∧ mi < 60 ∧ 0 ≤ se ∧ se < 60 := by
  obtain ⟨hh, mi, se, heq, hb1, hb2, hb3, hb4, hb5, hb6⟩ :=
    JDToDatetime_decode JD0 2451550 15 3 6715 2452653 14 428
      (by push_cast; linarith) (by push_cast; linarith) (by norm_num)
      (by push_cast; norm_num) (by push_cast; norm_num)
      (by push_cast; norm_num) (by push_cast; norm_num)
      (by push_cast; norm_num) (by push_cast; norm_num)
      (by push_cast; norm_num) (by push_cast; norm_num)
      (by push_cast; norm_num) (by push_cast; norm_num)
      (by push_cast; norm_num) (by push_cast; norm_num)
  refine ⟨hh, mi, se, ?_, hb1, hb2, hb3, hb4, hb5, hb6⟩
  rw [heq]
  norm_num

lemma decode_z2451551 (JD0 : ℝ) (h1 : (2451550.5 : ℝ) ≤ JD0) (h2 : JD0 < (2451551.5 : ℝ)) :
    ∃ hh mi se : ℤ, JDToDatetime JD0 = ⟨2000, 0, 7, hh, mi, se⟩ ∧
      0 ≤ hh ∧ hh < 24 ∧ 0 ≤ mi ∧ mi < 60 ∧ 0 ≤ se ∧ se < 60 := by
  obtain ⟨hh, mi, se, heq, hb1, hb2, hb3, hb4, hb5, hb6⟩ :=
    JDToDatetime_decode JD0 2451551 15 3 6715 2452653 14 428
      (by push_cast; linarith) (by push_cast; linarith) (by norm_num)
      (by push_cast; norm_num) (by push_cast; norm_num)
      (by push_cast; norm_num) (by push_cast; norm_num)
      (by push_cast; norm_num) (by push_cast; norm_num)
      (by push_cast; norm_num) (by push_cast; norm_num)
      (by push_cast; norm_num) (by push_cast; norm_num)
      (by push_cast; norm_num) (by push_cast; norm_num)
  refine ⟨hh, mi, se, ?_, hb1, hb2, hb3, hb4, hb5, hb6⟩
  rw [heq]
  norm_num

lemma decode_z2451579 (JD0 : ℝ) (h1 : (2451578.5 : ℝ) ≤ JD0) (h2 : JD0 < (2451579.5 : ℝ)) :
    ∃ hh mi se : ℤ, JDToDatetime JD0 = ⟨2000, 1, 4, hh, mi, se⟩ ∧
      0 ≤ hh ∧ hh < 24 ∧ 0 ≤ mi ∧ mi < 60 ∧ 0 ≤ se ∧ se < 60 := by
  obtain ⟨hh, mi, se, heq, hb1, hb2, hb3, hb4, hb5, hb6⟩ :=
    JDToDatetime_decode JD0 2451579 15 3 6715 2452653 15 459
      (by push_cast; linarith) (by push_cast; linarith) (by norm_num)
      (by push_cast; norm_num) (by push_cast; norm_num)
      (by push_cast; norm_num) (by push_cast; norm_num)
      (by push_cast; norm_num) (by push_cast; norm_num)
      (by push_cast; norm_num) (by push_cast; norm_num)
      (by push_cast; norm_num) (by push_cast; norm_num)
      (by push_cast; norm_num) (by push_cast; norm_num)
  refine ⟨hh, mi, se, ?_, hb1, hb2, hb3, hb4, hb5, hb6⟩
  rw [heq]
  norm_num

lemma decode_z2451580 (JD0 : ℝ) (h1 : (2451579.5 : ℝ) ≤ JD0) (h2 : JD0 < (2451580.5 : ℝ)) :
    ∃ hh mi se : ℤ, JDToDatetime JD0 = ⟨2000, 1, 5, hh, mi, se⟩ ∧
      0 ≤ hh ∧ hh < 24 ∧ 0 ≤ mi ∧ mi < 60 ∧ 0 ≤ se ∧ se < 60 := by
  obtain ⟨hh, mi, se, heq, hb1, hb2, hb3, hb4, hb5, hb6⟩ :=
    JDToDatetime_decode JD0 2451580 15 3 6715 2452653 15 459
      (by push_cast; linarith) (by push_cast; linarith) (by norm_num)
      (by push_cast; norm_num) (by push_cast; norm_num)
      (by push_cast; norm_num) (by push_cast; norm_num)
      (by push_cast; norm_num) (by push_cast; norm_num)
      (by push_cast; norm_num) (by push_cast; norm_num)
      (by push_cast; norm_num) (by push_cast; norm_num)
      (by push_cast; norm_num) (by push_cast; norm_num)
  refine ⟨hh, mi, se, ?_, hb1, hb2, hb3, hb4, hb5, hb6⟩
  rw [heq]
  norm_num

lemma decode_z2451609 (JD0 : ℝ) (h1 : (2451608.5 : ℝ) ≤ JD0) (h2 : JD0 < (2451609.5 : ℝ)) :
    ∃ hh mi se : ℤ, JDToDatetime JD0 = ⟨2000, 2, 5, hh, mi, se⟩ ∧
      0 ≤ hh ∧ hh < 24 ∧ 0 ≤ mi ∧ mi < 60 ∧ 0 ≤ se ∧ se < 60 := by
  obtain ⟨hh, mi, se, heq, hb1, hb2, hb3, hb4, hb5, hb6⟩ :=
    JDToDatetime_decode JD0 2451609 16 4 6716 2453019 4 122
      (by push_cast; linarith) (by push_cast; linarith) (by norm_num)
      (by push_cast; norm_num) (by push_cast; norm_num)
      (by push_cast; norm_num) (by push_cast; norm_num)
      (by push_cast; norm_num) (by push_cast; norm_num)
      (by push_cast; norm_num) (by push_cast; norm_num)
      (by push_cast; norm_num) (by push_cast; norm_num)
      (by push_cast; norm_num) (by push_cast; norm_num)
  refine ⟨hh, mi, se, ?_, hb1, hb2, hb3, hb4, hb5, hb6⟩
  rw [heq]
  norm_num

lemma decode_z2451610 (JD0 : ℝ) (h1 : (2451609.5 : ℝ) ≤ JD0) (h2 : JD0 < (2451610.5 : ℝ)) :
    ∃ hh mi se : ℤ, JDToDatetime JD0 = ⟨2000, 2, 6, hh, mi, se⟩ ∧
      0 ≤ hh ∧ hh < 24 ∧ 0 ≤ mi ∧ mi < 60 ∧ 0 ≤ se ∧ se < 60 := by
  obtain ⟨hh, mi, se, heq, hb1, hb2, hb3, hb4, hb5, hb6⟩ :=
    JDToDatetime_decode JD0 2451610 16 4 6716 2453019 4 122
      (by push_cast; linarith) (by push_cast; linarith) (by norm_num)
      (by push_cast; norm_num) (by push_cast; norm_num)
      (by push_cast; norm_num) (by push_cast; norm_num)
      (by push_cast; norm_num) (by push_cast; norm_num)
      (by push_cast; norm_num) (by push_cast; norm_num)
      (by push_cast; norm_num) (by push_cast; norm_num)
      (by push_cast; norm_num) (by push_cast; norm_num)
  refine ⟨hh, mi, se, ?_, hb1, hb2, hb3, hb4, hb5, hb6⟩
  rw [heq]
  norm_num


lemma moonCandidateTime_2000_eval (i : ℕ) :
    moonCandidateTime 2000 0 msmInitialState i =
      (if ((jsNum (DeltaT (JDToDatetime (truePhase (i : ℝ) 0))) : ℚ) : ℝ) > 0 then
        ((dtToDays (JDToDatetime (truePhase (i : ℝ) 0)) : ℚ) : ℝ) -
          |((jsNum (DeltaT (JDToDatetime (truePhase (i : ℝ) 0))) : ℚ) : ℝ)| / 86400
      else
        ((dtToDays (JDToDatetime (truePhase (i : ℝ) 0)) : ℚ) : ℝ) +
          |((jsNum (DeltaT (JDToDatetime (truePhase (i : ℝ) 0))) : ℚ) : ℝ)| / 86400) := by
  simp only [moonCandidateTime, floor_approxK_2000, msmInitialState]
  norm_num

set_option maxHeartbeats 800000 in
lemma moonCandidate0_inYear :
    ((dtToDays ⟨2000, 0, 1, 0, 0, 0⟩ : ℚ) : ℝ) < moonCandidateTime 2000 0 msmInitialState 0 ∧
      moonCandidateTime 2000 0 msmInitialState 0 <
        ((dtToDays ⟨2000 + 1, 0, 1, 0, 0, 0⟩ : ℚ) : ℝ) := by
  have e1 : (dtToDays ⟨2000, 0, 1, 0, 0, 0⟩ : ℚ) = 10957 := by
    norm_num [dtToDays, daysFromCivil]
  have e2 : (dtToDays ⟨2000 + 1, 0, 1, 0, 0, 0⟩ : ℚ) = 11323 := by
    norm_num [dtToDays, daysFromCivil]
  have e3 : ((10957 : ℚ) : ℝ) = 10957 := by norm_num
  have e4 : ((11323 : ℚ) : ℝ) = 11323 := by norm_num
  have e5 : ((0 : ℕ) : ℝ) = 0 := Nat.cast_zero
  rw [moonCandidateTime_2000_eval 0, e1, e2, e3, e4, e5]
  have hJ := cand0_JDE_bounds
  rcases lt_or_le (truePhase 0 0) 2451549.5 with hc | hc
  · obtain ⟨hh, mi, se, heq, hb1, hb2, hb3, hb4, hb5, hb6⟩ :=
      decode_z2451549 (truePhase 0 0) (by linarith [hJ.1]) hc
    rw [heq]
    exact moonT1_bounds 0 5 hh mi se _ hb1 hb2 hb3 hb4 hb5 hb6 (by norm_num) (by norm_num)
      (by decide) (by decide) rfl
  · rcases lt_or_le (truePhase 0 0) 2451550.5 with hc2 | hc2
    · obtain ⟨hh, mi, se, heq, hb1, hb2, hb3, hb4, hb5, hb6⟩ :=
        decode_z2451550 (truePhase 0 0) (by linarith) hc2
      rw [heq]
      exact moonT1_bounds 0 6 hh mi se _ hb1 hb2 hb3 hb4 hb5 hb6 (by norm_num) (by norm_num)
        (by decide) (by decide) rfl
    · obtain ⟨hh, mi, se, heq, hb1, hb2, hb3, hb4, hb5, hb6⟩ :=
        decode_z2451551 (truePhase 0 0) (by linarith) (by linarith [hJ.2])
      rw [heq]
      exact moonT1_bounds 0 7 hh mi se _ hb1 hb2 hb3 hb4 hb5 hb6 (by norm_num) (by norm_num)
        (by decide) (by decide) rfl

set_option maxHeartbeats 800000 in
lemma moonCandidate1_inYear :
    ((dtToDays ⟨2000, 0, 1, 0, 0, 0⟩ : ℚ) : ℝ) < moonCandidateTime 2000 0 msmInitialState 1 ∧
      moonCandidateTime 2000 0 msmInitialState 1 <
        ((dtToDays ⟨2000 + 1, 0, 1, 0, 0, 0⟩ : ℚ) : ℝ) := by
  have e1 : (dtToDays ⟨2000, 0, 1, 0, 0, 0⟩ : ℚ) = 10957 := by
    norm_num [dtToDays, daysFromCivil]
  have e2 : (dtToDays ⟨2000 + 1, 0, 1, 0, 0, 0⟩ : ℚ) = 11323 := by
    norm_num [dtToDays, daysFromCivil]
  have e3 : ((10957 : ℚ) : ℝ) = 10957 := by norm_num
  have e4 : ((11323 : ℚ) : ℝ) = 11323 := by norm_num
  have e5 : ((1 : ℕ) : ℝ) = 1 := Nat.cast_one
  rw [moonCandidateTime_2000_eval 1, e1, e2, e3, e4, e5]
  have hJ := cand1_JDE_bounds
  rcases lt_or_le (truePhase 1 0) 2451579.5 with hc | hc
  · obtain ⟨hh, mi, se, heq, hb1, hb2, hb3, hb4, hb5, hb6⟩ :=
      decode_z2451579 (truePhase 1 0) (by linarith [hJ.1]) hc
    rw [heq]
    exact moonT1_bounds 1 4 hh mi se _ hb1 hb2 hb3 hb4 hb5 hb6 (by norm_num) (by norm_num)
      (by decide) (by decide) rfl
  · obtain ⟨hh, mi, se, heq, hb1, hb2, hb3, hb4, hb5, hb6⟩ :=
      decode_z2451580 (truePhase 1 0) (by linarith) (by linarith [hJ.2])
    rw [heq]
    exact moonT1_bounds 1 5 hh mi se _ hb1 hb2 hb3 hb4 hb5 hb6 (by norm_num) (by norm_num)
      (by decide) (by decide) rfl

set_option maxHeartbeats 800000 in
lemma moonCandidate2_inYear :
    ((dtToDays ⟨2000, 0, 1, 0, 0, 0⟩ : ℚ) : ℝ) < moonCandidateTime 2000 0 msmInitialState 2 ∧
      moonCandidateTime 2000 0 msmInitialState 2 <
        ((dtToDays ⟨2000 + 1, 0, 1, 0, 0, 0⟩ : ℚ) : ℝ) := by
  have e1 : (dtToDays ⟨2000, 0, 1, 0, 0, 0⟩ : ℚ) = 10957 := by
    norm_num [dtToDays, daysFromCivil]
  have e2 : (dtToDays ⟨2000 + 1, 0, 1, 0, 0, 0⟩ : ℚ) = 11323 := by
    norm_num [dtToDays, daysFromCivil]
  have e3 : ((10957 : ℚ) : ℝ) = 10957 := by norm_num
  have e4 : ((11323 : ℚ) : ℝ) = 11323 := by norm_num
  have e5 : ((2 : ℕ) : ℝ) = 2 := by norm_num
  rw [moonCandidateTime_2000_eval 2, e1, e2, e3, e4, e5]
  have hJ := cand2_JDE_bounds
  rcases lt_or_le (truePhase 2 0) 2451609.5 with hc | hc
  · obtain ⟨hh, mi, se, heq, hb1, hb2, hb3, hb4, hb5, hb6⟩ :=
      decode_z2451609 (truePhase 2 0) (by linarith [hJ.1]) hc
    rw [heq]
    exact moonT1_bounds 2 5 hh mi se _ hb1 hb2 hb3 hb4 hb5 hb6 (by norm_num) (by norm_num)
      (by decide) (by decide) rfl
  · obtain ⟨hh, mi, se, heq, hb1, hb2, hb3, hb4, hb5, hb6⟩ :=
      decode_z2451610 (truePhase 2 0) (by linarith) (by linarith [hJ.2])
    rw [heq]
    exact moonT1_bounds 2 6 hh mi se _ hb1 hb2 hb3 hb4 hb5 hb6 (by norm_num) (by norm_num)
      (by decide) (by decide) rfl

/-- Claim C4 (counterexample): in the year 2000 the new-moon solver
retains more than two instants (the first three candidate lunations all
fall inside the year), refuting the claimed bound of at most 2 per year. -/
theorem yearMoonPhases_exceeds_two :
    2 < (yearMoonPhases 2000 0 msmInitialState).length := by
  have h0 := moonCandidate0_inYear
  have h1 := moonCandidate1_inYear
  have h2 := moonCandidate2_inYear
  simp only [yearMoonPhases, moonCandidateTimes]
  rw [show List.range 15 = [0, 1, 2, 3, 4, 5, 6, 7, 8, 9, 10, 11, 12, 13, 14] by decide]
  simp only [List.map_cons, List.filter_cons, decide_eq_true h0, decide_eq_true h1,
    decide_eq_true h2, if_true, List.length_cons]
  omega

/-!  Integer-level view of the Gregorian branch of `JDToDatetime`, used to
prove that the moon-phase candidate instants are chronologically ordered. -/

lemma floor_int_ratio (a b : ℤ) (hb : 0 < b) :
    Int.floor ((a : ℝ) / (b : ℝ)) = a / b := by
  have hbR : (0 : ℝ) < (b : ℝ) := by exact_mod_cast hb
  rw [Int.floor_eq_iff]
  constructor
  · rw [le_div_iff₀ hbR]
    exact_mod_cast Int.ediv_mul_le a hb.ne'
  · rw [div_lt_iff₀ hbR]
    exact_mod_cast Int.lt_ediv_add_one_mul_self a hb

/-- The `alpha` of the Gregorian branch of `JDToDatetime`, as an integer
division. -/
def mAlpha (Z : ℤ) : ℤ := (4 * Z - 7468865) / 146097

/-- The `A` of `JDToDatetime` (Gregorian branch). -/
def mA (Z : ℤ) : ℤ := Z + 1 + mAlpha Z - mAlpha Z / 4

/-- The `B` of `JDToDatetime`. -/
def mB (Z : ℤ) : ℤ := mA Z + 1524

/-- The `C` of `JDToDatetime`, as an integer division. -/
def mC (Z : ℤ) : ℤ := (20 * mB Z - 2442) / 7305

/-- The `D` of `JDToDatetime`, as an integer division. -/
def mD (Z : ℤ) : ℤ := 1461 * mC Z / 4

/-- The `E` of `JDToDatetime`, as an integer division. -/
def mEv (Z : ℤ) : ℤ := 10000 * (mB Z - mD Z) / 306001

/-- `floor(30.6001 * E)` of `JDToDatetime`, as an integer division. -/
def mMe (Z : ℤ) : ℤ := 306001 * mEv Z / 10000

/-- The decoded day of month of `JDToDatetime`. -/
def mDay (Z : ℤ) : ℤ := mB Z - mD Z - mMe Z

/-- The decoded one-indexed month of `JDToDatetime`. -/
def mMonth1 (Z : ℤ) : ℤ := if mEv Z > 13 then mEv Z - 1 - 12 else mEv Z - 1

/-- The decoded calendar year of `JDToDatetime`. -/
def mYear (Z : ℤ) : ℤ :=
  if mMonth1 Z > 2 then mC Z - 4715 - 1 else mC Z - 4715

/-- The deviation of `daysFromCivil` of the decoded fields from
`Z - 2440588` (it is in fact always zero on the Gregorian range, but only
its boundedness is needed). -/
def mEps (Z : ℤ) : ℤ :=
  3 + (mAlpha Z - mAlpha Z / 4) - ((mC Z - 4716) / 100 - (mC Z - 4716) / 400)

set_option maxHeartbeats 3200000 in
lemma decode_dfc_core (Z alpha A B C D E mE : ℤ)
    (halpha : alpha = (4 * Z - 7468865) / 146097)
    (hA : A = Z + 1 + alpha - alpha / 4)
    (hB : B = A + 1524)
    (hC : C = (20 * B - 2442) / 7305)
    (hD : D = 1461 * C / 4)
    (hE : E = 10000 * (B - D) / 306001)
    (hmE : mE = 306001 * E / 10000) :
    daysFromCivil (if (if E > 13 then E - 1 - 12 else E - 1) > 2 then C - 4715 - 1
        else C - 4715)
      (if E > 13 then E - 1 - 12 else E - 1) (B - D - mE) =
      Z - 2440588 +
        (3 + (alpha - alpha / 4) - ((C - 4716) / 100 - (C - 4716) / 400)) := by
  simp only [daysFromCivil]
  have hE4 : 4 ≤ E := by omega
  have hE15 : E ≤ 15 := by omega
  have hb1 : (C - 4716) / 4 = 100 * ((C - 4716) / 400) +
      (C - 4716 - (C - 4716) / 400 * 400) / 4 := by omega
  have hb2 : 1461 * C / 4 = 365 * C + (C - 4716) / 4 + 1179 := by omega
  have hb3 : (C - 4716 - (C - 4716) / 400 * 400) / 100 =
      (C - 4716) / 100 - 4 * ((C - 4716) / 400) := by omega
  have hyr : C - 4715 - 1 = C - 4716 := by ring
  interval_cases E <;> split_ifs <;> (try rw [hyr]) <;> omega

/-- `daysFromCivil` of the decoded Gregorian fields recovers the whole
Julian day up to the bounded deviation `mEps`. -/
lemma meeus_dfc (Z : ℤ) :
    daysFromCivil (mYear Z) (mMonth1 Z) (mDay Z) = Z - 2440588 + mEps Z := by
  have h := decode_dfc_core Z (mAlpha Z) (mA Z) (mB Z) (mC Z) (mD Z) (mEv Z) (mMe Z)
    rfl rfl rfl rfl rfl rfl rfl
  simpa only [mYear, mMonth1, mDay, mEps] using h

set_option maxHeartbeats 1600000 in
lemma mEps_pair_core (Z1 Z2 a1 a2 B1 B2 c1 c2 : ℤ)
    (h12 : Z1 + 27 ≤ Z2) (h13 : Z2 ≤ Z1 + 448)
    (ha1 : a1 = (4 * Z1 - 7468865) / 146097)
    (ha2 : a2 = (4 * Z2 - 7468865) / 146097)
    (hB1 : B1 = Z1 + 1 + a1 - a1 / 4 + 1524)
    (hB2 : B2 = Z2 + 1 + a2 - a2 / 4 + 1524)
    (hc1 : c1 = (20 * B1 - 2442) / 7305)
    (hc2 : c2 = (20 * B2 - 2442) / 7305) :
    3 + (a1 - a1 / 4) - ((c1 - 4716) / 100 - (c1 - 4716) / 400) - 1 ≤
      3 + (a2 - a2 / 4) - ((c2 - 4716) / 100 - (c2 - 4716) / 400) := by
  have hda : a1 ≤ a2 ∧ a2 ≤ a1 + 1 := by omega
  have hdq : a1 / 4 ≤ a2 / 4 ∧ a2 / 4 ≤ a1 / 4 + 1 ∧ a2 / 4 - a1 / 4 ≤ a2 - a1 := by omega
  have hdB : B1 + 27 ≤ B2 ∧ B2 ≤ B1 + 450 := by omega
  have hdc : c1 ≤ c2 ∧ c2 ≤ c1 + 2 := by omega
  have hcent : (c1 - 4716) / 100 ≤ (c2 - 4716) / 100 ∧
      (c2 - 4716) / 100 ≤ (c1 - 4716) / 100 + 1 := by omega
  have hcomp1 : (c1 - 4716) / 400 = (c1 - 4716) / 100 / 4 := by omega
  have hcomp2 : (c2 - 4716) / 400 = (c2 - 4716) / 100 / 4 := by omega
  have hq4 : (c1 - 4716) / 100 / 4 ≤ (c2 - 4716) / 100 / 4 ∧
      (c2 - 4716) / 100 / 4 - (c1 - 4716) / 100 / 4 ≤
        (c2 - 4716) / 100 - (c1 - 4716) / 100 := by omega
  omega

/-- Over a jump of 27 to 448 whole days the deviation `mEps` decreases by
at most one. -/
lemma mEps_pair (Z1 Z2 : ℤ) (h12 : Z1 + 27 ≤ Z2) (h13 : Z2 ≤ Z1 + 448) :
    mEps Z1 - 1 ≤ mEps Z2 :=
  mEps_pair_core Z1 Z2 (mAlpha Z1) (mAlpha Z2) (mB Z1) (mB Z2) (mC Z1) (mC Z2)
    h12 h13 rfl rfl rfl rfl rfl rfl

set_option maxHeartbeats 1600000 in
/-- Range of the decoded year and month index on the Gregorian era used by
the moon-phase solver. -/
lemma mYear_range (Z : ℤ) (h1 : 2299161 ≤ Z) (h2 : Z ≤ 3183000) :
    1581 ≤ mYear Z ∧ mYear Z ≤ 4005 ∧ 0 ≤ mMonth1 Z - 1 ∧ mMonth1 Z - 1 ≤ 11 := by
  simp only [mYear, mMonth1, mEv, mD, mC, mB, mA, mAlpha]
  split_ifs <;> refine ⟨by omega, by omega, by omega, by omega⟩

/-!  Chronological order of the moon-phase candidate instants on the
Gregorian era. -/

/-- Symbolic Gregorian-branch decode of `JDToDatetime`: at any real Julian
date whose whole Julian day `Z` is at least 2299161 the decoded fields are
the integer-division images `mYear`, `mMonth1`, `mDay` of `Z`. -/
lemma JDToDatetime_gregorian (JD0 : ℝ) (Z : ℤ)
    (hz1 : (Z : ℝ) ≤ JD0 + 0.5) (hz2 : JD0 + 0.5 < (Z : ℝ) + 1)
    (hzge : 2299161 ≤ Z) :
    ∃ hh mi se : ℤ,
      JDToDatetime JD0 = ⟨mYear Z, mMonth1 Z - 1, mDay Z, hh, mi, se⟩ ∧
      0 ≤ hh ∧ hh < 24 ∧ 0 ≤ mi ∧ mi < 60 ∧ 0 ≤ se ∧ se < 60 := by
  have hbcast : ((mB Z : ℤ) : ℝ) =
      (Z : ℝ) + 1 + ((mAlpha Z : ℤ) : ℝ) - ((mAlpha Z / 4 : ℤ) : ℝ) + 1524 := by
    simp only [mB, mA]
    push_cast
    ring
  have hfa : Int.floor (((Z : ℝ) - 1867216.25) / 36524.25) = mAlpha Z := by
    have h1 : ((Z : ℝ) - 1867216.25) / 36524.25 =
        ((4 * Z - 7468865 : ℤ) : ℝ) / ((146097 : ℤ) : ℝ) := by
      push_cast
      rw [div_eq_div_iff (by norm_num) (by norm_num)]
      ring
    rw [h1, floor_int_ratio _ _ (by norm_num)]
    rfl
  obtain ⟨ha1, ha2⟩ := Int.floor_eq_iff.mp hfa
  have hfq : Int.floor (((mAlpha Z : ℤ) : ℝ) / 4) = mAlpha Z / 4 := by
    have h1 : ((mAlpha Z : ℤ) : ℝ) / 4 = ((mAlpha Z : ℤ) : ℝ) / ((4 : ℤ) : ℝ) := by norm_num
    rw [h1, floor_int_ratio _ _ (by norm_num)]
  obtain ⟨hq1, hq2⟩ := Int.floor_eq_iff.mp hfq
  have hfC : Int.floor ((((mB Z : ℤ) : ℝ) - 122.1) / 365.25) = mC Z := by
    have h1 : (((mB Z : ℤ) : ℝ) - 122.1) / 365.25 =
        ((20 * mB Z - 2442 : ℤ) : ℝ) / ((7305 : ℤ) : ℝ) := by
      push_cast
      rw [div_eq_div_iff (by norm_num) (by norm_num)]
      ring
    rw [h1, floor_int_ratio _ _ (by norm_num)]
    rfl
  obtain ⟨hC1, hC2⟩ := Int.floor_eq_iff.mp hfC
  rw [hbcast] at hC1 hC2
  have hfD : Int.floor ((365.25 : ℝ) * ((mC Z : ℤ) : ℝ)) = mD Z := by
    have h1 : (365.25 : ℝ) * ((mC Z : ℤ) : ℝ) =
        ((1461 * mC Z : ℤ) : ℝ) / ((4 : ℤ) : ℝ) := by
      push_cast
      rw [eq_div_iff (by norm_num)]
      ring
    rw [h1, floor_int_ratio _ _ (by norm_num)]
    rfl
  obtain ⟨hD1, hD2⟩ := Int.floor_eq_iff.mp hfD
  have hfE : Int.floor ((((mB Z : ℤ) : ℝ) - ((mD Z : ℤ) : ℝ)) / 30.6001) = mEv Z := by
    have h1 : (((mB Z : ℤ) : ℝ) - ((mD Z : ℤ) : ℝ)) / 30.6001 =
        ((10000 * (mB Z - mD Z) : ℤ) : ℝ) / ((306001 : ℤ) : ℝ) := by
      push_cast
      rw [div_eq_div_iff (by norm_num) (by norm_num)]
      ring
    rw [h1, floor_int_ratio _ _ (by norm_num)]
    rfl
  obtain ⟨hE1, hE2⟩ := Int.floor_eq_iff.mp hfE
  rw [hbcast] at hE1 hE2
  have hfm : Int.floor ((30.6001 : ℝ) * ((mEv Z : ℤ) : ℝ)) = mMe Z := by
    have h1 : (30.6001 : ℝ) * ((mEv Z : ℤ) : ℝ) =
        ((306001 * mEv Z : ℤ) : ℝ) / ((10000 : ℤ) : ℝ) := by
      push_cast
      rw [eq_div_iff (by norm_num)]
      ring
    rw [h1, floor_int_ratio _ _ (by norm_num)]
    rfl
  obtain ⟨hm1, hm2⟩ := Int.floor_eq_iff.mp hfm
  obtain ⟨hh, mi, se, heq, hb1, hb2, hb3, hb4, hb5, hb6⟩ :=
    JDToDatetime_decode JD0 Z (mAlpha Z) (mAlpha Z / 4) (mC Z) (mD Z) (mEv Z) (mMe Z)
      hz1 hz2 hzge ha1 ha2 hq1 hq2 hC1 hC2 hD1 hD2 hE1 hE2 hm1 hm2
  refine ⟨hh, mi, se, ?_, hb1, hb2, hb3, hb4, hb5, hb6⟩
  rw [heq]
  rfl

lemma ecc_abs_le (T : ℝ) (hT : |T| ≤ 22) : |eccentricityCorrection T| ≤ 1.07 := by
  obtain ⟨h1, h2⟩ := abs_le.mp hT
  obtain ⟨m2a, m2b⟩ := abs_le.mp (abs_mul_le_of_bounds T T 22 22 hT hT)
  unfold eccentricityCorrection
  rw [abs_le]
  constructor <;> linarith

set_option maxHeartbeats 1600000 in
lemma abs_newMoonFullMoonCorrections_le (E M MPrime F Omega : ℝ) (phase : ℕ)
    (hE : |E| ≤ 1.07) :
    |newMoonFullMoonCorrections E M MPrime F Omega phase| ≤ 0.65 := by
  simp only [newMoonFullMoonCorrections]
  obtain ⟨p0a, p0b⟩ := abs_le.mp (abs_sind_le_one (MPrime - 2 * F))
  obtain ⟨p1a, p1b⟩ := abs_le.mp (abs_sind_le_one (MPrime + 2 * F))
  obtain ⟨p2a, p2b⟩ := abs_le.mp (abs_sind_le_one (3 * MPrime))
  obtain ⟨p3a, p3b⟩ := abs_le.mp (abs_sind_le_one (Omega))
  obtain ⟨p4a, p4b⟩ := abs_le.mp (abs_sind_le_one (MPrime + 2 * M))
  obtain ⟨p5a, p5b⟩ := abs_le.mp (abs_sind_le_one (2 * MPrime - 2 * F))
  obtain ⟨p6a, p6b⟩ := abs_le.mp (abs_sind_le_one (3 * M))
  obtain ⟨p7a, p7b⟩ := abs_le.mp (abs_sind_le_one (MPrime + M - 2 * F))
  obtain ⟨p8a, p8b⟩ := abs_le.mp (abs_sind_le_one (2 * MPrime + 2 * F))
  obtain ⟨p9a, p9b⟩ := abs_le.mp (abs_sind_le_one (MPrime + M + 2 * F))
  obtain ⟨p10a, p10b⟩ := abs_le.mp (abs_sind_le_one (MPrime - M + 2 * F))
  obtain ⟨p11a, p11b⟩ := abs_le.mp (abs_sind_le_one (MPrime - M - 2 * F))
  obtain ⟨p12a, p12b⟩ := abs_le.mp (abs_sind_le_one (3 * MPrime + M))
  obtain ⟨p13a, p13b⟩ := abs_le.mp (abs_sind_le_one (4 * MPrime))
  obtain ⟨p14a, p14b⟩ := abs_le.mp (abs_sind_le_one (MPrime))
  obtain ⟨p15a, p15b⟩ := abs_le.mp (abs_sind_le_one (2 * MPrime))
  obtain ⟨p16a, p16b⟩ := abs_le.mp (abs_sind_le_one (2 * F))
  obtain ⟨q0a, q0b⟩ := abs_le.mp (abs_mul_le_of_bounds E (sind (2 * MPrime + M)) 1.07 1 hE (abs_sind_le_one _))
  obtain ⟨q1a, q1b⟩ := abs_le.mp (abs_mul_le_of_bounds E (sind (M + 2 * F)) 1.07 1 hE (abs_sind_le_one _))
  obtain ⟨q2a, q2b⟩ := abs_le.mp (abs_mul_le_of_bounds E (sind (M - 2 * F)) 1.07 1 hE (abs_sind_le_one _))
  obtain ⟨q3a, q3b⟩ := abs_le.mp (abs_mul_le_of_bounds E (sind (2 * MPrime - M)) 1.07 1 hE (abs_sind_le_one _))
  obtain ⟨q4a, q4b⟩ := abs_le.mp (abs_mul_le_of_bounds E (sind (M)) 1.07 1 hE (abs_sind_le_one _))
  obtain ⟨q5a, q5b⟩ := abs_le.mp (abs_mul_le_of_bounds E (sind (MPrime - M)) 1.07 1 hE (abs_sind_le_one _))
  obtain ⟨q6a, q6b⟩ := abs_le.mp (abs_mul_le_of_bounds E (sind (MPrime + M)) 1.07 1 hE (abs_sind_le_one _))
  obtain ⟨r0a, r0b⟩ := abs_le.mp (abs_mul_le_of_bounds (E * E) (sind (2 * M)) (1.07 * 1.07) 1
    (abs_mul_le_of_bounds E E 1.07 1.07 hE hE) (abs_sind_le_one _))
  split_ifs <;> (rw [abs_le]; constructor <;> linarith)

set_option maxHeartbeats 1600000 in
lemma abs_quarterCorrections_le (E M MPrime F Omega : ℝ) (phase : ℕ)
    (hE : |E| ≤ 1.07) :
    |quarterCorrections E M MPrime F Omega phase| ≤ 0.86 := by
  simp only [quarterCorrections]
  obtain ⟨p0a, p0b⟩ := abs_le.mp (abs_sind_le_one (MPrime))
  obtain ⟨p1a, p1b⟩ := abs_le.mp (abs_sind_le_one (2 * MPrime))
  obtain ⟨p2a, p2b⟩ := abs_le.mp (abs_sind_le_one (2 * F))
  obtain ⟨p3a, p3b⟩ := abs_le.mp (abs_sind_le_one (MPrime - 2 * F))
  obtain ⟨p4a, p4b⟩ := abs_le.mp (abs_sind_le_one (MPrime + 2 * F))
  obtain ⟨p5a, p5b⟩ := abs_le.mp (abs_sind_le_one (3 * MPrime))
  obtain ⟨p6a, p6b⟩ := abs_le.mp (abs_sind_le_one (Omega))
  obtain ⟨p7a, p7b⟩ := abs_le.mp (abs_sind_le_one (MPrime - M - 2 * F))
  obtain ⟨p8a, p8b⟩ := abs_le.mp (abs_sind_le_one (2 * MPrime + 2 * F))
  obtain ⟨p9a, p9b⟩ := abs_le.mp (abs_sind_le_one (MPrime + M + 2 * F))
  obtain ⟨p10a, p10b⟩ := abs_le.mp (abs_sind_le_one (MPrime - 2 * M))
  obtain ⟨p11a, p11b⟩ := abs_le.mp (abs_sind_le_one (MPrime + M - 2 * F))
  obtain ⟨p12a, p12b⟩ := abs_le.mp (abs_sind_le_one (3 * M))
  obtain ⟨p13a, p13b⟩ := abs_le.mp (abs_sind_le_one (2 * MPrime - 2 * F))
  obtain ⟨p14a, p14b⟩ := abs_le.mp (abs_sind_le_one (MPrime - M + 2 * F))
  obtain ⟨p15a, p15b⟩ := abs_le.mp (abs_sind_le_one (3 * MPrime + M))
  obtain ⟨q0a, q0b⟩ := abs_le.mp (abs_mul_le_of_bounds E (sind M) 1.07 1 hE (abs_sind_le_one _))
  obtain ⟨q1a, q1b⟩ := abs_le.mp (abs_mul_le_of_bounds E (sind (MPrime + M)) 1.07 1 hE (abs_sind_le_one _))
  obtain ⟨q2a, q2b⟩ := abs_le.mp (abs_mul_le_of_bounds E (sind (MPrime - M)) 1.07 1 hE (abs_sind_le_one _))
  obtain ⟨q3a, q3b⟩ := abs_le.mp (abs_mul_le_of_bounds E (sind (2 * MPrime - M)) 1.07 1 hE (abs_sind_le_one _))
  obtain ⟨q4a, q4b⟩ := abs_le.mp (abs_mul_le_of_bounds E (sind (M + 2 * F)) 1.07 1 hE (abs_sind_le_one _))
  obtain ⟨q5a, q5b⟩ := abs_le.mp (abs_mul_le_of_bounds E (sind (M - 2 * F)) 1.07 1 hE (abs_sind_le_one _))
  obtain ⟨q6a, q6b⟩ := abs_le.mp (abs_mul_le_of_bounds E (sind (2 * MPrime + M)) 1.07 1 hE (abs_sind_le_one _))
  obtain ⟨r0a, r0b⟩ := abs_le.mp (abs_mul_le_of_bounds (E * E) (sind (2 * M)) (1.07 * 1.07) 1
    (abs_mul_le_of_bounds E E 1.07 1.07 hE hE) (abs_sind_le_one _))
  obtain ⟨r1a, r1b⟩ := abs_le.mp (abs_mul_le_of_bounds (E * E) (sind (MPrime + 2 * M)) (1.07 * 1.07) 1
    (abs_mul_le_of_bounds E E 1.07 1.07 hE hE) (abs_sind_le_one _))
  obtain ⟨w0a, w0b⟩ := abs_le.mp (abs_mul_le_of_bounds E (cosd M) 1.07 1 hE (abs_cosd_le_one _))
  obtain ⟨w1a, w1b⟩ := abs_le.mp (abs_cosd_le_one (MPrime))
  obtain ⟨w2a, w2b⟩ := abs_le.mp (abs_cosd_le_one (MPrime - M))
  obtain ⟨w3a, w3b⟩ := abs_le.mp (abs_cosd_le_one (MPrime + M))
  obtain ⟨w4a, w4b⟩ := abs_le.mp (abs_cosd_le_one (2 * F))
  split_ifs <;> (rw [abs_le]; constructor <;> linarith)

lemma meanPhase_dev (T k : ℝ) (hT : |T| ≤ 22) :
    |meanPhase T k - (2451550.09766 + 29.530588861 * k)| ≤ 0.08 := by
  obtain ⟨m2a, m2b⟩ := abs_le.mp (abs_mul_le_of_bounds T T 22 22 hT hT)
  obtain ⟨m3a, m3b⟩ := abs_le.mp (abs_mul_le_of_bounds (T * T) T (22 * 22) 22
    (abs_mul_le_of_bounds T T 22 22 hT hT) hT)
  obtain ⟨m4a, m4b⟩ := abs_le.mp (abs_mul_le_of_bounds (T * T * T) T (22 * 22 * 22) 22
    (abs_mul_le_of_bounds (T * T) T (22 * 22) 22 (abs_mul_le_of_bounds T T 22 22 hT hT) hT) hT)
  unfold meanPhase
  rw [abs_le]
  constructor <;> linarith

lemma abs_kToT_le (k : ℝ) (hk : |k| ≤ 26000) : |kToT k| ≤ 22 := by
  unfold kToT
  rw [abs_div, abs_of_pos (by norm_num : (0 : ℝ) < 1236.85),
    div_le_iff₀ (by norm_num : (0 : ℝ) < 1236.85)]
  linarith

lemma truePhase_dev (k0 : ℝ) (phase : ℕ)
    (hk : |k0 + (phase : ℝ) / 4| ≤ 26000) :
    |truePhase k0 phase - (2451550.09766 + 29.530588861 * (k0 + (phase : ℝ) / 4))| ≤ 0.95 := by
  simp only [truePhase]
  have hT := abs_kToT_le _ hk
  have hE := ecc_abs_le _ hT
  have hmp := abs_le.mp (meanPhase_dev (kToT (k0 + (phase : ℝ) / 4)) (k0 + (phase : ℝ) / 4) hT)
  have hnm := abs_le.mp (abs_newMoonFullMoonCorrections_le
    (eccentricityCorrection (kToT (k0 + (phase : ℝ) / 4)))
    (sunMeanAnomaly (kToT (k0 + (phase : ℝ) / 4)) (k0 + (phase : ℝ) / 4))
    (moonMeanAnomaly (kToT (k0 + (phase : ℝ) / 4)) (k0 + (phase : ℝ) / 4))
    (moonArgumentOfLatitude (kToT (k0 + (phase : ℝ) / 4)) (k0 + (phase : ℝ) / 4))
    (moonAscendingNodeLongitude (kToT (k0 + (phase : ℝ) / 4)) (k0 + (phase : ℝ) / 4))
    phase hE)
  have hqc := abs_le.mp (abs_quarterCorrections_le
    (eccentricityCorrection (kToT (k0 + (phase : ℝ) / 4)))
    (sunMeanAnomaly (kToT (k0 + (phase : ℝ) / 4)) (k0 + (phase : ℝ) / 4))
    (moonMeanAnomaly (kToT (k0 + (phase : ℝ) / 4)) (k0 + (phase : ℝ) / 4))
    (moonArgumentOfLatitude (kToT (k0 + (phase : ℝ) / 4)) (k0 + (phase : ℝ) / 4))
    (moonAscendingNodeLongitude (kToT (k0 + (phase : ℝ) / 4)) (k0 + (phase : ℝ) / 4))
    phase hE)
  have hcc := abs_le.mp (abs_commonCorrections_le
    (planetaryArguments (kToT (k0 + (phase : ℝ) / 4)) (k0 + (phase : ℝ) / 4)))
  split_ifs <;> (rw [abs_le]; constructor <;> linarith)

lemma moonK0_bounds (year : ℤ) (h1 : 1583 ≤ year) (h2 : year ≤ 4000) :
    -5158 ≤ Int.floor (approxK ⟨year, 0, 1, 0, 0, 0⟩) - 1 ∧
      Int.floor (approxK ⟨year, 0, 1, 0, 0, 0⟩) - 1 ≤ 24737 := by
  have he : approxK ⟨year, 0, 1, 0, 0, 0⟩ =
      ((year : ℚ) + ((0 : ℤ) + 1) / 12 + (1 : ℚ) / 365.25 - 2000) * 12.3685 := rfl
  have hy1 : (1583 : ℚ) ≤ (year : ℚ) := by exact_mod_cast h1
  have hy2 : (year : ℚ) ≤ 4000 := by exact_mod_cast h2
  constructor
  · have hlo : ((-5157 : ℤ) : ℚ) ≤ approxK ⟨year, 0, 1, 0, 0, 0⟩ := by
      rw [he]
      push_cast
      nlinarith
    have := Int.le_floor.mpr hlo
    omega
  · have hhi : approxK ⟨year, 0, 1, 0, 0, 0⟩ < ((24739 : ℤ) : ℚ) := by
      rw [he]
      push_cast
      nlinarith
    have hfl := Int.floor_lt.mpr hhi
    omega

noncomputable def moonK (year : ℤ) (i : ℕ) : ℝ :=
  ((Int.floor (approxK ⟨year, 0, 1, 0, 0, 0⟩) - 1 : ℤ) : ℝ) + (i : ℝ)

noncomputable def moonJDE (year : ℤ) (phase : ℕ) (i : ℕ) : ℝ :=
  truePhase (moonK year i) phase

noncomputable def moonZ (year : ℤ) (phase : ℕ) (i : ℕ) : ℤ :=
  Int.floor (moonJDE year phase i + 0.5)

lemma moonK_bounds (year : ℤ) (i : ℕ) (h1 : 1583 ≤ year) (h2 : year ≤ 4000)
    (hi : i ≤ 14) :
    (-5158 : ℝ) ≤ moonK year i ∧ moonK year i ≤ 24751 := by
  obtain ⟨hk1, hk2⟩ := moonK0_bounds year h1 h2
  have hc1 : ((-5158 : ℤ) : ℝ) ≤ ((Int.floor (approxK ⟨year, 0, 1, 0, 0, 0⟩) - 1 : ℤ) : ℝ) := by
    exact_mod_cast hk1
  have hc2 : ((Int.floor (approxK ⟨year, 0, 1, 0, 0, 0⟩) - 1 : ℤ) : ℝ) ≤ ((24737 : ℤ) : ℝ) := by
    exact_mod_cast hk2
  have hi0 : (0 : ℝ) ≤ (i : ℝ) := Nat.cast_nonneg i
  have hi14 : (i : ℝ) ≤ 14 := by exact_mod_cast hi
  unfold moonK
  push_cast at hc1 hc2 ⊢
  constructor <;> linarith

lemma moonJDE_dev (year : ℤ) (phase : ℕ) (i : ℕ) (h1 : 1583 ≤ year) (h2 : year ≤ 4000)
    (hp : phase ≤ 3) (hi : i ≤ 14) :
    |moonJDE year phase i -
        (2451550.09766 + 29.530588861 * (moonK year i + (phase : ℝ) / 4))| ≤ 0.95 := by
  obtain ⟨hm1, hm2⟩ := moonK_bounds year i h1 h2 hi
  have hp0 : (0 : ℝ) ≤ (phase : ℝ) := Nat.cast_nonneg phase
  have hp3 : (phase : ℝ) ≤ 3 := by exact_mod_cast hp
  have habs : |moonK year i + (phase : ℝ) / 4| ≤ 26000 := by
    rw [abs_le]
    constructor <;> linarith
  exact truePhase_dev (moonK year i) phase habs

lemma moonZ_bounds (year : ℤ) (phase : ℕ) (i : ℕ) (h1 : 1583 ≤ year) (h2 : year ≤ 4000)
    (hp : phase ≤ 3) (hi : i ≤ 14) :
    2299161 ≤ moonZ year phase i ∧ moonZ year phase i ≤ 3183000 := by
  obtain ⟨hd1, hd2⟩ := abs_le.mp (moonJDE_dev year phase i h1 h2 hp hi)
  obtain ⟨hm1, hm2⟩ := moonK_bounds year i h1 h2 hi
  have hp0 : (0 : ℝ) ≤ (phase : ℝ) := Nat.cast_nonneg phase
  have hp3 : (phase : ℝ) ≤ 3 := by exact_mod_cast hp
  constructor
  · have hlo : ((2299161 : ℤ) : ℝ) ≤ moonJDE year phase i + 0.5 := by
      push_cast
      nlinarith
    exact Int.le_floor.mpr hlo
  · have hhi : moonJDE year phase i + 0.5 < ((3183001 : ℤ) : ℝ) := by
      push_cast
      nlinarith
    have hfl := Int.floor_lt.mpr hhi
    have hz : moonZ year phase i = Int.floor (moonJDE year phase i + 0.5) := rfl
    omega

lemma moonZ_gap (year : ℤ) (phase : ℕ) (i j : ℕ) (h1 : 1583 ≤ year) (h2 : year ≤ 4000)
    (hp : phase ≤ 3) (hij : i < j) (hj : j ≤ 14) :
    moonZ year phase i + 27 ≤ moonZ year phase j ∧
      moonZ year phase j ≤ moonZ year phase i + 448 := by
  have hi : i ≤ 14 := le_trans (Nat.le_of_lt hij) hj
  obtain ⟨ha1, ha2⟩ := abs_le.mp (moonJDE_dev year phase i h1 h2 hp hi)
  obtain ⟨hb1, hb2⟩ := abs_le.mp (moonJDE_dev year phase j h1 h2 hp hj)
  have hkd : moonK year j = moonK year i + ((j : ℝ) - (i : ℝ)) := by
    unfold moonK
    ring
  have hji1 : (1 : ℝ) ≤ (j : ℝ) - (i : ℝ) := by
    have : (i : ℝ) + 1 ≤ (j : ℝ) := by exact_mod_cast hij
    linarith
  have hji2 : (j : ℝ) - (i : ℝ) ≤ 14 := by
    have h0 : (0 : ℝ) ≤ (i : ℝ) := Nat.cast_nonneg i
    have h14 : (j : ℝ) ≤ 14 := by exact_mod_cast hj
    linarith
  rw [hkd] at hb1 hb2
  have hfi1 : ((moonZ year phase i : ℤ) : ℝ) ≤ moonJDE year phase i + 0.5 := Int.floor_le _
  have hfi2 : moonJDE year phase i + 0.5 < ((moonZ year phase i : ℤ) : ℝ) + 1 :=
    Int.lt_floor_add_one _
  have hfj1 : ((moonZ year phase j : ℤ) : ℝ) ≤ moonJDE year phase j + 0.5 := Int.floor_le _
  have hfj2 : moonJDE year phase j + 0.5 < ((moonZ year phase j : ℤ) : ℝ) + 1 :=
    Int.lt_floor_add_one _
  constructor
  · have hr : (26 : ℝ) < ((moonZ year phase j - moonZ year phase i : ℤ) : ℝ) := by
      push_cast
      nlinarith
    have : (26 : ℤ) < moonZ year phase j - moonZ year phase i := by exact_mod_cast hr
    omega
  · have hr : ((moonZ year phase j - moonZ year phase i : ℤ) : ℝ) < 417 := by
      push_cast
      nlinarith
    have : moonZ year phase j - moonZ year phase i < (417 : ℤ) := by exact_mod_cast hr
    omega

lemma abs_mul_le_of_bounds_q (a b ca cb : ℚ) (ha : |a| ≤ ca) (hb : |b| ≤ cb) :
    |a * b| ≤ ca * cb := by
  rw [abs_mul]
  exact mul_le_mul ha hb (abs_nonneg _) ((abs_nonneg a).trans ha)

lemma jsNum_some (v : ℚ) : jsNum (some v) = v := rfl

set_option maxHeartbeats 3200000 in
lemma abs_jsNum_DeltaTOfY_le (y : ℚ) (h1 : 1581 ≤ y) (h2 : y ≤ 4006) :
    |jsNum (DeltaTOfY y)| ≤ 86400 := by
  unfold DeltaTOfY
  rw [if_neg (not_lt.mpr (by linarith)), if_neg (not_lt.mpr (by linarith)),
    if_neg (not_lt.mpr (by linarith))]
  rcases lt_or_le y 1600 with hc | hc1
  · rw [if_pos hc, jsNum_some]
    have hu : |(y - 1000) / 100| ≤ 6 := abs_le.mpr ⟨by linarith, by linarith⟩
    have hm2 := abs_mul_le_of_bounds_q _ _ _ _ hu hu
    have hm3 := abs_mul_le_of_bounds_q _ _ _ _ hm2 hu
    have hm4 := abs_mul_le_of_bounds_q _ _ _ _ hm3 hu
    have hm5 := abs_mul_le_of_bounds_q _ _ _ _ hm4 hu
    have hm6 := abs_mul_le_of_bounds_q _ _ _ _ hm5 hu
    obtain ⟨m2a, m2b⟩ := abs_le.mp hm2
    obtain ⟨m3a, m3b⟩ := abs_le.mp hm3
    obtain ⟨m4a, m4b⟩ := abs_le.mp hm4
    obtain ⟨m5a, m5b⟩ := abs_le.mp hm5
    obtain ⟨m6a, m6b⟩ := abs_le.mp hm6
    obtain ⟨m1a, m1b⟩ := abs_le.mp hu
    rw [abs_le]
    constructor <;> linarith
  rcases lt_or_le y 1700 with hc | hc2
  · rw [if_neg (not_lt.mpr hc1), if_pos hc, jsNum_some]
    have hu : |y - 1600| ≤ 100 := abs_le.mpr ⟨by linarith, by linarith⟩
    have hm2 := abs_mul_le_of_bounds_q _ _ _ _ hu hu
    have hm3 := abs_mul_le_of_bounds_q _ _ _ _ hm2 hu
    obtain ⟨m2a, m2b⟩ := abs_le.mp hm2
    obtain ⟨m3a, m3b⟩ := abs_le.mp hm3
    obtain ⟨m1a, m1b⟩ := abs_le.mp hu
    rw [abs_le]
    constructor <;> linarith
  rcases lt_or_le y 1800 with hc | hc3
  · rw [if_neg (not_lt.mpr hc1), if_neg (not_lt.mpr hc2), if_pos hc, jsNum_some]
    have hu : |y - 1700| ≤ 100 := abs_le.mpr ⟨by linarith, by linarith⟩
    have hm2 := abs_mul_le_of_bounds_q _ _ _ _ hu hu
    have hm3 := abs_mul_le_of_bounds_q _ _ _ _ hm2 hu
    have hm4 := abs_mul_le_of_bounds_q _ _ _ _ hm3 hu
    obtain ⟨m2a, m2b⟩ := abs_le.mp hm2
    obtain ⟨m3a, m3b⟩ := abs_le.mp hm3
    obtain ⟨m4a, m4b⟩ := abs_le.mp hm4
    obtain ⟨m1a, m1b⟩ := abs_le.mp hu
    rw [abs_le]
    constructor <;> linarith
  rcases lt_or_le y 1860 with hc | hc4
  · rw [if_neg (not_lt.mpr hc1), if_neg (not_lt.mpr hc2), if_neg (not_lt.mpr hc3), if_pos hc, jsNum_some]
    have hu : |y - 1800| ≤ 60 := abs_le.mpr ⟨by linarith, by linarith⟩
    have hm2 := abs_mul_le_of_bounds_q _ _ _ _ hu hu
    have hm3 := abs_mul_le_of_bounds_q _ _ _ _ hm2 hu
    have hm4 := abs_mul_le_of_bounds_q _ _ _ _ hm3 hu
    have hm5 := abs_mul_le_of_bounds_q _ _ _ _ hm4 hu
    have hm6 := abs_mul_le_of_bounds_q _ _ _ _ hm5 hu
    have hm7 := abs_mul_le_of_bounds_q _ _ _ _ hm6 hu
    obtain ⟨m2a, m2b⟩ := abs_le.mp hm2
    obtain ⟨m3a, m3b⟩ := abs_le.mp hm3
    obtain ⟨m4a, m4b⟩ := abs_le.mp hm4
    obtain ⟨m5a, m5b⟩ := abs_le.mp hm5
    obtain ⟨m6a, m6b⟩ := abs_le.mp hm6
    obtain ⟨m7a, m7b⟩ := abs_le.mp hm7
    obtain ⟨m1a, m1b⟩ := abs_le.mp hu
    rw [abs_le]
    constructor <;> linarith
  rcases lt_or_le y 1900 with hc | hc5
  · rw [if_neg (not_lt.mpr hc1), if_neg (not_lt.mpr hc2), if_neg (not_lt.mpr hc3), if_neg (not_lt.mpr hc4), if_pos hc, jsNum_some]
    have hu : |y - 1860| ≤ 40 := abs_le.mpr ⟨by linarith, by linarith⟩
    have hm2 := abs_mul_le_of_bounds_q _ _ _ _ hu hu
    have hm3 := abs_mul_le_of_bounds_q _ _ _ _ hm2 hu
    have hm4 := abs_mul_le_of_bounds_q _ _ _ _ hm3 hu
    have hm5 := abs_mul_le_of_bounds_q _ _ _ _ hm4 hu
    obtain ⟨m2a, m2b⟩ := abs_le.mp hm2
    obtain ⟨m3a, m3b⟩ := abs_le.mp hm3
    obtain ⟨m4a, m4b⟩ := abs_le.mp hm4
    obtain ⟨m5a, m5b⟩ := abs_le.mp hm5
    obtain ⟨m1a, m1b⟩ := abs_le.mp hu
    rw [abs_le]
    constructor <;> linarith
  rcases lt_or_le y 1920 with hc | hc6
  · rw [if_neg (not_lt.mpr hc1), if_neg (not_lt.mpr hc2), if_neg (not_lt.mpr hc3), if_neg (not_lt.mpr hc4), if_neg (not_lt.mpr hc5), if_pos hc, jsNum_some]
    have hu : |y - 1900| ≤ 20 := abs_le.mpr ⟨by linarith, by linarith⟩
    have hm2 := abs_mul_le_of_bounds_q _ _ _ _ hu hu
    have hm3 := abs_mul_le_of_bounds_q _ _ _ _ hm2 hu
    have hm4 := abs_mul_le_of_bounds_q _ _ _ _ hm3 hu
    obtain ⟨m2a, m2b⟩ := abs_le.mp hm2
    obtain ⟨m3a, m3b⟩ := abs_le.mp hm3
    obtain ⟨m4a, m4b⟩ := abs_le.mp hm4
    obtain ⟨m1a, m1b⟩ := abs_le.mp hu
    rw [abs_le]
    constructor <;> linarith
  rcases lt_or_le y 1941 with hc | hc7
  · rw [if_neg (not_lt.mpr hc1), if_neg (not_lt.mpr hc2), if_neg (not_lt.mpr hc3), if_neg (not_lt.mpr hc4), if_neg (not_lt.mpr hc5), if_neg (not_lt.mpr hc6), if_pos hc, jsNum_some]
    have hu : |y - 1920| ≤ 21 := abs_le.mpr ⟨by linarith, by linarith⟩
    have hm2 := abs_mul_le_of_bounds_q _ _ _ _ hu hu
    have hm3 := abs_mul_le_of_bounds_q _ _ _ _ hm2 hu
    obtain ⟨m2a, m2b⟩ := abs_le.mp hm2
    obtain ⟨m3a, m3b⟩ := abs_le.mp hm3
    obtain ⟨m1a, m1b⟩ := abs_le.mp hu
    rw [abs_le]
    constructor <;> linarith
  rcases lt_or_le y 1961 with hc | hc8
  · rw [if_neg (not_lt.mpr hc1), if_neg (not_lt.mpr hc2), if_neg (not_lt.mpr hc3), if_neg (not_lt.mpr hc4), if_neg (not_lt.mpr hc5), if_neg (not_lt.mpr hc6), if_neg (not_lt.mpr hc7), if_pos hc, jsNum_some]
    have hu : |y - 1950| ≤ 11 := abs_le.mpr ⟨by linarith, by linarith⟩
    have hm2 := abs_mul_le_of_bounds_q _ _ _ _ hu hu
    have hm3 := abs_mul_le_of_bounds_q _ _ _ _ hm2 hu
    obtain ⟨m2a, m2b⟩ := abs_le.mp hm2
    obtain ⟨m3a, m3b⟩ := abs_le.mp hm3
    obtain ⟨m1a, m1b⟩ := abs_le.mp hu
    rw [abs_le]
    constructor <;> linarith
  rcases lt_or_le y 1986 with hc | hc9
  · rw [if_neg (not_lt.mpr hc1), if_neg (not_lt.mpr hc2), if_neg (not_lt.mpr hc3), if_neg (not_lt.mpr hc4), if_neg (not_lt.mpr hc5), if_neg (not_lt.mpr hc6), if_neg (not_lt.mpr hc7), if_neg (not_lt.mpr hc8), if_pos hc, jsNum_some]
    have hu : |y - 1975| ≤ 14 := abs_le.mpr ⟨by linarith, by linarith⟩
    have hm2 := abs_mul_le_of_bounds_q _ _ _ _ hu hu
    have hm3 := abs_mul_le_of_bounds_q _ _ _ _ hm2 hu
    obtain ⟨m2a, m2b⟩ := abs_le.mp hm2
    obtain ⟨m3a, m3b⟩ := abs_le.mp hm3
    obtain ⟨m1a, m1b⟩ := abs_le.mp hu
    rw [abs_le]
    constructor <;> linarith
  rcases lt_or_le y 2005 with hc | hc10
  · rw [if_neg (not_lt.mpr hc1), if_neg (not_lt.mpr hc2), if_neg (not_lt.mpr hc3), if_neg (not_lt.mpr hc4), if_neg (not_lt.mpr hc5), if_neg (not_lt.mpr hc6), if_neg (not_lt.mpr hc7), if_neg (not_lt.mpr hc8), if_neg (not_lt.mpr hc9), if_pos hc, jsNum_some]
    have hu : |y - 2000| ≤ 14 := abs_le.mpr ⟨by linarith, by linarith⟩
    have hm2 := abs_mul_le_of_bounds_q _ _ _ _ hu hu
    have hm3 := abs_mul_le_of_bounds_q _ _ _ _ hm2 hu
    have hm4 := abs_mul_le_of_bounds_q _ _ _ _ hm3 hu
    have hm5 := abs_mul_le_of_bounds_q _ _ _ _ hm4 hu
    obtain ⟨m2a, m2b⟩ := abs_le.mp hm2
    obtain ⟨m3a, m3b⟩ := abs_le.mp hm3
    obtain ⟨m4a, m4b⟩ := abs_le.mp hm4
    obtain ⟨m5a, m5b⟩ := abs_le.mp hm5
    obtain ⟨m1a, m1b⟩ := abs_le.mp hu
    rw [abs_le]
    constructor <;> linarith
  rcases lt_or_le y 2050 with hc | hc11
  · rw [if_neg (not_lt.mpr hc1), if_neg (not_lt.mpr hc2), if_neg (not_lt.mpr hc3), if_neg (not_lt.mpr hc4), if_neg (not_lt.mpr hc5), if_neg (not_lt.mpr hc6), if_neg (not_lt.mpr hc7), if_neg (not_lt.mpr hc8), if_neg (not_lt.mpr hc9), if_neg (not_lt.mpr hc10), if_pos hc, jsNum_some]
    have hu : |y - 2000| ≤ 50 := abs_le.mpr ⟨by linarith, by linarith⟩
    have hm2 := abs_mul_le_of_bounds_q _ _ _ _ hu hu
    obtain ⟨m2a, m2b⟩ := abs_le.mp hm2
    obtain ⟨m1a, m1b⟩ := abs_le.mp hu
    rw [abs_le]
    constructor <;> linarith
  rcases lt_or_le y 2150 with hc | hc12
  · rw [if_neg (not_lt.mpr hc1), if_neg (not_lt.mpr hc2), if_neg (not_lt.mpr hc3), if_neg (not_lt.mpr hc4), if_neg (not_lt.mpr hc5), if_neg (not_lt.mpr hc6), if_neg (not_lt.mpr hc7), if_neg (not_lt.mpr hc8), if_neg (not_lt.mpr hc9), if_neg (not_lt.mpr hc10), if_neg (not_lt.mpr hc11), if_pos hc, jsNum_some]
    have hu : |(y - 1820) / 100| ≤ 4 := abs_le.mpr ⟨by linarith, by linarith⟩
    have hm2 := abs_mul_le_of_bounds_q _ _ _ _ hu hu
    obtain ⟨m2a, m2b⟩ := abs_le.mp hm2
    obtain ⟨m1a, m1b⟩ := abs_le.mp hu
    rw [abs_le]
    constructor <;> linarith
  rw [if_neg (not_lt.mpr hc1), if_neg (not_lt.mpr hc2), if_neg (not_lt.mpr hc3), if_neg (not_lt.mpr hc4), if_neg (not_lt.mpr hc5), if_neg (not_lt.mpr hc6), if_neg (not_lt.mpr hc7), if_neg (not_lt.mpr hc8), if_neg (not_lt.mpr hc9), if_neg (not_lt.mpr hc10), if_neg (not_lt.mpr hc11), if_neg (not_lt.mpr hc12), jsNum_some]
  have hu : |(y - 1820) / 100| ≤ 22 := abs_le.mpr ⟨by linarith, by linarith⟩
  have hm2 := abs_mul_le_of_bounds_q _ _ _ _ hu hu
  obtain ⟨m2a, m2b⟩ := abs_le.mp hm2
  obtain ⟨m1a, m1b⟩ := abs_le.mp hu
  rw [abs_le]
  constructor <;> linarith

lemma setSecondZeroDays_dev (t : ℝ) :
    t - 60 / 86400 < setSecondZeroDays t ∧ setSecondZeroDays t ≤ t := by
  unfold setSecondZeroDays
  have h1 : (0 : ℤ) ≤ Int.floor (t * 86400) % 60 := Int.emod_nonneg _ (by norm_num)
  have h2 : Int.floor (t * 86400) % 60 < 60 := Int.emod_lt_of_pos _ (by norm_num)
  have h1R : (0 : ℝ) ≤ ((Int.floor (t * 86400) % 60 : ℤ) : ℝ) := by exact_mod_cast h1
  have h2R : ((Int.floor (t * 86400) % 60 : ℤ) : ℝ) < 60 := by exact_mod_cast h2
  constructor <;> linarith

set_option maxHeartbeats 1600000 in
lemma moonCandidateTime_near (year : ℤ) (phase : ℕ) (s : MSMState) (i : ℕ)
    (h1 : 1583 ≤ year) (h2 : year ≤ 4000) (hp : phase ≤ 3) (hi : i ≤ 14) :
    ((moonZ year phase i : ℤ) : ℝ) - 2440589.1 +
        ((mEps (moonZ year phase i) : ℤ) : ℝ) ≤ moonCandidateTime year phase s i ∧
      moonCandidateTime year phase s i <
        ((moonZ year phase i : ℤ) : ℝ) - 2440585.9 + ((mEps (moonZ year phase i) : ℤ) : ℝ) := by
  obtain ⟨hz1, hz2⟩ := moonZ_bounds year phase i h1 h2 hp hi
  have hf1 : ((moonZ year phase i : ℤ) : ℝ) ≤ moonJDE year phase i + 0.5 := Int.floor_le _
  have hf2 : moonJDE year phase i + 0.5 < ((moonZ year phase i : ℤ) : ℝ) + 1 :=
    Int.lt_floor_add_one _
  obtain ⟨hh, mi, se, heq, hb1, hb2, hb3, hb4, hb5, hb6⟩ :=
    JDToDatetime_gregorian (moonJDE year phase i) (moonZ year phase i) hf1 hf2 hz1
  obtain ⟨hy1, hy2, hmo1, hmo2⟩ := mYear_range (moonZ year phase i) hz1 hz2
  have hmc : moonCandidateTime year phase s i =
      (if s.roundToNearestMinute then
        setSecondZeroDays
          ((if ((jsNum (DeltaT (JDToDatetime (moonJDE year phase i))) : ℚ) : ℝ) > 0 then
              ((dtToDays (JDToDatetime (moonJDE year phase i)) : ℚ) : ℝ) -
                |((jsNum (DeltaT (JDToDatetime (moonJDE year phase i))) : ℚ) : ℝ)| / 86400
            else
              ((dtToDays (JDToDatetime (moonJDE year phase i)) : ℚ) : ℝ) +
                |((jsNum (DeltaT (JDToDatetime (moonJDE year phase i))) : ℚ) : ℝ)| / 86400) +
            30 / 86400)
      else
        (if ((jsNum (DeltaT (JDToDatetime (moonJDE year phase i))) : ℚ) : ℝ) > 0 then
          ((dtToDays (JDToDatetime (moonJDE year phase i)) : ℚ) : ℝ) -
            |((jsNum (DeltaT (JDToDatetime (moonJDE year phase i))) : ℚ) : ℝ)| / 86400
        else
          ((dtToDays (JDToDatetime (moonJDE year phase i)) : ℚ) : ℝ) +
            |((jsNum (DeltaT (JDToDatetime (moonJDE year phase i))) : ℚ) : ℝ)| / 86400)) := rfl
  rw [hmc, heq]
  obtain ⟨hq1, hq2⟩ := dtToDays_bounds (mYear (moonZ year phase i))
    (mMonth1 (moonZ year phase i) - 1) (mDay (moonZ year phase i)) hh mi se
    hb1 hb2 hb3 hb4 hb5 hb6
  have hmm : mMonth1 (moonZ year phase i) - 1 + 1 = mMonth1 (moonZ year phase i) := by ring
  rw [hmm, meeus_dfc] at hq1 hq2
  have hq1R : ((moonZ year phase i - 2440588 + mEps (moonZ year phase i) : ℤ) : ℝ) ≤
      ((dtToDays ⟨mYear (moonZ year phase i), mMonth1 (moonZ year phase i) - 1,
        mDay (moonZ year phase i), hh, mi, se⟩ : ℚ) : ℝ) := by
    exact_mod_cast hq1
  have hq2R : ((dtToDays ⟨mYear (moonZ year phase i), mMonth1 (moonZ year phase i) - 1,
      mDay (moonZ year phase i), hh, mi, se⟩ : ℚ) : ℝ) <
      ((moonZ year phase i - 2440588 + mEps (moonZ year phase i) : ℤ) : ℝ) + 1 := by
    exact_mod_cast hq2
  have hdt : DeltaT ⟨mYear (moonZ year phase i), mMonth1 (moonZ year phase i) - 1,
      mDay (moonZ year phase i), hh, mi, se⟩ =
      DeltaTOfY (((mYear (moonZ year phase i) : ℤ) : ℚ) +
        (((mMonth1 (moonZ year phase i) - 1 : ℤ) : ℚ) + 0.5) / 12) := rfl
  have hyq1 : (1581 : ℚ) ≤ ((mYear (moonZ year phase i) : ℤ) : ℚ) +
      (((mMonth1 (moonZ year phase i) - 1 : ℤ) : ℚ) + 0.5) / 12 := by
    have c1 : (1581 : ℚ) ≤ ((mYear (moonZ year phase i) : ℤ) : ℚ) := by exact_mod_cast hy1
    have c2 : (0 : ℚ) ≤ ((mMonth1 (moonZ year phase i) - 1 : ℤ) : ℚ) := by exact_mod_cast hmo1
    linarith
  have hyq2 : ((mYear (moonZ year phase i) : ℤ) : ℚ) +
      (((mMonth1 (moonZ year phase i) - 1 : ℤ) : ℚ) + 0.5) / 12 ≤ 4006 := by
    have c1 : ((mYear (moonZ year phase i) : ℤ) : ℚ) ≤ 4005 := by exact_mod_cast hy2
    have c2 : ((mMonth1 (moonZ year phase i) - 1 : ℤ) : ℚ) ≤ 11 := by exact_mod_cast hmo2
    linarith
  have habsq := abs_jsNum_DeltaTOfY_le _ hyq1 hyq2
  have habs : |((jsNum (DeltaT ⟨mYear (moonZ year phase i), mMonth1 (moonZ year phase i) - 1,
      mDay (moonZ year phase i), hh, mi, se⟩) : ℚ) : ℝ)| ≤ 86400 := by
    rw [hdt]
    exact_mod_cast habsq
  obtain ⟨hdl, hdu⟩ := abs_le.mp habs
  have habs0 : (0 : ℝ) ≤ |((jsNum (DeltaT ⟨mYear (moonZ year phase i),
      mMonth1 (moonZ year phase i) - 1, mDay (moonZ year phase i), hh, mi, se⟩) : ℚ) : ℝ)| :=
    abs_nonneg _
  have habs1 : |((jsNum (DeltaT ⟨mYear (moonZ year phase i),
      mMonth1 (moonZ year phase i) - 1, mDay (moonZ year phase i), hh, mi, se⟩) : ℚ) : ℝ)| ≤
      86400 := habs
  have hsd1 := setSecondZeroDays_dev
    (((dtToDays ⟨mYear (moonZ year phase i), mMonth1 (moonZ year phase i) - 1,
        mDay (moonZ year phase i), hh, mi, se⟩ : ℚ) : ℝ) -
      |((jsNum (DeltaT ⟨mYear (moonZ year phase i), mMonth1 (moonZ year phase i) - 1,
        mDay (moonZ year phase i), hh, mi, se⟩) : ℚ) : ℝ)| / 86400 + 30 / 86400)
  have hsd2 := setSecondZeroDays_dev
    (((dtToDays ⟨mYear (moonZ year phase i), mMonth1 (moonZ year phase i) - 1,
        mDay (moonZ year phase i), hh, mi, se⟩ : ℚ) : ℝ) +
      |((jsNum (DeltaT ⟨mYear (moonZ year phase i), mMonth1 (moonZ year phase i) - 1,
        mDay (moonZ year phase i), hh, mi, se⟩) : ℚ) : ℝ)| / 86400 + 30 / 86400)
  push_cast at hq1R hq2R
  split_ifs <;> constructor <;> push_cast <;> linarith [hsd1.1, hsd1.2, hsd2.1, hsd2.2]

lemma moonCandidateTime_lt (year : ℤ) (phase : ℕ) (s : MSMState) (i j : ℕ)
    (h1 : 1583 ≤ year) (h2 : year ≤ 4000) (hp : phase ≤ 3) (hij : i < j) (hj : j ≤ 14) :
    moonCandidateTime year phase s i < moonCandidateTime year phase s j := by
  have hi : i ≤ 14 := le_trans (Nat.le_of_lt hij) hj
  obtain ⟨ha1, ha2⟩ := moonCandidateTime_near year phase s i h1 h2 hp hi
  obtain ⟨hb1, hb2⟩ := moonCandidateTime_near year phase s j h1 h2 hp hj
  obtain ⟨hg1, hg2⟩ := moonZ_gap year phase i j h1 h2 hp hij hj
  have hme := mEps_pair (moonZ year phase i) (moonZ year phase j) (by omega) (by omega)
  have hg1R : ((moonZ year phase i : ℤ) : ℝ) + 27 ≤ ((moonZ year phase j : ℤ) : ℝ) := by
    exact_mod_cast hg1
  have hmeR : ((mEps (moonZ year phase i) : ℤ) : ℝ) - 1 ≤
      ((mEps (moonZ year phase j) : ℤ) : ℝ) := by exact_mod_cast hme
  linarith

lemma moonCandidateTimes_pairwise (year : ℤ) (phase : ℕ) (s : MSMState)
    (h1 : 1583 ≤ year) (h2 : year ≤ 4000) (hp : phase ≤ 3) :
    (moonCandidateTimes year phase s).Pairwise (· < ·) := by
  unfold moonCandidateTimes
  rw [List.pairwise_map]
  refine List.Pairwise.imp_of_mem ?_ (List.pairwise_lt_range 15)
  intro a b ha hb hab
  exact moonCandidateTime_lt year phase s a b h1 h2 hp hab
    (by have := List.mem_range.mp hb; omega)

/-- Claim C4 (amended): `yearMoonPhases` returns only instants strictly
between the start of the year and the start of the next year, returns
them in chronological order (proven here for the Gregorian-era years 1583
to 4000 and the four phase kinds 0 to 3), and returns at most 15 instants
per year for the given phase (typically 12 or 13, refuting the claimed
bound of at most 2). -/
theorem yearMoonPhases_inside_year_ordered (year : ℤ) (phase : ℕ) (s : MSMState) :
    (∀ t ∈ yearMoonPhases year phase s,
      ((dtToDays ⟨year, 0, 1, 0, 0, 0⟩ : ℚ) : ℝ) < t ∧
        t < ((dtToDays ⟨year + 1, 0, 1, 0, 0, 0⟩ : ℚ) : ℝ)) ∧
    (1583 ≤ year → year ≤ 4000 → phase ≤ 3 →
      (yearMoonPhases year phase s).Pairwise (· < ·)) ∧
    (yearMoonPhases year phase s).length ≤ 15 := by
  refine ⟨?_, ?_, ?_⟩
  · intro t ht
    have hm := List.mem_filter.mp ht
    exact of_decide_eq_true hm.2
  · intro hy1 hy2 hps
    exact List.Pairwise.sublist (List.filter_sublist _)
      (moonCandidateTimes_pairwise year phase s hy1 hy2 hps)
  · calc (yearMoonPhases year phase s).length
        ≤ (moonCandidateTimes year phase s).length :=
          List.Sublist.length_le (List.filter_sublist _)
      _ = 15 := by simp [moonCandidateTimes]

/-- Witness for the amended C4 at year 2000, phase 0 (new moon): the first
candidate instant is retained, so the in-year bounds hold for it; the year
lies in the proven Gregorian range, so the retained instants are pairwise
increasing; and at most fifteen instants are returned. -/
theorem yearMoonPhases_inside_year_ordered_witness :
    ((dtToDays ⟨2000, 0, 1, 0, 0, 0⟩ : ℚ) : ℝ) < moonCandidateTime 2000 0 msmInitialState 0 ∧
      moonCandidateTime 2000 0 msmInitialState 0 <
        ((dtToDays ⟨2000 + 1, 0, 1, 0, 0, 0⟩ : ℚ) : ℝ) ∧
      (yearMoonPhases 2000 0 msmInitialState).Pairwise (· < ·) ∧
      (yearMoonPhases 2000 0 msmInitialState).length ≤ 15 := by
  have hmem : moonCandidateTime 2000 0 msmInitialState 0 ∈
      yearMoonPhases 2000 0 msmInitialState := by
    apply List.mem_filter.mpr
    exact ⟨List.mem_map_of_mem _ (List.mem_range.mpr (by norm_num)),
      decide_eq_true moonCandidate0_inYear⟩
  have h := yearMoonPhases_inside_year_ordered 2000 0 msmInitialState
  exact ⟨(h.1 _ hmem).1, (h.1 _ hmem).2, h.2.1 (by norm_num) (by norm_num) (by norm_num),
    h.2.2⟩

end MSM
